import Mathlib

/-!
# terraform-provider-ocp: reconciliation logic of the virtual-host resources

Shallow embedding of `internal/resources/virtual_host.go`,
`internal/resources/virtual_host_immutable.go`,
`internal/resources/virtual_host_caas.go`, of `Client.Do` in
`internal/client/client.go`, of the read functions of `internal/datasources`
and of the two maps of `Provider` in `provider.go`.

Modelling conventions
* `schema.ResourceData` is a record: the resource identifier, the typed
  attribute record of the schema, and the set of keys for which the SDK's
  `HasChange` answers true (it compares prior state with the plan and is not
  affected by `Set`). An attribute of the record is the value `d.Get` returns
  for its key.
* `client.Do(document, vars, &dst)` is a typed function per document: it
  returns either the error of `Do` or the decoded destination. Every function
  returns, next to the resource data and the diagnostics, the list of requests
  it handed to the executor, in order.
* `diag.Errorf(format, args...)` and `diag.FromErr(err)` are recorded as
  calls (format and arguments); `fmt.Sprintf` with the verbs `%s` and `%v`
  is rendered. `Diag.Summary` gives the text of a diagnostic; it takes the
  rendering of `%q` (Go's `strconv.Quote`) as a parameter.
* `Client.Do` is a function of the results of the library calls it makes
  (`Wire`) and of the destination's content.
* Go `int` is `Int`; the only arithmetic is `/ 1024`, Go's truncating
  division, `Int.tdiv`.
-/

namespace Ocp

/-! ## Diagnostics and formatting -/

/-- One diagnostic, recorded as the SDK call that built it. -/
inductive Diag where
  | errorf (format : String) (args : List String)
  | fromErr (err : String)
  deriving DecidableEq, Repr

/-- Mirror of `diag.Diagnostics.HasError`; every diagnostic built here has error severity. -/
def HasError (ds : List Diag) : Bool := !ds.isEmpty

/-- Rendering of the verb `%v` for a `[]string`: the elements separated by one blank, in square brackets. -/
def fmtStrings (xs : List String) : String := "[" ++ " ".intercalate xs ++ "]"

/-! ## Resource data -/

/-- Model of `schema.ResourceData` over the attribute record `α` of a schema. -/
structure ResourceData (α : Type) where
  id : String
  attrs : α
  changed : List String
  deriving DecidableEq, Repr

/-- Mirror of `d.Id()`. -/
def ResourceData.Id {α : Type} (d : ResourceData α) : String := d.id

/-- Mirror of `d.SetId(v)`. -/
def ResourceData.SetId {α : Type} (d : ResourceData α) (v : String) : ResourceData α :=
  { d with id := v }

/-- Mirror of `d.HasChange(key)`. -/
def ResourceData.HasChange {α : Type} (d : ResourceData α) (key : String) : Bool :=
  d.changed.contains key

/-- Mirror of `d.GetOk(key)` for a string attribute: the value, and whether it is non-zero. -/
def GetOkString (v : String) : Option String := if v = "" then none else some v

/-- One `interfaces` block of `ocp_virtual_host`, as the map handed over by the SDK;
an absent map key is `none`. -/
structure Interface where
  network_id : String
  auto_assign_ip : Option Bool
  ip : Option String
  deriving DecidableEq, Repr

/-- Attributes of the `ocp_virtual_host` schema. -/
structure VirtualHostAttrs where
  region : String
  customer_id : String
  project_id : String
  hostname : String
  domain_id : String
  allow_resize_restart : Bool
  cpu_count : Int
  cores_per_socket : Int
  memory_size_gb : Int
  tier_id : String
  template_id : String
  note : String
  data_protection_policy : String
  interfaces : List Interface
  uuid : String
  status : String
  deriving DecidableEq, Repr

/-- One `interfaces` block of `ocp_virtual_host_immutable`. -/
structure ImmutableInterface where
  network_id : String
  ip_list : Option (List String)
  deriving DecidableEq, Repr

/-- Attributes of the `ocp_virtual_host_immutable` schema; `local_disk_list` holds the `size_gb` of each block. -/
structure VirtualHostImmutableAttrs where
  region : String
  customer_id : String
  project_id : String
  hostname : String
  template_id : String
  tier_id : String
  cpu_count : Int
  cores_per_socket : Int
  memory_size_gb : Int
  note : String
  ignition_config_data : String
  ignition_config_data_encoding : String
  os_disk_size_gb : Int
  data_protection_policy : String
  allow_resize_restart : Bool
  notify_user : Bool
  cluster_type : String
  version : String
  anti_affinity : String
  business_service : String
  dedicated_cluster : String
  dedicated_dr_cluster : String
  interfaces : List ImmutableInterface
  local_disk_list : List Int
  uuid : String
  status : String
  deriving DecidableEq, Repr

/-- Attributes of the `ocp_virtual_host_caas` schema. -/
structure VirtualHostCaasAttrs where
  region : String
  vcenter_id : String
  project_id : String
  tier_id : String
  hostname : String
  uuid : String
  note : String
  customer_id : String
  status : String
  deriving DecidableEq, Repr

/-! ## Requests handed to the executor -/

/-- One element of `interfaceList` in `VirtualHostCreateInput`; an unset map key is `none`. -/
structure TemplateInterfaceInput where
  network : String
  autoAssignIp : Option Bool
  ipList : Option (List String)
  deriving DecidableEq, Repr

/-- The `input` map built by `ResourceVirtualHostCreate`. -/
structure VirtualHostCreateInput where
  region : String
  customer : String
  project : String
  hostname : String
  domain : String
  cpuCount : Int
  coresPerSocket : Int
  memorySizeGB : Int
  tier : String
  template : String
  note : String
  dataProtectionPolicy : String
  interfaceList : List TemplateInterfaceInput
  deriving DecidableEq, Repr

/-- The `input` map of the resize mutation; an unset map key is `none`. -/
structure VirtualHostResizeInput where
  virtualHost : String
  allowRestart : Bool
  cpuCount : Option Int
  coresPerSocket : Option Int
  memorySizeGB : Option Int
  deriving DecidableEq, Repr

/-- The `input` map of the tier-update mutation. -/
structure VirtualHostUpdateTierInput where
  virtualHost : String
  tier : String
  deriving DecidableEq, Repr

/-- One element of `interfaceList` in `VirtualHostCreateImmutableInput`. -/
structure ImmutableInterfaceInput where
  network : String
  ipList : Option (List String)
  deriving DecidableEq, Repr

/-- The `input` map built by `ResourceVirtualHostImmutableCreate`; an unset map key is `none`. -/
structure VirtualHostCreateImmutableInput where
  region : String
  customer : String
  project : String
  hostname : String
  template : String
  cpuCount : Int
  coresPerSocket : Int
  memorySizeGB : Int
  tier : String
  note : String
  ignitionConfigData : String
  ignitionConfigDataEncoding : String
  osDiskSizeGB : Int
  notifyUser : Bool
  clusterType : String
  dataProtectionPolicy : Option String
  antiAffinity : Option String
  businessService : Option String
  dedicatedCluster : Option String
  dedicatedDrCluster : Option String
  version : Option String
  interfaceList : Option (List ImmutableInterfaceInput)
  localDiskList : Option (List Int)
  deriving DecidableEq, Repr

/-- The `input` map built by `resourceVirtualHostCaasCreate`. -/
structure VirtualHostCreateCaasInput where
  vcenter : String
  hostname : String
  uuid : String
  note : String
  tier : String
  project : String
  region : String
  deriving DecidableEq, Repr

/-- The `input` map built by `resourceVirtualHostCaasUpdate`; an unset map key is `none`. -/
structure VirtualHostUpdateCaasInput where
  virtualHost : String
  note : Option String
  tier : Option String
  deriving DecidableEq, Repr

/-- A call of `client.Do`: the document (by the name of its Go constant) with its variables. -/
inductive Request where
  | mutationCreateVM (input : VirtualHostCreateInput)
  | queryGetVM (id : String)
  | mutationResizeVm (input : VirtualHostResizeInput)
  | mutationUpdateVmTier (input : VirtualHostUpdateTierInput)
  | mutationDelete (virtualHost : String)
  | mutationCreateImmutableVM (input : VirtualHostCreateImmutableInput)
  | mutationVirtualHostCreateCaas (input : VirtualHostCreateCaasInput)
  | mutationVirtualHostUpdateCaas (input : VirtualHostUpdateCaasInput)
  | mutationVirtualHostDeleteCaas (virtualHost : String)
  | queryGetVirtualHostCaas (id : String)
  deriving DecidableEq, Repr

/-! ## Decoded responses -/

/-- The `virtualHost` object of the create payloads (`domain` is not selected by the immutable
document and then decodes to the zero value). -/
structure VirtualHost where
  ID : String
  UUID : String
  Hostname : String
  State : String
  CpuCount : Int
  CoresPerSocket : Int
  MemorySizeMB : Int
  Tier : String
  Domain : String
  Template : String
  Project : String
  Customer : String
  Region : String
  deriving DecidableEq, Repr

/-- Mirror of `fieldMessages`, `gqlFieldError`, `caasFieldError` and `immutableFieldMessages`. -/
structure FieldMessages where
  Field : String
  Messages : List String
  deriving DecidableEq, Repr

/-- Mirror of `virtualHostCreatePayload` (and of the anonymous immutable create payload). -/
structure VirtualHostCreatePayload where
  Typename : String
  VirtualHost : Option VirtualHost
  Message : String
  Errors : List FieldMessages
  Reasons : List String
  deriving DecidableEq, Repr

/-- Mirror of the anonymous payload struct of `virtualHostResize` and `virtualHostUpdateTier`. -/
structure TaskPayload where
  Typename : String
  Message : String
  Errors : List FieldMessages
  Reasons : List String
  deriving DecidableEq, Repr

/-- An entry of `ipv4Addresses` or `ipv6Addresses`. -/
structure IPAddress where
  IP : String
  Prefixlen : Int
  deriving DecidableEq, Repr

/-- An entry of `networkInterfaceList` in the answer to `queryGetVM`. -/
structure NetworkInterface where
  Network : String
  IPv4Addresses : List IPAddress
  IPv6Addresses : List IPAddress
  StartConnected : Bool
  deriving DecidableEq, Repr

/-- The `virtualHost` object in the answer to `queryGetVM`; a null `dataProtectionPolicy` is `none`. -/
structure VirtualHostNode where
  ID : String
  UUID : String
  Hostname : String
  State : String
  CpuCount : Int
  CoresPerSocket : Int
  MemorySizeMB : Int
  Note : String
  DataProtectionPolicy : Option String
  NetworkInterfaceList : List NetworkInterface
  Tier : String
  Domain : String
  Template : String
  Project : String
  Customer : String
  Region : String
  deriving DecidableEq, Repr

/-- Mirror of `caasPayload`. -/
structure caasPayload where
  Typename : String
  Message : String
  Errors : List FieldMessages
  Reasons : List String
  ID : String
  UUID : String
  Hostname : String
  Note : String
  State : String
  Region : String
  Tier : String
  Project : String
  Customer : String
  Vcenter : String
  deriving DecidableEq, Repr

/-- The `virtualHost` object in the answer to `queryGetVirtualHostCaas`. -/
structure CaasVirtualHost where
  ID : String
  UUID : String
  Hostname : String
  Note : String
  State : String
  Region : String
  Tier : String
  Project : String
  Customer : String
  Vcenter : String
  deriving DecidableEq, Repr

/-- The executor: for each document, the error returned by `client.Do` or the destination it decoded. -/
structure Client where
  CreateVm : VirtualHostCreateInput → Except String VirtualHostCreatePayload
  GetVm : String → Except String (Option VirtualHostNode)
  ResizeVm : VirtualHostResizeInput → Except String TaskPayload
  UpdateVmTier : VirtualHostUpdateTierInput → Except String TaskPayload
  DeleteVm : String → Except String String
  CreateVmImmutable : VirtualHostCreateImmutableInput → Except String VirtualHostCreatePayload
  CreateVirtualHostCaas : VirtualHostCreateCaasInput → Except String caasPayload
  UpdateVirtualHostCaas : VirtualHostUpdateCaasInput → Except String caasPayload
  DeleteVirtualHostCaas : String → Except String caasPayload
  GetVirtualHostCaas : String → Except String (Option CaasVirtualHost)

/-- What a CRUD function leaves behind: the resource data, the returned diagnostics and the
requests it sent, in order. -/
structure Outcome (α : Type) where
  d : ResourceData α
  diags : List Diag
  requests : List Request

/-! ## `virtual_host.go` -/

/-- The loop of `ResourceVirtualHostCreate` body for one `interfaces` block. -/
def templateInterfaceInput (m : Interface) : TemplateInterfaceInput :=
  { network := m.network_id
    autoAssignIp := m.auto_assign_ip
    ipList :=
      match m.ip with
      | some ip => if ip ≠ "" then some [ip] else none
      | none => none }

/-- The `input` map of `ResourceVirtualHostCreate`. -/
def virtualHostCreateInput (d : ResourceData VirtualHostAttrs) : VirtualHostCreateInput :=
  { region := d.attrs.region
    customer := d.attrs.customer_id
    project := d.attrs.project_id
    hostname := d.attrs.hostname
    domain := d.attrs.domain_id
    cpuCount := d.attrs.cpu_count
    coresPerSocket := d.attrs.cores_per_socket
    memorySizeGB := d.attrs.memory_size_gb
    tier := d.attrs.tier_id
    template := d.attrs.template_id
    note := d.attrs.note
    dataProtectionPolicy := d.attrs.data_protection_policy
    interfaceList := d.attrs.interfaces.map templateInterfaceInput }

/-- The message of the `ValidationErrors` case of the two create functions. -/
def createValidationMessage (payload : VirtualHostCreatePayload) : String :=
  let msg := payload.Message
  let msg :=
    if payload.Errors.length > 0 then
      let details := payload.Errors.foldl
        (fun details e => details ++ (e.Field ++ ": " ++ fmtStrings e.Messages ++ "; ")) ""
      msg ++ " (" ++ details ++ ")"
    else msg
  if msg = "" then "validation failed without message" else msg

/-- Mirror of `ResourceVirtualHostCreate`. -/
def ResourceVirtualHostCreate (d : ResourceData VirtualHostAttrs) (client : Client) :
    Outcome VirtualHostAttrs :=
  if d.attrs.interfaces.length = 0 then
    ⟨d, [Diag.errorf "at least 1 interfaces block is required" []], []⟩
  else
    let input := virtualHostCreateInput d
    let sent := [Request.mutationCreateVM input]
    match client.CreateVm input with
    | .error err => ⟨d, [Diag.fromErr err], sent⟩
    | .ok payload =>
      if payload.Typename = "VirtualHostCreated" then
        match payload.VirtualHost with
        | none =>
          ⟨d, [Diag.errorf "virtualHostCreate: backend returned VirtualHostCreated without virtualHost" []], sent⟩
        | some vm =>
          let d := d.SetId vm.ID
          let d := { d with attrs := { d.attrs with
            uuid := vm.UUID
            hostname := vm.Hostname
            cpu_count := vm.CpuCount
            cores_per_socket := vm.CoresPerSocket
            memory_size_gb := vm.MemorySizeMB.tdiv 1024
            status := vm.State
            project_id := vm.Project
            customer_id := vm.Customer
            domain_id := vm.Domain
            tier_id := vm.Tier
            template_id := vm.Template
            region := vm.Region } }
          ⟨d, [], sent⟩
      else if payload.Typename = "ValidationErrors" then
        ⟨d, [Diag.errorf "virtualHostCreate: %s" [createValidationMessage payload]], sent⟩
      else if payload.Typename = "Unauthorized" ∨ payload.Typename = "OperationUnavailable" then
        let msg := if payload.Message = "" then payload.Typename else payload.Message
        ⟨d, [Diag.errorf "virtualHostCreate: %s" [msg]], sent⟩
      else
        ⟨d, [Diag.errorf "virtualHostCreate: unexpected payload type %q" [payload.Typename]], sent⟩

/-- The body of the interface loop of `ResourceVirtualHostRead`: one backend interface as an
`interfaces` block. -/
def interfaceOfNetworkInterface (ni : NetworkInterface) : Interface :=
  match ni.IPv4Addresses with
  | a :: _ => { network_id := ni.Network, auto_assign_ip := some false, ip := some a.IP }
  | [] => { network_id := ni.Network, auto_assign_ip := some true, ip := none }

/-- Mirror of `ResourceVirtualHostRead`. -/
def ResourceVirtualHostRead (d : ResourceData VirtualHostAttrs) (client : Client) :
    Outcome VirtualHostAttrs :=
  let sent := [Request.queryGetVM d.Id]
  match client.GetVm d.Id with
  | .error err => ⟨d, [Diag.fromErr err], sent⟩
  | .ok none => ⟨d.SetId "", [], sent⟩
  | .ok (some vh) =>
    let d := { d with attrs := { d.attrs with
      uuid := vh.UUID
      hostname := vh.Hostname
      status := vh.State
      cpu_count := vh.CpuCount
      cores_per_socket := vh.CoresPerSocket
      memory_size_gb := vh.MemorySizeMB.tdiv 1024
      allow_resize_restart := d.attrs.allow_resize_restart
      note := vh.Note
      data_protection_policy :=
        match vh.DataProtectionPolicy with
        | some id => id
        | none => d.attrs.data_protection_policy
      tier_id := vh.Tier
      domain_id := vh.Domain
      template_id := vh.Template
      project_id := vh.Project
      customer_id := vh.Customer
      region := vh.Region } }
    let d :=
      if d.attrs.interfaces.length = 0 then
        { d with attrs := { d.attrs with
          interfaces := vh.NetworkInterfaceList.map interfaceOfNetworkInterface } }
      else d
    ⟨d, [], sent⟩

/-- The message of the `ValidationErrors` case of resize and tier update. -/
def taskValidationMessage (p : TaskPayload) : String :=
  let msg := p.Errors.foldl
    (fun msg e => msg ++ (" " ++ e.Field ++ ": " ++ fmtStrings e.Messages ++ ";")) p.Message
  if msg = "" then "validation failed without message" else msg

/-- The message of the `Unauthorized`, `OperationUnavailable` case of resize and tier update. -/
def taskRefusalMessage (p : TaskPayload) : String :=
  let msg := p.Message
  let msg := if p.Reasons.length > 0 then msg ++ " (reasons=" ++ fmtStrings p.Reasons ++ ")" else msg
  if msg = "" then p.Typename else msg

/-- The `switch p.Typename` on the answer of `virtualHostResize`: `none` when the job was
started (control falls through), the returned diagnostics otherwise. -/
def resizeSwitch (p : TaskPayload) : Option (List Diag) :=
  if p.Typename = "TaskExecutionNode" then none
  else if p.Typename = "ValidationErrors" then
    some [Diag.errorf "virtualHostResize: %s" [taskValidationMessage p]]
  else if p.Typename = "Unauthorized" ∨ p.Typename = "OperationUnavailable" then
    some [Diag.errorf "virtualHostResize: %s" [taskRefusalMessage p]]
  else
    some [Diag.errorf "virtualHostResize: unexpected payload type %q" [p.Typename]]

/-- The `switch p.Typename` on the answer of `virtualHostUpdateTier`. -/
def updateTierSwitch (p : TaskPayload) : Option (List Diag) :=
  if p.Typename = "TaskExecutionNode" then none
  else if p.Typename = "ValidationErrors" then
    some [Diag.errorf "virtualHostUpdateTier: %s" [taskValidationMessage p]]
  else if p.Typename = "Unauthorized" ∨ p.Typename = "OperationUnavailable" then
    some [Diag.errorf "virtualHostUpdateTier: %s" [taskRefusalMessage p]]
  else
    some [Diag.errorf "virtualHostUpdateTier: unexpected payload type %q" [p.Typename]]

/-- The `input` map of the `if sizingChanged` block of `ResourceVirtualHostUpdate`. -/
def resizeInput (d : ResourceData VirtualHostAttrs) : VirtualHostResizeInput :=
  { virtualHost := d.Id
    allowRestart := d.attrs.allow_resize_restart
    cpuCount := if d.HasChange "cpu_count" then some d.attrs.cpu_count else none
    coresPerSocket :=
      if d.HasChange "cores_per_socket" then some d.attrs.cores_per_socket else none
    memorySizeGB := if d.HasChange "memory_size_gb" then some d.attrs.memory_size_gb else none }

/-- The `if sizingChanged` block of `ResourceVirtualHostUpdate`: the diagnostics it returns
with (`none` when control falls through) and the requests it sent. -/
def resizeBlock (d : ResourceData VirtualHostAttrs) (client : Client) :
    Option (List Diag) × List Request :=
  let input := resizeInput d
  match client.ResizeVm input with
  | .error err => (some [Diag.fromErr err], [Request.mutationResizeVm input])
  | .ok p => (resizeSwitch p, [Request.mutationResizeVm input])

/-- The `input` map of the `if tierChanged` block of `ResourceVirtualHostUpdate`. -/
def updateTierInput (d : ResourceData VirtualHostAttrs) : VirtualHostUpdateTierInput :=
  { virtualHost := d.Id, tier := d.attrs.tier_id }

/-- The `if tierChanged` block of `ResourceVirtualHostUpdate`. -/
def updateTierBlock (d : ResourceData VirtualHostAttrs) (client : Client) :
    Option (List Diag) × List Request :=
  let input := updateTierInput d
  match client.UpdateVmTier input with
  | .error err => (some [Diag.fromErr err], [Request.mutationUpdateVmTier input])
  | .ok p => (updateTierSwitch p, [Request.mutationUpdateVmTier input])

/-- The diagnostic of the constraint guard of `ResourceVirtualHostUpdate`. -/
def updateGuardDiag : Diag :=
  Diag.errorf
    ("ocp_virtual_host: simultaneous change of sizing (cpu_count/cores_per_socket/memory_size_gb) and tier_id in a single apply is not supported. " ++
      "Please apply sizing changes first, wait for the job to finish, and then apply tier change in a separate terraform apply.")
    []

/-- Mirror of `ResourceVirtualHostUpdate`. -/
def ResourceVirtualHostUpdate (d : ResourceData VirtualHostAttrs) (client : Client) :
    Outcome VirtualHostAttrs :=
  let sizingChanged :=
    d.HasChange "cpu_count" || d.HasChange "cores_per_socket" || d.HasChange "memory_size_gb"
  let tierChanged := d.HasChange "tier_id"
  let changeGroups : Nat := (if sizingChanged then 1 else 0) + (if tierChanged then 1 else 0)
  if changeGroups = 0 then ResourceVirtualHostRead d client
  else if changeGroups > 1 then ⟨d, [updateGuardDiag], []⟩
  else
    match (if sizingChanged then resizeBlock d client else (none, [])) with
    | (some ds, sent) => ⟨d, ds, sent⟩
    | (none, sent) =>
      match (if tierChanged then updateTierBlock d client else (none, [])) with
      | (some ds, sent2) => ⟨d, ds, sent ++ sent2⟩
      | (none, sent2) =>
        let r := ResourceVirtualHostRead d client
        ⟨r.d, r.diags, sent ++ sent2 ++ r.requests⟩

/-- Mirror of `ResourceVirtualHostDelete`, the delete function of `ocp_virtual_host` and of
`ocp_virtual_host_immutable`; the decoded `__typename` is dropped. -/
def ResourceVirtualHostDelete {α : Type} (d : ResourceData α) (client : Client) : Outcome α :=
  let sent := [Request.mutationDelete d.Id]
  match client.DeleteVm d.Id with
  | .error err => ⟨d, [Diag.fromErr err], sent⟩
  | .ok _ => ⟨d.SetId "", [], sent⟩

/-! ## `virtual_host_immutable.go` -/

/-- The body of the interface loop of `ResourceVirtualHostImmutableCreate`. -/
def immutableInterfaceInput (m : ImmutableInterface) : ImmutableInterfaceInput :=
  { network := m.network_id
    ipList :=
      match m.ip_list with
      | some ips => if ips.length > 0 then some ips else none
      | none => none }

/-- The `input` map of `ResourceVirtualHostImmutableCreate`. -/
def virtualHostCreateImmutableInput (d : ResourceData VirtualHostImmutableAttrs) :
    VirtualHostCreateImmutableInput :=
  { region := d.attrs.region
    customer := d.attrs.customer_id
    project := d.attrs.project_id
    hostname := d.attrs.hostname
    template := d.attrs.template_id
    cpuCount := d.attrs.cpu_count
    coresPerSocket := d.attrs.cores_per_socket
    memorySizeGB := d.attrs.memory_size_gb
    tier := d.attrs.tier_id
    note := d.attrs.note
    ignitionConfigData := d.attrs.ignition_config_data
    ignitionConfigDataEncoding := d.attrs.ignition_config_data_encoding
    osDiskSizeGB := d.attrs.os_disk_size_gb
    notifyUser := d.attrs.notify_user
    clusterType := d.attrs.cluster_type
    dataProtectionPolicy := GetOkString d.attrs.data_protection_policy
    antiAffinity := GetOkString d.attrs.anti_affinity
    businessService := GetOkString d.attrs.business_service
    dedicatedCluster := GetOkString d.attrs.dedicated_cluster
    dedicatedDrCluster := GetOkString d.attrs.dedicated_dr_cluster
    version := GetOkString d.attrs.version
    interfaceList :=
      if d.attrs.interfaces.length > 0 then
        some (d.attrs.interfaces.map immutableInterfaceInput)
      else none
    localDiskList :=
      if d.attrs.local_disk_list.length > 0 then some d.attrs.local_disk_list else none }

/-- The message of the `ValidationErrors` case of `ResourceVirtualHostImmutableCreate`. -/
def immutableCreateValidationMessage (payload : VirtualHostCreatePayload) : String :=
  let msg := payload.Message
  let msg :=
    if payload.Errors.length > 0 then
      let details := payload.Errors.foldl
        (fun details e => details ++ (e.Field ++ ": " ++ fmtStrings e.Messages ++ "; ")) ""
      msg ++ " (" ++ details ++ ")"
    else msg
  if msg = "" then "validation failed without message" else msg

/-- Mirror of `ResourceVirtualHostImmutableCreate`. The attributes the function reads back
with `Get`/`GetOk` and writes unchanged are written unchanged here too. -/
def ResourceVirtualHostImmutableCreate (d : ResourceData VirtualHostImmutableAttrs)
    (client : Client) : Outcome VirtualHostImmutableAttrs :=
  let input := virtualHostCreateImmutableInput d
  let sent := [Request.mutationCreateImmutableVM input]
  match client.CreateVmImmutable input with
  | .error err => ⟨d, [Diag.fromErr err], sent⟩
  | .ok payload =>
    if payload.Typename = "VirtualHostCreated" then
      match payload.VirtualHost with
      | none =>
        ⟨d, [Diag.errorf "virtualHostCreateImmutable: backend returned VirtualHostCreated without virtualHost" []], sent⟩
      | some vm =>
        let d := d.SetId vm.ID
        let d := { d with attrs := { d.attrs with
          uuid := vm.UUID
          hostname := vm.Hostname
          cpu_count := vm.CpuCount
          cores_per_socket := vm.CoresPerSocket
          memory_size_gb := vm.MemorySizeMB.tdiv 1024
          status := vm.State
          project_id := vm.Project
          customer_id := vm.Customer
          tier_id := vm.Tier
          template_id := vm.Template
          region := vm.Region
          note := d.attrs.note
          data_protection_policy :=
            (GetOkString d.attrs.data_protection_policy).getD d.attrs.data_protection_policy
          ignition_config_data := d.attrs.ignition_config_data
          ignition_config_data_encoding := d.attrs.ignition_config_data_encoding
          os_disk_size_gb := d.attrs.os_disk_size_gb
          notify_user := d.attrs.notify_user
          cluster_type := d.attrs.cluster_type
          version := (GetOkString d.attrs.version).getD d.attrs.version
          anti_affinity := (GetOkString d.attrs.anti_affinity).getD d.attrs.anti_affinity
          business_service := (GetOkString d.attrs.business_service).getD d.attrs.business_service
          dedicated_cluster :=
            (GetOkString d.attrs.dedicated_cluster).getD d.attrs.dedicated_cluster
          dedicated_dr_cluster :=
            (GetOkString d.attrs.dedicated_dr_cluster).getD d.attrs.dedicated_dr_cluster
          interfaces := d.attrs.interfaces
          local_disk_list := d.attrs.local_disk_list } }
        ⟨d, [], sent⟩
    else if payload.Typename = "ValidationErrors" then
      ⟨d, [Diag.errorf "virtualHostCreateImmutable: %s" [immutableCreateValidationMessage payload]], sent⟩
    else if payload.Typename = "Unauthorized" ∨ payload.Typename = "OperationUnavailable" then
      let msg := if payload.Message = "" then payload.Typename else payload.Message
      ⟨d, [Diag.errorf "virtualHostCreateImmutable: %s" [msg]], sent⟩
    else
      ⟨d, [Diag.errorf "virtualHostCreateImmutable: unexpected payload type %q" [payload.Typename]], sent⟩

/-- The body of the interface loop of `ResourceVirtualHostImmutableRead`. -/
def immutableInterfaceOfNetworkInterface (ni : NetworkInterface) : ImmutableInterface :=
  { network_id := ni.Network
    ip_list :=
      if ni.IPv4Addresses.length > 0 then some (ni.IPv4Addresses.map (fun ip => ip.IP))
      else none }

/-- Mirror of `ResourceVirtualHostImmutableRead`; it sends the document `queryGetVM`. -/
def ResourceVirtualHostImmutableRead (d : ResourceData VirtualHostImmutableAttrs)
    (client : Client) : Outcome VirtualHostImmutableAttrs :=
  let sent := [Request.queryGetVM d.Id]
  match client.GetVm d.Id with
  | .error err => ⟨d, [Diag.fromErr err], sent⟩
  | .ok none => ⟨d.SetId "", [], sent⟩
  | .ok (some vh) =>
    let d := { d with attrs := { d.attrs with
      uuid := vh.UUID
      hostname := vh.Hostname
      status := vh.State
      cpu_count := vh.CpuCount
      cores_per_socket := vh.CoresPerSocket
      memory_size_gb := vh.MemorySizeMB.tdiv 1024
      note := vh.Note
      data_protection_policy :=
        match vh.DataProtectionPolicy with
        | some id => id
        | none => d.attrs.data_protection_policy
      tier_id := vh.Tier
      template_id := vh.Template
      project_id := vh.Project
      customer_id := vh.Customer
      region := vh.Region
      allow_resize_restart := d.attrs.allow_resize_restart
      ignition_config_data := d.attrs.ignition_config_data
      ignition_config_data_encoding := d.attrs.ignition_config_data_encoding
      os_disk_size_gb := d.attrs.os_disk_size_gb
      notify_user := d.attrs.notify_user
      cluster_type := d.attrs.cluster_type
      version := (GetOkString d.attrs.version).getD d.attrs.version
      anti_affinity := (GetOkString d.attrs.anti_affinity).getD d.attrs.anti_affinity
      business_service := (GetOkString d.attrs.business_service).getD d.attrs.business_service
      dedicated_cluster := (GetOkString d.attrs.dedicated_cluster).getD d.attrs.dedicated_cluster
      dedicated_dr_cluster :=
        (GetOkString d.attrs.dedicated_dr_cluster).getD d.attrs.dedicated_dr_cluster
      local_disk_list := d.attrs.local_disk_list } }
    let d :=
      if d.attrs.interfaces.length = 0 then
        { d with attrs := { d.attrs with
          interfaces := vh.NetworkInterfaceList.map immutableInterfaceOfNetworkInterface } }
      else d
    ⟨d, [], sent⟩

/-- The message of the `ValidationErrors` case in `ResourceVirtualHostImmutableUpdate`. -/
def immutableTaskValidationMessage (p : TaskPayload) : String :=
  let msg := p.Errors.foldl
    (fun msg e => msg ++ (" " ++ e.Field ++ ": " ++ fmtStrings e.Messages ++ ";")) p.Message
  if msg = "" then "validation failed without message" else msg

/-- The message of the `Unauthorized`, `OperationUnavailable` case in
`ResourceVirtualHostImmutableUpdate`. -/
def immutableTaskRefusalMessage (p : TaskPayload) : String :=
  let msg := p.Message
  let msg := if p.Reasons.length > 0 then msg ++ " (reasons=" ++ fmtStrings p.Reasons ++ ")" else msg
  if msg = "" then p.Typename else msg

/-- The `switch p.Typename` on the resize answer in `ResourceVirtualHostImmutableUpdate`. -/
def immutableResizeSwitch (p : TaskPayload) : Option (List Diag) :=
  if p.Typename = "TaskExecutionNode" then none
  else if p.Typename = "ValidationErrors" then
    some [Diag.errorf "virtualHostResize: %s" [immutableTaskValidationMessage p]]
  else if p.Typename = "Unauthorized" ∨ p.Typename = "OperationUnavailable" then
    some [Diag.errorf "virtualHostResize: %s" [immutableTaskRefusalMessage p]]
  else
    some [Diag.errorf "virtualHostResize: unexpected payload type %q" [p.Typename]]

/-- The `switch p.Typename` on the tier-update answer in `ResourceVirtualHostImmutableUpdate`. -/
def immutableUpdateTierSwitch (p : TaskPayload) : Option (List Diag) :=
  if p.Typename = "TaskExecutionNode" then none
  else if p.Typename = "ValidationErrors" then
    some [Diag.errorf "virtualHostUpdateTier: %s" [immutableTaskValidationMessage p]]
  else if p.Typename = "Unauthorized" ∨ p.Typename = "OperationUnavailable" then
    some [Diag.errorf "virtualHostUpdateTier: %s" [immutableTaskRefusalMessage p]]
  else
    some [Diag.errorf "virtualHostUpdateTier: unexpected payload type %q" [p.Typename]]

/-- The `input` map of the `if sizingChanged` block of `ResourceVirtualHostImmutableUpdate`. -/
def immutableResizeInput (d : ResourceData VirtualHostImmutableAttrs) : VirtualHostResizeInput :=
  { virtualHost := d.Id
    allowRestart := d.attrs.allow_resize_restart
    cpuCount := if d.HasChange "cpu_count" then some d.attrs.cpu_count else none
    coresPerSocket :=
      if d.HasChange "cores_per_socket" then some d.attrs.cores_per_socket else none
    memorySizeGB := if d.HasChange "memory_size_gb" then some d.attrs.memory_size_gb else none }

/-- The `if sizingChanged` block of `ResourceVirtualHostImmutableUpdate`. -/
def immutableResizeBlock (d : ResourceData VirtualHostImmutableAttrs) (client : Client) :
    Option (List Diag) × List Request :=
  let input := immutableResizeInput d
  match client.ResizeVm input with
  | .error err => (some [Diag.fromErr err], [Request.mutationResizeVm input])
  | .ok p => (immutableResizeSwitch p, [Request.mutationResizeVm input])

/-- The `input` map of the `if tierChanged` block of `ResourceVirtualHostImmutableUpdate`. -/
def immutableUpdateTierInput (d : ResourceData VirtualHostImmutableAttrs) :
    VirtualHostUpdateTierInput :=
  { virtualHost := d.Id, tier := d.attrs.tier_id }

/-- The `if tierChanged` block of `ResourceVirtualHostImmutableUpdate`. -/
def immutableUpdateTierBlock (d : ResourceData VirtualHostImmutableAttrs) (client : Client) :
    Option (List Diag) × List Request :=
  let input := immutableUpdateTierInput d
  match client.UpdateVmTier input with
  | .error err => (some [Diag.fromErr err], [Request.mutationUpdateVmTier input])
  | .ok p => (immutableUpdateTierSwitch p, [Request.mutationUpdateVmTier input])

/-- The diagnostic of the constraint guard of `ResourceVirtualHostImmutableUpdate`. -/
def immutableUpdateGuardDiag : Diag :=
  Diag.errorf
    ("ocp_virtual_host_immutable: simultaneous change of sizing (cpu_count/cores_per_socket/memory_size_gb) and tier_id in a single apply is not supported. " ++
      "Please apply sizing changes first, wait for the job to finish, and then apply tier change in a separate terraform apply.")
    []

/-- Mirror of `ResourceVirtualHostImmutableUpdate`. -/
def ResourceVirtualHostImmutableUpdate (d : ResourceData VirtualHostImmutableAttrs)
    (client : Client) : Outcome VirtualHostImmutableAttrs :=
  let sizingChanged :=
    d.HasChange "cpu_count" || d.HasChange "cores_per_socket" || d.HasChange "memory_size_gb"
  let tierChanged := d.HasChange "tier_id"
  let changeGroups : Nat := (if sizingChanged then 1 else 0) + (if tierChanged then 1 else 0)
  if changeGroups = 0 then ResourceVirtualHostImmutableRead d client
  else if changeGroups > 1 then ⟨d, [immutableUpdateGuardDiag], []⟩
  else
    match (if sizingChanged then immutableResizeBlock d client else (none, [])) with
    | (some ds, sent) => ⟨d, ds, sent⟩
    | (none, sent) =>
      match (if tierChanged then immutableUpdateTierBlock d client else (none, [])) with
      | (some ds, sent2) => ⟨d, ds, sent ++ sent2⟩
      | (none, sent2) =>
        let r := ResourceVirtualHostImmutableRead d client
        ⟨r.d, r.diags, sent ++ sent2 ++ r.requests⟩

/-! ## `virtual_host_caas.go` -/

/-- Mirror of `formatValidationMessage`. -/
def formatValidationMessage (p : caasPayload) : String :=
  let msg := p.Errors.foldl
    (fun msg e => msg ++ (" " ++ e.Field ++ ": " ++ fmtStrings e.Messages ++ ";")) p.Message
  if msg = "" then "validation failed without message" else msg

/-- The message of the `Unauthorized`, `OperationUnavailable` case of the shadow mutations. -/
def caasRefusalMessage (p : caasPayload) : String :=
  let msg := p.Message
  let msg := if p.Reasons.length > 0 then msg ++ " (reasons=" ++ fmtStrings p.Reasons ++ ")" else msg
  if msg = "" then p.Typename else msg

/-- The `input` map of `resourceVirtualHostCaasCreate`. -/
def virtualHostCreateCaasInput (d : ResourceData VirtualHostCaasAttrs) :
    VirtualHostCreateCaasInput :=
  { vcenter := d.attrs.vcenter_id
    hostname := d.attrs.hostname
    uuid := d.attrs.uuid
    note := d.attrs.note
    tier := d.attrs.tier_id
    project := d.attrs.project_id
    region := d.attrs.region }

/-- The `input` map of `resourceVirtualHostCaasUpdate`. -/
def virtualHostUpdateCaasInput (d : ResourceData VirtualHostCaasAttrs) :
    VirtualHostUpdateCaasInput :=
  { virtualHost := d.Id
    note := if d.HasChange "note" then some d.attrs.note else none
    tier := if d.HasChange "tier_id" then some d.attrs.tier_id else none }

/-- Mirror of `resourceVirtualHostCaasCreate`. -/
def resourceVirtualHostCaasCreate (d : ResourceData VirtualHostCaasAttrs) (client : Client) :
    Outcome VirtualHostCaasAttrs :=
  let input := virtualHostCreateCaasInput d
  let sent := [Request.mutationVirtualHostCreateCaas input]
  match client.CreateVirtualHostCaas input with
  | .error err => ⟨d, [Diag.fromErr err], sent⟩
  | .ok p =>
    if p.Typename = "VirtualHostNode" then
      if p.ID = "" then
        ⟨d, [Diag.errorf "virtualHostCreateCaas: backend returned VirtualHostNode without id" []], sent⟩
      else
        let d := d.SetId p.ID
        let d := { d with attrs := { d.attrs with
          uuid := p.UUID
          hostname := p.Hostname
          note := p.Note
          status := p.State
          region := p.Region
          tier_id := p.Tier
          project_id := p.Project
          customer_id := p.Customer
          vcenter_id := p.Vcenter } }
        ⟨d, [], sent⟩
    else if p.Typename = "ValidationErrors" then
      ⟨d, [Diag.errorf "virtualHostCreateCaas: %s" [formatValidationMessage p]], sent⟩
    else if p.Typename = "Unauthorized" ∨ p.Typename = "OperationUnavailable" then
      ⟨d, [Diag.errorf "virtualHostCreateCaas: %s" [caasRefusalMessage p]], sent⟩
    else
      ⟨d, [Diag.errorf "virtualHostCreateCaas: unexpected payload type %q" [p.Typename]], sent⟩

/-- Mirror of `resourceVirtualHostCaasRead`. -/
def resourceVirtualHostCaasRead (d : ResourceData VirtualHostCaasAttrs) (client : Client) :
    Outcome VirtualHostCaasAttrs :=
  let sent := [Request.queryGetVirtualHostCaas d.Id]
  match client.GetVirtualHostCaas d.Id with
  | .error err => ⟨d, [Diag.fromErr err], sent⟩
  | .ok none => ⟨d.SetId "", [], sent⟩
  | .ok (some vh) =>
    let d := { d with attrs := { d.attrs with
      uuid := vh.UUID
      hostname := vh.Hostname
      note := vh.Note
      status := vh.State
      region := vh.Region
      tier_id := vh.Tier
      project_id := vh.Project
      customer_id := vh.Customer
      vcenter_id := vh.Vcenter } }
    ⟨d, [], sent⟩

/-- Mirror of `resourceVirtualHostCaasUpdate`. -/
def resourceVirtualHostCaasUpdate (d : ResourceData VirtualHostCaasAttrs) (client : Client) :
    Outcome VirtualHostCaasAttrs :=
  let changed := d.HasChange "note" || d.HasChange "tier_id"
  if !changed then resourceVirtualHostCaasRead d client
  else
    let input := virtualHostUpdateCaasInput d
    let sent := [Request.mutationVirtualHostUpdateCaas input]
    match client.UpdateVirtualHostCaas input with
    | .error err => ⟨d, [Diag.fromErr err], sent⟩
    | .ok p =>
      if p.Typename = "VirtualHostNode" then
        let r := resourceVirtualHostCaasRead d client
        ⟨r.d, r.diags, sent ++ r.requests⟩
      else if p.Typename = "ValidationErrors" then
        ⟨d, [Diag.errorf "virtualHostUpdateCaas: %s" [formatValidationMessage p]], sent⟩
      else if p.Typename = "Unauthorized" ∨ p.Typename = "OperationUnavailable" then
        ⟨d, [Diag.errorf "virtualHostUpdateCaas: %s" [caasRefusalMessage p]], sent⟩
      else
        ⟨d, [Diag.errorf "virtualHostUpdateCaas: unexpected payload type %q" [p.Typename]], sent⟩

/-- Mirror of `resourceVirtualHostCaasDelete`. -/
def resourceVirtualHostCaasDelete (d : ResourceData VirtualHostCaasAttrs) (client : Client) :
    Outcome VirtualHostCaasAttrs :=
  let sent := [Request.mutationVirtualHostDeleteCaas d.Id]
  match client.DeleteVirtualHostCaas d.Id with
  | .error err => ⟨d, [Diag.fromErr err], sent⟩
  | .ok p =>
    if p.Typename = "VirtualHostNode" then ⟨d.SetId "", [], sent⟩
    else if p.Typename = "ValidationErrors" then
      ⟨d, [Diag.errorf "virtualHostDeleteCaas: %s" [formatValidationMessage p]], sent⟩
    else if p.Typename = "Unauthorized" ∨ p.Typename = "OperationUnavailable" then
      ⟨d, [Diag.errorf "virtualHostDeleteCaas: %s" [caasRefusalMessage p]], sent⟩
    else
      ⟨d, [Diag.errorf "virtualHostDeleteCaas: unexpected payload type %q" [p.Typename]], sent⟩

/-! ## Concrete data, after the repository's tests -/

/-- The configuration of `TestResourceVirtualHostCreate`. -/
def testAttrs : VirtualHostAttrs :=
  { region := "FINLAND"
    customer_id := "customer-1"
    project_id := "project-1"
    hostname := "app-1"
    domain_id := "domain-1"
    allow_resize_restart := true
    cpu_count := 2
    cores_per_socket := 1
    memory_size_gb := 8
    tier_id := "tier-1"
    template_id := "template-1"
    note := "managed-by-terraform"
    data_protection_policy := "policy-1"
    interfaces := [{ network_id := "net-1", auto_assign_ip := some true, ip := some "" }]
    uuid := ""
    status := "" }

/-- The configuration of `TestResourceVirtualHostImmutableCreate`, with the schema defaults. -/
def testImmutableAttrs : VirtualHostImmutableAttrs :=
  { region := "FINLAND"
    customer_id := "customer-1"
    project_id := "project-1"
    hostname := "immutable-vm"
    template_id := "template-1"
    tier_id := "tier-1"
    cpu_count := 4
    cores_per_socket := 1
    memory_size_gb := 16
    note := "managed-by-terraform"
    ignition_config_data := "aWduaXRpb24="
    ignition_config_data_encoding := "BASE64"
    os_disk_size_gb := 20
    data_protection_policy := ""
    allow_resize_restart := true
    notify_user := false
    cluster_type := "PRIMARY"
    version := ""
    anti_affinity := ""
    business_service := ""
    dedicated_cluster := ""
    dedicated_dr_cluster := ""
    interfaces := []
    local_disk_list := []
    uuid := ""
    status := "" }

/-- The configuration of `TestResourceVirtualHostCaasCreate`. -/
def testCaasAttrs : VirtualHostCaasAttrs :=
  { region := "FINLAND"
    vcenter_id := "vcenter-1"
    project_id := "project-1"
    tier_id := "tier-1"
    hostname := "legacy-vm"
    uuid := "legacy-vm"
    note := "inventory-only"
    customer_id := ""
    status := "" }

/-- An executor every call of which fails in transport. -/
def downClient : Client :=
  { CreateVm := fun _ => .error "connection refused"
    GetVm := fun _ => .error "connection refused"
    ResizeVm := fun _ => .error "connection refused"
    UpdateVmTier := fun _ => .error "connection refused"
    DeleteVm := fun _ => .error "connection refused"
    CreateVmImmutable := fun _ => .error "connection refused"
    CreateVirtualHostCaas := fun _ => .error "connection refused"
    UpdateVirtualHostCaas := fun _ => .error "connection refused"
    DeleteVirtualHostCaas := fun _ => .error "connection refused"
    GetVirtualHostCaas := fun _ => .error "connection refused" }

/-- The `virtualHost` object answered in `TestResourceVirtualHostCreate`. -/
def testVirtualHost : VirtualHost :=
  { ID := "vh-1"
    UUID := "uuid-1"
    Hostname := "app-1"
    State := "ACTIVE"
    CpuCount := 2
    CoresPerSocket := 1
    MemorySizeMB := 8192
    Tier := "tier-1"
    Domain := "domain-1"
    Template := "template-1"
    Project := "project-1"
    Customer := "customer-1"
    Region := "FINLAND" }

/-- A create payload of the given type name carrying the given object. -/
def createPayload (typename : String) (vm : Option VirtualHost) : VirtualHostCreatePayload :=
  { Typename := typename, VirtualHost := vm, Message := "", Errors := [], Reasons := [] }

/-- A backend that answers the create mutation with `VirtualHostCreated` and an object whose
`id` is the empty string. -/
def emptyIdClient : Client :=
  { downClient with
    CreateVm := fun _ =>
      .ok (createPayload "VirtualHostCreated" (some { testVirtualHost with ID := "" })) }

/-- Whether a request is the resize mutation. -/
def Request.isResize : Request → Bool
  | .mutationResizeVm _ => true
  | _ => false

/-- Whether a request is the tier-update mutation. -/
def Request.isTierUpdate : Request → Bool
  | .mutationUpdateVmTier _ => true
  | _ => false

/-- The `sizingChanged` flag of the two update functions. -/
def sizingChanged {α : Type} (d : ResourceData α) : Bool :=
  d.HasChange "cpu_count" || d.HasChange "cores_per_socket" || d.HasChange "memory_size_gb"

/-- The `tierChanged` flag of the two update functions. -/
def tierChanged {α : Type} (d : ResourceData α) : Bool := d.HasChange "tier_id"

/-- Resource data in which `cpu_count` and `tier_id` both changed. -/
def guardedData : ResourceData VirtualHostAttrs :=
  ⟨"vh-1", testAttrs, ["cpu_count", "tier_id"]⟩

/-- Immutable resource data in which `memory_size_gb` and `tier_id` both changed. -/
def guardedImmutableData : ResourceData VirtualHostImmutableAttrs :=
  ⟨"vh-immutable-1", testImmutableAttrs, ["memory_size_gb", "tier_id"]⟩

/-- A backend that answers the delete mutation with the payload type `Unauthorized`. -/
def refusedDeleteClient : Client :=
  { downClient with DeleteVm := fun _ => .ok "Unauthorized" }

/-- A backend that reports every object as missing. -/
def goneClient : Client :=
  { downClient with
    GetVm := fun _ => .ok none
    GetVirtualHostCaas := fun _ => .ok none }

/-- The type names the `switch` of the create functions of the standard and immutable variants
recognises. -/
def createTypenames : List String :=
  ["VirtualHostCreated", "ValidationErrors", "Unauthorized", "OperationUnavailable"]

/-- The type names the `switch` on a resize or tier-update answer recognises. -/
def taskTypenames : List String :=
  ["TaskExecutionNode", "ValidationErrors", "Unauthorized", "OperationUnavailable"]

/-- The type names the `switch` of the shadow create, update and delete recognises. -/
def caasTypenames : List String :=
  ["VirtualHostNode", "ValidationErrors", "Unauthorized", "OperationUnavailable"]

/-- A task payload of the given type name. -/
def taskPayload (typename : String) : TaskPayload :=
  { Typename := typename, Message := "", Errors := [], Reasons := [] }

/-- A shadow payload of the given type name, all other fields zero. -/
def caasPayloadOf (typename : String) : caasPayload :=
  { Typename := typename, Message := "", Errors := [], Reasons := [], ID := "", UUID := "",
    Hostname := "", Note := "", State := "", Region := "", Tier := "", Project := "",
    Customer := "", Vcenter := "" }

/-- A backend whose every mutation answers with the payload type `SomeNewType`. -/
def driftClient : Client :=
  { downClient with
    CreateVm := fun _ => .ok (createPayload "SomeNewType" none)
    ResizeVm := fun _ => .ok (taskPayload "SomeNewType")
    UpdateVmTier := fun _ => .ok (taskPayload "SomeNewType")
    CreateVmImmutable := fun _ => .ok (createPayload "SomeNewType" none)
    CreateVirtualHostCaas := fun _ => .ok (caasPayloadOf "SomeNewType")
    UpdateVirtualHostCaas := fun _ => .ok (caasPayloadOf "SomeNewType")
    DeleteVirtualHostCaas := fun _ => .ok (caasPayloadOf "SomeNewType") }

/-- Resource data in which only `cpu_count` changed. -/
def resizeData : ResourceData VirtualHostAttrs := ⟨"vh-1", testAttrs, ["cpu_count"]⟩

/-- Resource data in which only `tier_id` changed. -/
def retierData : ResourceData VirtualHostAttrs := ⟨"vh-1", testAttrs, ["tier_id"]⟩

/-- Immutable resource data in which only `memory_size_gb` changed. -/
def immutableResizeData : ResourceData VirtualHostImmutableAttrs :=
  ⟨"vh-immutable-1", testImmutableAttrs, ["memory_size_gb"]⟩

/-- Immutable resource data in which only `tier_id` changed. -/
def immutableRetierData : ResourceData VirtualHostImmutableAttrs :=
  ⟨"vh-immutable-1", testImmutableAttrs, ["tier_id"]⟩

/-- Shadow resource data in which `note` changed. -/
def caasNoteData : ResourceData VirtualHostCaasAttrs := ⟨"vh-1", testCaasAttrs, ["note"]⟩

/-- The `virtualHost` object answered in `TestResourceVirtualHostReadMapsInterfaces`: one
interface on `net-1` reporting the IPv4 address `192.0.2.10/24`. -/
def testNode : VirtualHostNode :=
  { ID := "vh-1"
    UUID := "uuid-1"
    Hostname := "app-1"
    State := "ACTIVE"
    CpuCount := 2
    CoresPerSocket := 1
    MemorySizeMB := 8192
    Note := "managed-by-terraform"
    DataProtectionPolicy := some "policy-1"
    NetworkInterfaceList :=
      [{ Network := "net-1", IPv4Addresses := [{ IP := "192.0.2.10", Prefixlen := 24 }],
         IPv6Addresses := [], StartConnected := true }]
    Tier := "tier-1"
    Domain := "domain-1"
    Template := "template-1"
    Project := "project-1"
    Customer := "customer-1"
    Region := "FINLAND" }

/-- A backend that answers `queryGetVM` with the given object. -/
def nodeClient (vh : VirtualHostNode) : Client :=
  { downClient with GetVm := fun _ => .ok (some vh) }

/-- An object whose interface set differs from every declared one: two interfaces on other
networks with other addresses. -/
def otherInterfacesNode : VirtualHostNode :=
  { testNode with
    NetworkInterfaceList :=
      [{ Network := "net-7", IPv4Addresses := [{ IP := "198.51.100.7", Prefixlen := 24 }],
         IPv6Addresses := [], StartConnected := true },
       { Network := "net-8", IPv4Addresses := [], IPv6Addresses := [],
         StartConnected := false }] }

/-- Immutable attributes with one declared interface. -/
def testImmutableAttrsWithInterface : VirtualHostImmutableAttrs :=
  { testImmutableAttrs with
    interfaces := [{ network_id := "net-1", ip_list := some ["192.0.2.10"] }] }

/-- The configuration of `TestResourceVirtualHostReadMapsInterfaces`: no interface held. -/
def testAttrsNoInterfaces : VirtualHostAttrs :=
  { testAttrs with interfaces := [], allow_resize_restart := false }

/-- A backend interface that reports one IPv6 address and no IPv4 address. -/
def ipv6OnlyInterface : NetworkInterface :=
  { Network := "net-1"
    IPv4Addresses := []
    IPv6Addresses := [{ IP := "2001:db8::10", Prefixlen := 64 }]
    StartConnected := true }

/-- An object whose only interface is `ipv6OnlyInterface`. -/
def ipv6OnlyNode : VirtualHostNode :=
  { testNode with NetworkInterfaceList := [ipv6OnlyInterface] }

/-- The backend of `TestResourceVirtualHostCreate`: the create mutation is answered with
`VirtualHostCreated` carrying `testVirtualHost` (8192 MB), and `queryGetVM` with `testNode`
(8192 MB). -/
def echoClient : Client :=
  { downClient with
    CreateVm := fun _ => .ok (createPayload "VirtualHostCreated" (some testVirtualHost))
    GetVm := fun _ => .ok (some testNode) }

/-! ## Rendered diagnostics -/

/-- Mirror of `fmt.Sprintf` on the characters of a format with the verbs `%s` and `%q` and string
arguments, one argument per verb as in every call of this repository; `quote` stands for Go's
`strconv.Quote`, which renders `%q`. -/
def sprintfChars (quote : String → String) : List Char → List String → List Char
  | '%' :: 's' :: rest, a :: args => a.data ++ sprintfChars quote rest args
  | '%' :: 'q' :: rest, a :: args => (quote a).data ++ sprintfChars quote rest args
  | c :: rest, args => c :: sprintfChars quote rest args
  | [], _ => []

/-- Mirror of `fmt.Sprintf(format, args...)` for string arguments. -/
def Sprintf (quote : String → String) (format : String) (args : List String) : String :=
  ⟨sprintfChars quote format.data args⟩

/-- The `Summary` of a diagnostic, the text shown to the operator: `diag.Errorf` stores
`fmt.Sprintf(format, args...)`, `diag.FromErr` stores `err.Error()`. -/
def Diag.Summary (quote : String → String) : Diag → String
  | .errorf format args => Sprintf quote format args
  | .fromErr err => err

/-- Whether `part` occurs in `text` as a contiguous substring. -/
def occursIn (part text : String) : Bool := decide (part.data <:+: text.data)

/-- Go's `%q` on a string of letters: the string between double quotes. -/
def plainQuote (s : String) : String := "\"" ++ s ++ "\""

/-! ## `client.go` -/

/-- An entry of `errors` in `gqlResponse`. -/
structure gqlError where
  Message : String
  deriving DecidableEq, Repr

/-- Mirror of `gqlResponse`; `Data` is the raw `data` message. -/
structure gqlResponse where
  Data : String
  Errors : List gqlError
  deriving DecidableEq, Repr

/-- The library calls made by `Client.Do` for one call, each with the error it may return:
`json.Marshal` of the request envelope, `http.NewRequest`, `c.http.Do` (giving the response
body), the decoding of the response envelope, and `json.Unmarshal(gqlResp.Data, into)`, which
gives the error it returns and the content it leaves in the destination of type `δ`. -/
structure Wire (δ : Type) where
  Marshal : Except String String
  NewRequest : String → Except String String
  HttpDo : String → Except String String
  Decode : String → Except String gqlResponse
  Unmarshal : String → δ → Option String × δ

/-- What `Client.Do` leaves: the returned error (`none` for `nil`) and the content of the
destination `into` (`none` for a nil destination). -/
structure DoResult (δ : Type) where
  err : Option String
  into : Option δ
  deriving DecidableEq, Repr

/-- Mirror of `Client.Do`; `into` is the destination with the content it holds before the call. -/
def Client.Do {δ : Type} (w : Wire δ) (into : Option δ) : DoResult δ :=
  match w.Marshal with
  | .error err => ⟨some err, into⟩
  | .ok reqBody =>
    match w.NewRequest reqBody with
    | .error err => ⟨some err, into⟩
    | .ok req =>
      match w.HttpDo req with
      | .error err => ⟨some err, into⟩
      | .ok body =>
        match w.Decode body with
        | .error err => ⟨some err, into⟩
        | .ok gqlResp =>
          match gqlResp.Errors with
          | first :: _ => ⟨some ("graphql error: " ++ first.Message), into⟩
          | [] =>
            match into with
            | some dst => ⟨(w.Unmarshal gqlResp.Data dst).1, some (w.Unmarshal gqlResp.Data dst).2⟩
            | none => ⟨none, none⟩

/-- A backend that acknowledges resize and tier update with `TaskExecutionNode` and answers
`queryGetVM` with the given object. -/
def jobClient (vh : VirtualHostNode) : Client :=
  { downClient with
    ResizeVm := fun _ => .ok (taskPayload "TaskExecutionNode")
    UpdateVmTier := fun _ => .ok (taskPayload "TaskExecutionNode")
    GetVm := fun _ => .ok (some vh) }

/-- The object read back in `TestResourceVirtualHostUpdateTier`: tier `tier-2`. -/
def retieredNode : VirtualHostNode := { testNode with Tier := "tier-2" }

/-- A backend that acknowledges every mutation of an update and then reports the object as
missing. -/
def jobThenGoneClient : Client :=
  { goneClient with
    ResizeVm := fun _ => .ok (taskPayload "TaskExecutionNode")
    UpdateVmTier := fun _ => .ok (taskPayload "TaskExecutionNode")
    UpdateVirtualHostCaas := fun _ => .ok (caasPayloadOf "VirtualHostNode") }

/-- The last character of a string, if any. -/
def lastChar (s : String) : Option Char := s.data.getLast?

/-- The placeholder of the `ValidationErrors` branches. -/
def validationPlaceholder : String := "validation failed without message"

/-- The piece the create functions add to `details` for one field error. -/
def createFieldPiece (e : FieldMessages) : String :=
  e.Field ++ ": " ++ fmtStrings e.Messages ++ "; "

/-- The piece the update functions and `formatValidationMessage` add to `msg` for one field
error. -/
def fieldPiece (e : FieldMessages) : String :=
  " " ++ e.Field ++ ": " ++ fmtStrings e.Messages ++ ";"

/-- The validation text of resize, tier update and the shadow mutations in closed form: the
top-level message followed by one piece per field error, in order, or the placeholder when there
is neither a message nor a field error. -/
def validationText (m : String) (es : List FieldMessages) : String :=
  if es = [] then (if m = "" then validationPlaceholder else m)
  else m ++ String.join (es.map fieldPiece)

/-- The validation text of the two create functions in closed form: the top-level message, then,
when there are field errors, their pieces in order between parentheses; the placeholder when
there is neither a message nor a field error. -/
def createValidationText (m : String) (es : List FieldMessages) : String :=
  if es = [] then (if m = "" then validationPlaceholder else m)
  else m ++ " (" ++ String.join (es.map createFieldPiece) ++ ")"

/-- A resize answer `Unauthorized` with a message. -/
def unauthorizedPayload : TaskPayload :=
  { Typename := "Unauthorized", Message := "token expired", Errors := [], Reasons := [] }

/-- A backend that answers the resize mutation with `unauthorizedPayload`. -/
def unauthorizedClient : Client :=
  { downClient with ResizeVm := fun _ => .ok unauthorizedPayload }

/-- A backend that answers the create mutation with `VirtualHostCreated` and no `virtualHost`. -/
def missingObjectClient : Client :=
  { downClient with
    CreateVm := fun _ => .ok (createPayload "VirtualHostCreated" none)
    CreateVmImmutable := fun _ => .ok (createPayload "VirtualHostCreated" none)
    CreateVirtualHostCaas := fun _ => .ok (caasPayloadOf "VirtualHostNode") }

/-- A `ValidationErrors` payload whose message is the sentence of the missing-object error. -/
def lookalikePayload : VirtualHostCreatePayload :=
  { Typename := "ValidationErrors"
    VirtualHost := none
    Message := "backend returned VirtualHostCreated without virtualHost"
    Errors := []
    Reasons := [] }

/-- A backend that answers the create mutation with `lookalikePayload`. -/
def lookalikeClient : Client :=
  { downClient with CreateVm := fun _ => .ok lookalikePayload }

/-- A `ValidationErrors` payload without field errors whose message is the placeholder text. -/
def placeholderEchoPayload : VirtualHostCreatePayload :=
  { Typename := "ValidationErrors"
    VirtualHost := none
    Message := "validation failed without message"
    Errors := []
    Reasons := [] }

/-- A backend that answers the create mutation with `placeholderEchoPayload`. -/
def placeholderEchoClient : Client :=
  { downClient with CreateVm := fun _ => .ok placeholderEchoPayload }

/-- Two field errors. -/
def testFieldErrors : List FieldMessages :=
  [{ Field := "hostname", Messages := ["too long", "bad chars"] },
   { Field := "cpuCount", Messages := ["must be positive"] }]

/-- A backend that answers every mutation with `ValidationErrors`, the message `invalid input`
and `testFieldErrors`. -/
def validationClient : Client :=
  { downClient with
    CreateVm := fun _ => .ok
      { Typename := "ValidationErrors", VirtualHost := none, Message := "invalid input",
        Errors := testFieldErrors, Reasons := [] }
    CreateVmImmutable := fun _ => .ok
      { Typename := "ValidationErrors", VirtualHost := none, Message := "invalid input",
        Errors := testFieldErrors, Reasons := [] }
    ResizeVm := fun _ => .ok
      { Typename := "ValidationErrors", Message := "invalid input", Errors := testFieldErrors,
        Reasons := [] }
    UpdateVmTier := fun _ => .ok
      { Typename := "ValidationErrors", Message := "invalid input", Errors := testFieldErrors,
        Reasons := [] }
    CreateVirtualHostCaas := fun _ => .ok
      { caasPayloadOf "ValidationErrors" with
        Message := "invalid input", Errors := testFieldErrors }
    UpdateVirtualHostCaas := fun _ => .ok
      { caasPayloadOf "ValidationErrors" with
        Message := "invalid input", Errors := testFieldErrors }
    DeleteVirtualHostCaas := fun _ => .ok
      { caasPayloadOf "ValidationErrors" with
        Message := "invalid input", Errors := testFieldErrors } }

/-- A backend that answers every mutation with `OperationUnavailable`, the message
`maintenance` and the reason codes `QUOTA_EXCEEDED` and `MAINTENANCE`. -/
def unavailableClient : Client :=
  { downClient with
    CreateVm := fun _ => .ok
      { Typename := "OperationUnavailable", VirtualHost := none, Message := "maintenance",
        Errors := [], Reasons := ["QUOTA_EXCEEDED", "MAINTENANCE"] }
    CreateVmImmutable := fun _ => .ok
      { Typename := "OperationUnavailable", VirtualHost := none, Message := "maintenance",
        Errors := [], Reasons := ["QUOTA_EXCEEDED", "MAINTENANCE"] }
    ResizeVm := fun _ => .ok
      { Typename := "OperationUnavailable", Message := "maintenance", Errors := [],
        Reasons := ["QUOTA_EXCEEDED", "MAINTENANCE"] }
    UpdateVmTier := fun _ => .ok
      { Typename := "OperationUnavailable", Message := "maintenance", Errors := [],
        Reasons := ["QUOTA_EXCEEDED", "MAINTENANCE"] }
    CreateVirtualHostCaas := fun _ => .ok
      { caasPayloadOf "OperationUnavailable" with
        Message := "maintenance", Reasons := ["QUOTA_EXCEEDED", "MAINTENANCE"] }
    UpdateVirtualHostCaas := fun _ => .ok
      { caasPayloadOf "OperationUnavailable" with
        Message := "maintenance", Reasons := ["QUOTA_EXCEEDED", "MAINTENANCE"] }
    DeleteVirtualHostCaas := fun _ => .ok
      { caasPayloadOf "OperationUnavailable" with
        Message := "maintenance", Reasons := ["QUOTA_EXCEEDED", "MAINTENANCE"] } }

/-- A response envelope with two errors and a `data` message. -/
def twoErrorsResponse : gqlResponse :=
  { Data := "[\"some\", \"data\"]"
    Errors := [{ Message := "permission denied" }, { Message := "second error" }] }

/-- Library calls that all succeed, decode `twoErrorsResponse`, and whose `json.Unmarshal`
would overwrite the destination with the raw data. -/
def twoErrorsWire : Wire String :=
  { Marshal := .ok "request"
    NewRequest := fun body => .ok body
    HttpDo := fun _ => .ok "response"
    Decode := fun _ => .ok twoErrorsResponse
    Unmarshal := fun data _ => (none, data) }

/-- Resource data in which only fields outside the change set changed. -/
def otherFieldsData : ResourceData VirtualHostAttrs :=
  ⟨"vh-1", testAttrs,
    ["hostname", "note", "domain_id", "data_protection_policy", "interfaces", "region"]⟩

/-- Immutable resource data in which only fields outside the change set changed. -/
def otherFieldsImmutableData : ResourceData VirtualHostImmutableAttrs :=
  ⟨"vh-immutable-1", testImmutableAttrs,
    ["hostname", "note", "data_protection_policy", "interfaces", "region"]⟩

/-- A configuration with three interfaces: auto-assigned with an empty `ip`, a static address,
and a block whose `ip` key is absent. -/
def threeInterfacesAttrs : VirtualHostAttrs :=
  { testAttrs with
    interfaces :=
      [{ network_id := "net-1", auto_assign_ip := some true, ip := some "" },
       { network_id := "net-2", auto_assign_ip := some false, ip := some "192.0.2.20" },
       { network_id := "net-3", auto_assign_ip := some true, ip := none }] }

/-- The payload answered in `TestResourceVirtualHostCaasCreate`. -/
def testCaasNode : caasPayload :=
  { Typename := "VirtualHostNode"
    Message := ""
    Errors := []
    Reasons := []
    ID := "vh-1"
    UUID := "legacy-vm"
    Hostname := "legacy-vm"
    Note := "inventory-only"
    State := "ACTIVE"
    Region := "FINLAND"
    Tier := "tier-1"
    Project := "project-1"
    Customer := "customer-1"
    Vcenter := "vcenter-1" }

/-- The `virtualHost` object answered in `TestResourceVirtualHostImmutableCreate`. -/
def testImmutableVirtualHost : VirtualHost :=
  { ID := "vh-immutable-1"
    UUID := "vh-uuid-1"
    Hostname := "immutable-vm"
    State := "ACTIVE"
    CpuCount := 4
    CoresPerSocket := 1
    MemorySizeMB := 16384
    Tier := "tier-1"
    Domain := ""
    Template := "template-1"
    Project := "project-1"
    Customer := "customer-1"
    Region := "FINLAND" }

/-- The object of the tests with a null `dataProtectionPolicy` and otherwise new values. -/
def nullPolicyNode : VirtualHostNode :=
  { testNode with
    DataProtectionPolicy := none
    Hostname := "app-2"
    State := "STOPPED"
    CpuCount := 4
    Note := "changed remotely" }

/-- Local data that holds the policy `policy-old`. -/
def oldPolicyAttrs : VirtualHostAttrs :=
  { testAttrs with data_protection_policy := "policy-old" }

/-- An object whose `id` differs from the local identifier `vh-1`. -/
def otherIdNode : VirtualHostNode := { testNode with ID := "vh-999" }

/-- Stated from the specification: `g` is the floor of `m / 1024`, that is
`g * 1024 <= m < (g + 1) * 1024`. -/
def IsFloorGb (m g : Int) : Prop := g * 1024 ≤ m ∧ m < (g + 1) * 1024

instance (m g : Int) : Decidable (IsFloorGb m g) := by
  unfold IsFloorGb
  exact inferInstance

/-- An object whose memory is 1500 MB, not a multiple of 1024. -/
def oddMemoryNode : VirtualHostNode := { testNode with MemorySizeMB := 1500 }

/-- A backend that reports 1500 MB of memory in every created and every read object. -/
def oddMemoryClient : Client :=
  { downClient with
    CreateVm := fun _ =>
      .ok (createPayload "VirtualHostCreated" (some { testVirtualHost with MemorySizeMB := 1500 }))
    CreateVmImmutable := fun _ =>
      .ok (createPayload "VirtualHostCreated"
        (some { testImmutableVirtualHost with MemorySizeMB := 1500 }))
    GetVm := fun _ => .ok (some oddMemoryNode) }

/-- Stated from the specification: the guard message of the update functions after the resource
name. -/
def guardMessageRest : String :=
  ": simultaneous change of sizing (cpu_count/cores_per_socket/memory_size_gb) and tier_id in a single apply is not supported. Please apply sizing changes first, wait for the job to finish, and then apply tier change in a separate terraform apply."

/-- Immutable resource data that agrees with `resizeData` on the identifier, the changed keys
and the fields an update reads. -/
def immutableTwinData : ResourceData VirtualHostImmutableAttrs :=
  ⟨"vh-1", { testImmutableAttrs with cpu_count := 2, memory_size_gb := 8 }, ["cpu_count"]⟩

/-! ## `internal/datasources` -/

/-- One decoded `node` of an `edges` list of a lookup response. The read functions use its `id`
only; the other decoded fields (`customer`, `note`) are never read. -/
structure LookupNode where
  ID : String
  Name : String
  deriving DecidableEq, Repr

/-- The schema of `DataSourceVcenter`. -/
structure VcenterAttrs where
  customer_id : String
  name : String
  id : String
  deriving DecidableEq, Repr

/-- The schema of `DataSourceCustomer`. -/
structure CustomerAttrs where
  name : String
  id : String
  deriving DecidableEq, Repr

/-- The schema of `DataSourceProject`. -/
structure ProjectAttrs where
  name : String
  customer_id : String
  id : String
  deriving DecidableEq, Repr

/-- The schema of `DataSourceDomain`. -/
structure DomainAttrs where
  customer_id : String
  name : String
  id : String
  deriving DecidableEq, Repr

/-- The schema of `DataSourceNetwork`. -/
structure NetworkAttrs where
  name : String
  customer_id : String
  id : String
  deriving DecidableEq, Repr

/-- The schema of `DataSourceTier`. -/
structure TierAttrs where
  name : String
  solution_type : String
  id : String
  deriving DecidableEq, Repr

/-- The schema of `DataSourceTemplate`. -/
structure TemplateAttrs where
  name : String
  customer_id : String
  region : String
  solution_type : String
  id : String
  deriving DecidableEq, Repr

/-- The schema of `DataSourceDataProtectionPolicy`. -/
structure DataProtectionPolicyAttrs where
  customer_id : String
  project_id : String
  note : String
  solution_type : String
  id : String
  deriving DecidableEq, Repr

/-- The executor as the lookups use it: `client.Do` with the named document and the variables
built from the arguments, answering the decoded `edges` or the error of `Do`. -/
structure LookupClient where
  /-- The variables are `name.exact` and `customer.id.exact`. -/
  queryVcenterByNameAndCustomer : (name customerID : String) → Except String (List LookupNode)
  /-- The variable is `name.exact`. -/
  queryCustomerByName : (name : String) → Except String (List LookupNode)
  /-- The variables are `name.exact` and `customer.id.exact`. -/
  queryProjectByNameAndCustomer : (name customerID : String) → Except String (List LookupNode)
  /-- The variables are `filters.customer.id.exact` and `filters.name.exact`. -/
  queryDomainByFilters : (customerID name : String) → Except String (List LookupNode)
  /-- The variables are `name.exact` and `customer.id.exact`. -/
  queryNetworkByName : (name customerID : String) → Except String (List LookupNode)
  /-- The variables are `name.exact` and `solutionType.exact`. -/
  queryTierByName : (name solutionType : String) → Except String (List LookupNode)
  /-- The variables are, under `filters`, `name.exact`, `customer.id.exact`,
  `solutionType.exact` and `region.exact`. -/
  queryTemplateByName :
    (name customerID solutionType region : String) → Except String (List LookupNode)
  /-- The variables are, under `filters`, `customer.id.exact`,
  `customer.projectList.id.exact`, `separationPodList.solutionType.exact`,
  `dedicatedCluster.id.isNull = true`, `note.exact` and `DISTINCT = true`. -/
  queryDataProtectionPolicyByFilters :
    (customerID projectID solutionType note : String) → Except String (List LookupNode)

/-- What a lookup leaves behind: the resource data and the returned diagnostics. -/
structure LookupOutcome (α : Type) where
  d : ResourceData α
  diags : List Diag

/-- Mirror of `dataSourceVcenterRead`. -/
def dataSourceVcenterRead (d : ResourceData VcenterAttrs) (client : LookupClient) :
    LookupOutcome VcenterAttrs :=
  let customerID := d.attrs.customer_id
  let name := d.attrs.name
  match client.queryVcenterByNameAndCustomer name customerID with
  | .error err => ⟨d, [Diag.fromErr err]⟩
  | .ok edges =>
    if h : edges.length = 0 then
      ⟨d, [Diag.errorf "no vcenter found with name %q for customer %q" [name, customerID]]⟩
    else if edges.length > 1 then
      ⟨d, [Diag.errorf "multiple vcenters found with name %q for given customer, please refine"
        [name]]⟩
    else
      let id := (edges.get ⟨0, Nat.pos_of_ne_zero h⟩).ID
      let d := d.SetId id
      ⟨{ d with attrs := { d.attrs with id := id } }, []⟩

/-- Mirror of `dataSourceCustomerRead`. -/
def dataSourceCustomerRead (d : ResourceData CustomerAttrs) (client : LookupClient) :
    LookupOutcome CustomerAttrs :=
  let name := d.attrs.name
  match client.queryCustomerByName name with
  | .error err => ⟨d, [Diag.fromErr err]⟩
  | .ok edges =>
    if h : edges.length = 0 then
      ⟨d, [Diag.errorf "no customer found with name %q" [name]]⟩
    else if edges.length > 1 then
      ⟨d, [Diag.errorf "multiple customers found for name %q, please refine" [name]]⟩
    else
      let id := (edges.get ⟨0, Nat.pos_of_ne_zero h⟩).ID
      let d := d.SetId id
      ⟨{ d with attrs := { d.attrs with id := id } }, []⟩

/-- Mirror of `dataSourceProjectRead`. -/
def dataSourceProjectRead (d : ResourceData ProjectAttrs) (client : LookupClient) :
    LookupOutcome ProjectAttrs :=
  let name := d.attrs.name
  let customerID := d.attrs.customer_id
  match client.queryProjectByNameAndCustomer name customerID with
  | .error err => ⟨d, [Diag.fromErr err]⟩
  | .ok edges =>
    if h : edges.length = 0 then
      ⟨d, [Diag.errorf "no project found with name %q for customer %q" [name, customerID]]⟩
    else if edges.length > 1 then
      ⟨d, [Diag.errorf "multiple projects found with name %q for given customer, please refine"
        [name]]⟩
    else
      let id := (edges.get ⟨0, Nat.pos_of_ne_zero h⟩).ID
      let d := d.SetId id
      ⟨{ d with attrs := { d.attrs with id := id } }, []⟩

/-- Mirror of `dataSourceDomainRead`. -/
def dataSourceDomainRead (d : ResourceData DomainAttrs) (client : LookupClient) :
    LookupOutcome DomainAttrs :=
  let customerID := d.attrs.customer_id
  let name := d.attrs.name
  match client.queryDomainByFilters customerID name with
  | .error err => ⟨d, [Diag.fromErr err]⟩
  | .ok edges =>
    if h : edges.length = 0 then
      ⟨d, [Diag.errorf "no domain found for customer %q with name %q" [customerID, name]]⟩
    else if edges.length > 1 then
      ⟨d, [Diag.errorf "multiple domains found for customer %q with name %q"
        [customerID, name]]⟩
    else
      let node := edges.get ⟨0, Nat.pos_of_ne_zero h⟩
      let d := d.SetId node.ID
      ⟨{ d with attrs := { d.attrs with id := node.ID } }, []⟩

/-- Mirror of `dataSourceNetworkRead`. -/
def dataSourceNetworkRead (d : ResourceData NetworkAttrs) (client : LookupClient) :
    LookupOutcome NetworkAttrs :=
  let name := d.attrs.name
  let customerID := d.attrs.customer_id
  match client.queryNetworkByName name customerID with
  | .error err => ⟨d, [Diag.fromErr err]⟩
  | .ok edges =>
    if h : edges.length = 0 then
      ⟨d, [Diag.errorf "no network found with name %q for customer %q" [name, customerID]]⟩
    else if edges.length > 1 then
      ⟨d, [Diag.errorf
        "multiple networks found with name %q for customer %q, please refine filters"
        [name, customerID]]⟩
    else
      let id := (edges.get ⟨0, Nat.pos_of_ne_zero h⟩).ID
      let d := d.SetId id
      ⟨{ d with attrs := { d.attrs with id := id } }, []⟩

/-- The `solutionType` of the tier, template and policy lookups: `OCP`, or the upper-cased
`solution_type` when `d.GetOk` reports one; `ToUpper` stands for Go's `strings.ToUpper`. -/
def solutionTypeOf (ToUpper : String → String) (solution_type : String) : String :=
  match GetOkString solution_type with
  | some v => ToUpper v
  | none => "OCP"

/-- Mirror of `dataSourceTierRead`. -/
def dataSourceTierRead (ToUpper : String → String) (d : ResourceData TierAttrs)
    (client : LookupClient) : LookupOutcome TierAttrs :=
  let name := d.attrs.name
  let solutionType := solutionTypeOf ToUpper d.attrs.solution_type
  match client.queryTierByName name solutionType with
  | .error err => ⟨d, [Diag.fromErr err]⟩
  | .ok edges =>
    if h : edges.length = 0 then
      ⟨d, [Diag.errorf "no tier found with name %q for solution_type %q" [name, solutionType]]⟩
    else if edges.length > 1 then
      ⟨d, [Diag.errorf "multiple tiers found with name %q for solution_type %q, must be unique"
        [name, solutionType]]⟩
    else
      let id := (edges.get ⟨0, Nat.pos_of_ne_zero h⟩).ID
      let d := d.SetId id
      ⟨{ d with attrs := { d.attrs with id := id } }, []⟩

/-- Mirror of `dataSourceTemplateRead`. -/
def dataSourceTemplateRead (ToUpper : String → String) (d : ResourceData TemplateAttrs)
    (client : LookupClient) : LookupOutcome TemplateAttrs :=
  let name := d.attrs.name
  let customerID := d.attrs.customer_id
  let region := ToUpper d.attrs.region
  let solutionType := solutionTypeOf ToUpper d.attrs.solution_type
  match client.queryTemplateByName name customerID solutionType region with
  | .error err => ⟨d, [Diag.fromErr err]⟩
  | .ok edges =>
    if h : edges.length = 0 then
      ⟨d, [Diag.errorf
        "no template found with name %q for customer %q in region %q (solution_type %q)"
        [name, customerID, region, solutionType]]⟩
    else if edges.length > 1 then
      ⟨d, [Diag.errorf
        "multiple templates found with name %q for customer %q in region %q (solution_type %q), must be unique"
        [name, customerID, region, solutionType]]⟩
    else
      let id := (edges.get ⟨0, Nat.pos_of_ne_zero h⟩).ID
      let d := d.SetId id
      ⟨{ d with attrs := { d.attrs with id := id } }, []⟩

/-- Mirror of `dataProtectionPolicyRead`. -/
def dataProtectionPolicyRead (ToUpper : String → String)
    (d : ResourceData DataProtectionPolicyAttrs) (client : LookupClient) :
    LookupOutcome DataProtectionPolicyAttrs :=
  let customerID := d.attrs.customer_id
  let projectID := d.attrs.project_id
  let note := d.attrs.note
  let solutionType := solutionTypeOf ToUpper d.attrs.solution_type
  match client.queryDataProtectionPolicyByFilters customerID projectID solutionType note with
  | .error err => ⟨d, [Diag.fromErr err]⟩
  | .ok edges =>
    if h : edges.length = 0 then
      ⟨d, [Diag.errorf
        "no data protection policy found for customer_id=%q, project_id=%q, solution_type=%q, note=%q"
        [customerID, projectID, solutionType, note]]⟩
    else if edges.length > 1 then
      ⟨d, [Diag.errorf
        "multiple data protection policies found for customer_id=%q, project_id=%q, solution_type=%q, note=%q (after DISTINCT); must be unique"
        [customerID, projectID, solutionType, note]]⟩
    else
      let node := edges.get ⟨0, Nat.pos_of_ne_zero h⟩
      let d := d.SetId node.ID
      ⟨{ d with attrs := { d.attrs with id := node.ID } }, []⟩

/-- Stated from the specification: a lookup is exactly-one-match-or-error. After an executor
error the data is unchanged and the error is returned; on an empty edge list and on a list of
two or more edges the data is unchanged (no id is set) and the one returned error contains
`noneFound`, respectively `multipleFound`; on a list of exactly one edge there is no error and
the resource id and the `id` attribute are that node's id. -/
def ExactlyOneOrError {α : Type} (idAttr : α → String) (noneFound multipleFound : String)
    (d : ResourceData α) (answer : Except String (List LookupNode)) (out : LookupOutcome α) :
    Prop :=
  (∀ err : String, answer = .error err → out.d = d ∧ out.diags = [Diag.fromErr err]) ∧
  (answer = .ok [] → out.d = d ∧ ∃ g : Diag, out.diags = [g] ∧
    ∀ quote : String → String, occursIn noneFound (g.Summary quote) = true) ∧
  (∀ edges : List LookupNode, answer = .ok edges → 2 ≤ edges.length →
    out.d = d ∧ ∃ g : Diag, out.diags = [g] ∧
      ∀ quote : String → String, occursIn multipleFound (g.Summary quote) = true) ∧
  (∀ e : LookupNode, answer = .ok [e] →
    out.diags = [] ∧ out.d.id = e.ID ∧ idAttr out.d.attrs = e.ID)

/-- The resource data of `TestDataSourceVcenterRead`. -/
def testVcenterData : ResourceData VcenterAttrs :=
  ⟨"", { customer_id := "cust-1", name := "vcenter-01", id := "" }, []⟩

/-- A backend every lookup of which fails in transport. -/
def downLookupClient : LookupClient :=
  { queryVcenterByNameAndCustomer := fun _ _ => .error "connection refused"
    queryCustomerByName := fun _ => .error "connection refused"
    queryProjectByNameAndCustomer := fun _ _ => .error "connection refused"
    queryDomainByFilters := fun _ _ => .error "connection refused"
    queryNetworkByName := fun _ _ => .error "connection refused"
    queryTierByName := fun _ _ => .error "connection refused"
    queryTemplateByName := fun _ _ _ _ => .error "connection refused"
    queryDataProtectionPolicyByFilters := fun _ _ _ _ => .error "connection refused" }

/-- The backend of `TestDataSourceVcenterRead`: `vcenterList` answers the given edges. -/
def vcenterClient (edges : List LookupNode) : LookupClient :=
  { downLookupClient with queryVcenterByNameAndCustomer := fun _ _ => .ok edges }

/-! ## `provider.go` -/

/-- The constructors of `*schema.Resource` the repository defines, in `internal/resources` and
`internal/datasources`. -/
inductive SchemaResource where
  | ResourceVirtualHost
  | ResourceVirtualHostCaas
  | ResourceVirtualHostImmutable
  | DataSourceCustomer
  | DataSourceDataProtectionPolicy
  | DataSourceDomain
  | DataSourceNetwork
  | DataSourceProject
  | DataSourceTemplate
  | DataSourceTier
  | DataSourceVcenter
  deriving DecidableEq, Repr

/-- The two maps of `schema.Provider` by which Terraform reaches a resource type or a data
source; a Go map literal is written as its list of entries. -/
structure SchemaProvider where
  DataSourcesMap : List (String × SchemaResource)
  ResourcesMap : List (String × SchemaResource)
  deriving DecidableEq, Repr

/-- Mirror of `Provider`: the `DataSourcesMap` and the `ResourcesMap` of the returned provider
(the configuration schema and `ConfigureContextFunc` register nothing). -/
def Provider : SchemaProvider :=
  { DataSourcesMap :=
      [("ocp_customer", SchemaResource.DataSourceCustomer),
       ("ocp_data_protection_policy", SchemaResource.DataSourceDataProtectionPolicy),
       ("ocp_domain", SchemaResource.DataSourceDomain),
       ("ocp_network", SchemaResource.DataSourceNetwork),
       ("ocp_project", SchemaResource.DataSourceProject),
       ("ocp_template", SchemaResource.DataSourceTemplate),
       ("ocp_tier", SchemaResource.DataSourceTier)]
    ResourcesMap := [("ocp_virtual_host", SchemaResource.ResourceVirtualHost)] }

/-- Whether a constructor is the value of some entry of a map. -/
def registeredIn (m : List (String × SchemaResource)) (r : SchemaResource) : Bool :=
  m.any (fun entry => entry.2 = r)

/-- A backend that answers the shadow delete with `VirtualHostNode`. -/
def caasDeletedClient : Client :=
  { downClient with DeleteVirtualHostCaas := fun _ => .ok (caasPayloadOf "VirtualHostNode") }

/-- A backend that reports every object as missing to `queryGetVM` only; every other call, the
shadow query included, fails in transport. -/
def vmGoneClient : Client :=
  { downClient with GetVm := fun _ => .ok none }

/-- A backend that reports every object as missing to the shadow query only. -/
def caasGoneClient : Client :=
  { downClient with GetVirtualHostCaas := fun _ => .ok none }

/-- A backend that answers the resize mutation with the payload type `SomeNewType`; every other
call fails in transport. -/
def resizeDriftClient : Client :=
  { downClient with ResizeVm := fun _ => .ok (taskPayload "SomeNewType") }

/-- After the backend of `TestResourceVirtualHostUpdateResize`: the resize is acknowledged with
`TaskExecutionNode` and `queryGetVM` answers the given object; there is no tier-update payload
(every other call is taken to fail in transport). -/
def resizeOnlyClient (vh : VirtualHostNode) : Client :=
  { downClient with
    ResizeVm := fun _ => .ok (taskPayload "TaskExecutionNode")
    GetVm := fun _ => .ok (some vh) }

/-- After the backend of `TestResourceVirtualHostUpdateTier`: the tier update is acknowledged
with `TaskExecutionNode` and `queryGetVM` answers the given object; there is no resize payload
(every other call is taken to fail in transport). -/
def retierOnlyClient (vh : VirtualHostNode) : Client :=
  { downClient with
    UpdateVmTier := fun _ => .ok (taskPayload "TaskExecutionNode")
    GetVm := fun _ => .ok (some vh) }

/-- A backend that answers the resize mutation with `ValidationErrors`, the message
`invalid input` and `testFieldErrors`; every other call fails in transport. -/
def resizeValidationClient : Client :=
  { downClient with
    ResizeVm := fun _ => .ok
      { Typename := "ValidationErrors", Message := "invalid input", Errors := testFieldErrors,
        Reasons := [] } }

/-- After the backend of `TestResourceVirtualHostCreate`: the standard create mutation is
answered with `VirtualHostCreated` and `testVirtualHost`; every other call is taken to fail in
transport. -/
def standardCreatedClient : Client :=
  { downClient with
    CreateVm := fun _ => .ok (createPayload "VirtualHostCreated" (some testVirtualHost)) }

/-- After the backend of `TestResourceVirtualHostCaasCreate`: the shadow create mutation is
answered with `testCaasNode`; every other call is taken to fail in transport. -/
def caasCreatedClient : Client :=
  { downClient with CreateVirtualHostCaas := fun _ => .ok testCaasNode }

/-- Stated from the amended claim: an outcome that ends as the read does, given the answer of the
backend to the read's query. A missing object clears the identifier without error and leaves the
rest of the data; a returned object gives no error and keeps the identifier; a failed read
returns the executor's error and leaves the data as it was. -/
def EndsAsRead {α β : Type} (d : ResourceData α) (answer : Except String (Option β))
    (out : Outcome α) : Prop :=
  (answer = .ok none → out.d = d.SetId "" ∧ out.d.id = "" ∧ out.diags = []) ∧
  (∀ vh : β, answer = .ok (some vh) → out.d.id = d.id ∧ out.diags = []) ∧
  (∀ err : String, answer = .error err → out.d = d ∧ out.diags = [Diag.fromErr err])

/-- Stated from the amended claim: an outcome that returns an error and leaves the resource
data, identifier included, exactly as before. -/
def FailsUnchanged {α : Type} (d : ResourceData α) (out : Outcome α) : Prop :=
  out.d = d ∧ out.diags ≠ [] ∧ HasError out.diags = true

/-- A backend that accepts the resize and then fails the read in transport. -/
def jobThenDownClient : Client :=
  { downClient with ResizeVm := fun _ => .ok (taskPayload "TaskExecutionNode") }

/-- What the documents `mutationResizeVm` and `mutationUpdateVmTier` select, as a condition on
the decoded payload: `message` is selected inside the fragments on `ValidationErrors`,
`Unauthorized` and `OperationUnavailable` only, `errors` inside the fragment on
`ValidationErrors` only and `reasons` inside the fragment on `OperationUnavailable` only. A
field that is not selected for the payload's type is absent from the response and decodes to
its zero value. -/
def TaskPayload.conformsToDocument (p : TaskPayload) : Prop :=
  (p.Typename ∉ ["ValidationErrors", "Unauthorized", "OperationUnavailable"] →
    p.Message = "") ∧
  (p.Typename ≠ "ValidationErrors" → p.Errors = []) ∧
  (p.Typename ≠ "OperationUnavailable" → p.Reasons = [])

instance (p : TaskPayload) : Decidable p.conformsToDocument := by
  unfold TaskPayload.conformsToDocument
  exact inferInstance

/-- What the document `mutationVirtualHostUpdateCaas` selects of the failure fields, as a
condition on the decoded payload: `message` inside the fragments on `ValidationErrors`,
`Unauthorized` and `OperationUnavailable` only, `errors` inside the fragment on
`ValidationErrors` only and `reasons` inside the fragment on `OperationUnavailable` only. -/
def caasPayload.conformsToDocument (p : caasPayload) : Prop :=
  (p.Typename ∉ ["ValidationErrors", "Unauthorized", "OperationUnavailable"] →
    p.Message = "") ∧
  (p.Typename ≠ "ValidationErrors" → p.Errors = []) ∧
  (p.Typename ≠ "OperationUnavailable" → p.Reasons = [])

instance (p : caasPayload) : Decidable p.conformsToDocument := by
  unfold caasPayload.conformsToDocument
  exact inferInstance

/-- The `Default` of `allow_resize_restart` in the schemas of `ResourceVirtualHost` and
`ResourceVirtualHostImmutable`. -/
def allowResizeRestartDefault : Bool := true

/-- Mirror of `d.Get(key).(bool)` on resource data built from state alone (no configuration, as
`terraform import` and the refresh that follows it build it), for the value the state holds:
the stored value, or Go's zero value `false` for an attribute that was never set. The schema
`Default` enters only when a plan is computed from configuration. -/
def GetBool (stored : Option Bool) : Bool := stored.getD false

/-- Resource data of the standard variant as after `terraform import` of `vh-1`: the identifier,
and for every attribute what `d.Get` returns on state that never set it. -/
def importedData : ResourceData VirtualHostAttrs :=
  ⟨"vh-1",
    { region := ""
      customer_id := ""
      project_id := ""
      hostname := ""
      domain_id := ""
      allow_resize_restart := GetBool none
      cpu_count := 0
      cores_per_socket := 0
      memory_size_gb := 0
      tier_id := ""
      template_id := ""
      note := ""
      data_protection_policy := ""
      interfaces := []
      uuid := ""
      status := "" },
    []⟩

/-- Resource data of the immutable variant as after `terraform import` of `vh-immutable-1`. -/
def importedImmutableData : ResourceData VirtualHostImmutableAttrs :=
  ⟨"vh-immutable-1",
    { region := ""
      customer_id := ""
      project_id := ""
      hostname := ""
      template_id := ""
      tier_id := ""
      cpu_count := 0
      cores_per_socket := 0
      memory_size_gb := 0
      note := ""
      ignition_config_data := ""
      ignition_config_data_encoding := ""
      os_disk_size_gb := 0
      data_protection_policy := ""
      allow_resize_restart := GetBool none
      notify_user := GetBool none
      cluster_type := ""
      version := ""
      anti_affinity := ""
      business_service := ""
      dedicated_cluster := ""
      dedicated_dr_cluster := ""
      interfaces := []
      local_disk_list := []
      uuid := ""
      status := "" },
    []⟩

/-! ## Theorems -/

/-! ### Requests sent by the read and update functions -/

/-- `ResourceVirtualHostRead` sends exactly one request, `queryGetVM` with the identifier. -/
theorem read_requests (d : ResourceData VirtualHostAttrs) (client : Client) :
    (ResourceVirtualHostRead d client).requests = [Request.queryGetVM d.Id] := by
  unfold ResourceVirtualHostRead
  split <;> rfl

/-- `ResourceVirtualHostImmutableRead` sends exactly one request, `queryGetVM` with the
identifier. -/
theorem immutable_read_requests (d : ResourceData VirtualHostImmutableAttrs) (client : Client) :
    (ResourceVirtualHostImmutableRead d client).requests = [Request.queryGetVM d.Id] := by
  unfold ResourceVirtualHostImmutableRead
  split <;> rfl

/-- The resize block sends exactly the resize mutation with `resizeInput`. -/
theorem resizeBlock_requests (d : ResourceData VirtualHostAttrs) (client : Client) :
    (resizeBlock d client).2 = [Request.mutationResizeVm (resizeInput d)] := by
  unfold resizeBlock
  dsimp only
  split <;> rfl

/-- The tier block sends exactly the tier-update mutation with `updateTierInput`. -/
theorem updateTierBlock_requests (d : ResourceData VirtualHostAttrs) (client : Client) :
    (updateTierBlock d client).2 = [Request.mutationUpdateVmTier (updateTierInput d)] := by
  unfold updateTierBlock
  dsimp only
  split <;> rfl

/-- The immutable resize block sends exactly the resize mutation with `immutableResizeInput`. -/
theorem immutableResizeBlock_requests (d : ResourceData VirtualHostImmutableAttrs)
    (client : Client) :
    (immutableResizeBlock d client).2 = [Request.mutationResizeVm (immutableResizeInput d)] := by
  unfold immutableResizeBlock
  dsimp only
  split <;> rfl

/-- The immutable tier block sends exactly the tier-update mutation with
`immutableUpdateTierInput`. -/
theorem immutableUpdateTierBlock_requests (d : ResourceData VirtualHostImmutableAttrs)
    (client : Client) :
    (immutableUpdateTierBlock d client).2 =
      [Request.mutationUpdateVmTier (immutableUpdateTierInput d)] := by
  unfold immutableUpdateTierBlock
  dsimp only
  split <;> rfl

/-- No call of `ResourceVirtualHostUpdate` sends both a resize and a tier-update mutation. -/
theorem update_never_both (d : ResourceData VirtualHostAttrs) (client : Client) :
    ¬ ((ResourceVirtualHostUpdate d client).requests.any Request.isResize = true ∧
       (ResourceVirtualHostUpdate d client).requests.any Request.isTierUpdate = true) := by
  unfold ResourceVirtualHostUpdate
  have hr := resizeBlock_requests d client
  have ht := updateTierBlock_requests d client
  have hq := read_requests d client
  rcases hs : (d.HasChange "cpu_count" || d.HasChange "cores_per_socket" ||
      d.HasChange "memory_size_gb") <;> rcases hc : d.HasChange "tier_id" <;>
    simp only [hs, hc] <;> simp
  · simp [hq, Request.isResize]
  · rcases hb : updateTierBlock d client with ⟨_ | ds, sent⟩ <;>
      simp [hb] at ht ⊢ <;> simp [ht, hq, Request.isResize]
  · rcases hb : resizeBlock d client with ⟨_ | ds, sent⟩ <;>
      simp [hb] at hr ⊢ <;> simp [hr, hq, Request.isTierUpdate]



/-! ### C1: atomicity of the standard create -/

/-- C1 (evaluation at the failing input): with one declared interface, when the backend answers
the create mutation with `VirtualHostCreated` and a `virtualHost` whose `id` is the empty string,
`ResourceVirtualHostCreate` returns no diagnostics and the identifier is the empty string. -/
theorem create_succeeds_with_empty_identifier :
    testAttrs.interfaces.length = 1 ∧
    HasError (ResourceVirtualHostCreate ⟨"", testAttrs, []⟩ emptyIdClient).diags = false ∧
    (ResourceVirtualHostCreate ⟨"", testAttrs, []⟩ emptyIdClient).d.Id = "" ∧
    (ResourceVirtualHostCreate ⟨"", testAttrs, []⟩ emptyIdClient).d.attrs.status = "ACTIVE" := by
  refine ⟨rfl, ?_, ?_, ?_⟩ <;> rfl

/-- No call of `ResourceVirtualHostImmutableUpdate` sends both a resize and a tier-update
mutation. -/
theorem immutable_update_never_both (d : ResourceData VirtualHostImmutableAttrs)
    (client : Client) :
    ¬ ((ResourceVirtualHostImmutableUpdate d client).requests.any Request.isResize = true ∧
       (ResourceVirtualHostImmutableUpdate d client).requests.any Request.isTierUpdate = true) := by
  unfold ResourceVirtualHostImmutableUpdate
  have hr := immutableResizeBlock_requests d client
  have ht := immutableUpdateTierBlock_requests d client
  have hq := immutable_read_requests d client
  rcases hs : (d.HasChange "cpu_count" || d.HasChange "cores_per_socket" ||
      d.HasChange "memory_size_gb") <;> rcases hc : d.HasChange "tier_id" <;>
    simp only [hs, hc] <;> simp
  · simp [hq, Request.isResize]
  · rcases hb : immutableUpdateTierBlock d client with ⟨_ | ds, sent⟩ <;>
      simp [hb] at ht ⊢ <;> simp [ht, hq, Request.isResize]
  · rcases hb : immutableResizeBlock d client with ⟨_ | ds, sent⟩ <;>
      simp [hb] at hr ⊢ <;> simp [hr, hq, Request.isTierUpdate]

/-! ### C2: the update constraint guard -/

/-- C2. When a sizing field (`cpu_count`, `cores_per_socket`, `memory_size_gb`) and `tier_id`
both changed, `ResourceVirtualHostUpdate` and `ResourceVirtualHostImmutableUpdate` return the
guard's error (apply sizing first, the tier change in a separate apply), send no request at all
and leave the resource data as it was; and no call of either function, guarded or not, sends
both a resize and a tier-update mutation. -/
theorem update_constraint_guard
    (d : ResourceData VirtualHostAttrs) (di : ResourceData VirtualHostImmutableAttrs)
    (client : Client)
    (hs : sizingChanged d = true) (ht : tierChanged d = true)
    (hsi : sizingChanged di = true) (hti : tierChanged di = true) :
    ((ResourceVirtualHostUpdate d client).diags = [updateGuardDiag] ∧
      HasError (ResourceVirtualHostUpdate d client).diags = true ∧
      (ResourceVirtualHostUpdate d client).requests = [] ∧
      (ResourceVirtualHostUpdate d client).d = d) ∧
    ((ResourceVirtualHostImmutableUpdate di client).diags = [immutableUpdateGuardDiag] ∧
      HasError (ResourceVirtualHostImmutableUpdate di client).diags = true ∧
      (ResourceVirtualHostImmutableUpdate di client).requests = [] ∧
      (ResourceVirtualHostImmutableUpdate di client).d = di) ∧
    (∀ (e : ResourceData VirtualHostAttrs) (c : Client),
      ¬ ((ResourceVirtualHostUpdate e c).requests.any Request.isResize = true ∧
         (ResourceVirtualHostUpdate e c).requests.any Request.isTierUpdate = true)) ∧
    (∀ (e : ResourceData VirtualHostImmutableAttrs) (c : Client),
      ¬ ((ResourceVirtualHostImmutableUpdate e c).requests.any Request.isResize = true ∧
         (ResourceVirtualHostImmutableUpdate e c).requests.any Request.isTierUpdate = true)) := by
  unfold sizingChanged at hs hsi
  unfold tierChanged at ht hti
  refine ⟨?_, ?_, update_never_both, immutable_update_never_both⟩
  · unfold ResourceVirtualHostUpdate
    simp only [hs, ht]
    simp [HasError]
  · unfold ResourceVirtualHostImmutableUpdate
    simp only [hsi, hti]
    simp [HasError]

/-- Witness of C2: `cpu_count` and `tier_id` both changed (standard), `memory_size_gb` and
`tier_id` both changed (immutable), on the data of the tests. -/
theorem update_constraint_guard_witness :
    (sizingChanged guardedData = true ∧ tierChanged guardedData = true ∧
      sizingChanged guardedImmutableData = true ∧ tierChanged guardedImmutableData = true) ∧
    ((ResourceVirtualHostUpdate guardedData downClient).diags = [updateGuardDiag] ∧
      HasError (ResourceVirtualHostUpdate guardedData downClient).diags = true ∧
      (ResourceVirtualHostUpdate guardedData downClient).requests = [] ∧
      (ResourceVirtualHostUpdate guardedData downClient).d = guardedData) ∧
    ((ResourceVirtualHostImmutableUpdate guardedImmutableData downClient).diags
        = [immutableUpdateGuardDiag] ∧
      HasError (ResourceVirtualHostImmutableUpdate guardedImmutableData downClient).diags = true ∧
      (ResourceVirtualHostImmutableUpdate guardedImmutableData downClient).requests = [] ∧
      (ResourceVirtualHostImmutableUpdate guardedImmutableData downClient).d
        = guardedImmutableData) :=
  have h := update_constraint_guard guardedData guardedImmutableData downClient
    (by decide) (by decide) (by decide) (by decide)
  ⟨⟨by decide, by decide, by decide, by decide⟩, h.1, h.2.1⟩

/-! ### C3: memory on write -/

/-- C3 (counterexample). With `memory_size_gb = 8` declared, the create mutation input sent by
`ResourceVirtualHostCreate` carries the memory value 8, not 8 * 1024, and so does the resize
input when `memory_size_gb` changed. -/
theorem memory_on_write_not_multiplied :
    testAttrs.memory_size_gb = 8 ∧
    (ResourceVirtualHostCreate ⟨"", testAttrs, []⟩ downClient).requests =
      [Request.mutationCreateVM (virtualHostCreateInput ⟨"", testAttrs, []⟩)] ∧
    (virtualHostCreateInput ⟨"", testAttrs, []⟩).memorySizeGB = 8 ∧
    (virtualHostCreateInput ⟨"", testAttrs, []⟩).memorySizeGB ≠ testAttrs.memory_size_gb * 1024 ∧
    (ResourceVirtualHostUpdate ⟨"vh-1", testAttrs, ["memory_size_gb"]⟩ downClient).requests =
      [Request.mutationResizeVm (resizeInput ⟨"vh-1", testAttrs, ["memory_size_gb"]⟩)] ∧
    (resizeInput ⟨"vh-1", testAttrs, ["memory_size_gb"]⟩).memorySizeGB = some 8 ∧
    (resizeInput ⟨"vh-1", testAttrs, ["memory_size_gb"]⟩).memorySizeGB ≠
      some (testAttrs.memory_size_gb * 1024) := by
  refine ⟨rfl, rfl, rfl, by decide, rfl, rfl, by decide⟩

/-- The requests of `ResourceVirtualHostCreate` when an interface is declared. -/
theorem create_requests (d : ResourceData VirtualHostAttrs) (client : Client)
    (hi : d.attrs.interfaces ≠ []) :
    (ResourceVirtualHostCreate d client).requests =
      [Request.mutationCreateVM (virtualHostCreateInput d)] := by
  have hlen : ¬ d.attrs.interfaces.length = 0 := by
    simpa [List.length_eq_zero] using hi
  unfold ResourceVirtualHostCreate
  rw [if_neg hlen]
  dsimp only
  split
  · rfl
  · split
    · split <;> rfl
    · split
      · rfl
      · split <;> rfl

/-- Unfolding of `ResourceVirtualHostUpdate` when only sizing fields changed. -/
theorem update_sizing_only (d : ResourceData VirtualHostAttrs) (client : Client)
    (hs : sizingChanged d = true) (ht : tierChanged d = false) :
    ResourceVirtualHostUpdate d client =
      match resizeBlock d client with
      | (some ds, sent) => ⟨d, ds, sent⟩
      | (none, sent) =>
        ⟨(ResourceVirtualHostRead d client).d, (ResourceVirtualHostRead d client).diags,
          sent ++ (ResourceVirtualHostRead d client).requests⟩ := by
  unfold sizingChanged at hs
  unfold tierChanged at ht
  unfold ResourceVirtualHostUpdate
  simp only [hs, ht]
  rcases resizeBlock d client with ⟨_ | ds, sent⟩ <;> simp

/-- Unfolding of `ResourceVirtualHostUpdate` when only `tier_id` changed. -/
theorem update_tier_only (d : ResourceData VirtualHostAttrs) (client : Client)
    (hs : sizingChanged d = false) (ht : tierChanged d = true) :
    ResourceVirtualHostUpdate d client =
      match updateTierBlock d client with
      | (some ds, sent) => ⟨d, ds, sent⟩
      | (none, sent) =>
        ⟨(ResourceVirtualHostRead d client).d, (ResourceVirtualHostRead d client).diags,
          sent ++ (ResourceVirtualHostRead d client).requests⟩ := by
  unfold sizingChanged at hs
  unfold tierChanged at ht
  unfold ResourceVirtualHostUpdate
  simp only [hs, ht]
  rcases updateTierBlock d client with ⟨_ | ds, sent⟩ <;> simp

/-- Unfolding of `ResourceVirtualHostImmutableUpdate` when only sizing fields changed. -/
theorem immutable_update_sizing_only (d : ResourceData VirtualHostImmutableAttrs)
    (client : Client) (hs : sizingChanged d = true) (ht : tierChanged d = false) :
    ResourceVirtualHostImmutableUpdate d client =
      match immutableResizeBlock d client with
      | (some ds, sent) => ⟨d, ds, sent⟩
      | (none, sent) =>
        ⟨(ResourceVirtualHostImmutableRead d client).d,
          (ResourceVirtualHostImmutableRead d client).diags,
          sent ++ (ResourceVirtualHostImmutableRead d client).requests⟩ := by
  unfold sizingChanged at hs
  unfold tierChanged at ht
  unfold ResourceVirtualHostImmutableUpdate
  simp only [hs, ht]
  rcases immutableResizeBlock d client with ⟨_ | ds, sent⟩ <;> simp

/-- Unfolding of `ResourceVirtualHostImmutableUpdate` when only `tier_id` changed. -/
theorem immutable_update_tier_only (d : ResourceData VirtualHostImmutableAttrs)
    (client : Client) (hs : sizingChanged d = false) (ht : tierChanged d = true) :
    ResourceVirtualHostImmutableUpdate d client =
      match immutableUpdateTierBlock d client with
      | (some ds, sent) => ⟨d, ds, sent⟩
      | (none, sent) =>
        ⟨(ResourceVirtualHostImmutableRead d client).d,
          (ResourceVirtualHostImmutableRead d client).diags,
          sent ++ (ResourceVirtualHostImmutableRead d client).requests⟩ := by
  unfold sizingChanged at hs
  unfold tierChanged at ht
  unfold ResourceVirtualHostImmutableUpdate
  simp only [hs, ht]
  rcases immutableUpdateTierBlock d client with ⟨_ | ds, sent⟩ <;> simp

/-- C3 (amended). The one request `ResourceVirtualHostCreate` sends when an interface is declared
is the create mutation whose input carries, under `memorySizeGB`, the declared `memory_size_gb`
unchanged; when only sizing fields changed, the first request of `ResourceVirtualHostUpdate` is
the resize mutation whose input carries `memorySizeGB` equal to the declared `memory_size_gb`
unchanged if that field changed, and no memory value otherwise. -/
theorem memory_on_write_is_declared_gb
    (d e : ResourceData VirtualHostAttrs) (client : Client)
    (hi : d.attrs.interfaces ≠ [])
    (hs : sizingChanged e = true) (ht : tierChanged e = false) :
    (ResourceVirtualHostCreate d client).requests =
      [Request.mutationCreateVM (virtualHostCreateInput d)] ∧
    (virtualHostCreateInput d).memorySizeGB = d.attrs.memory_size_gb ∧
    (ResourceVirtualHostUpdate e client).requests.head? =
      some (Request.mutationResizeVm (resizeInput e)) ∧
    (resizeInput e).memorySizeGB =
      (if e.HasChange "memory_size_gb" then some e.attrs.memory_size_gb else none) := by
  refine ⟨create_requests d client hi, rfl, ?_, rfl⟩
  rw [update_sizing_only e client hs ht]
  have hr := resizeBlock_requests e client
  rcases hb : resizeBlock e client with ⟨_ | ds, sent⟩ <;> simp [hb] at hr ⊢ <;> simp [hr]

/-- Witness of C3 (amended): 8 GB declared at create, and a change of `memory_size_gb` to 8. -/
theorem memory_on_write_is_declared_gb_witness :
    ((⟨"", testAttrs, []⟩ : ResourceData VirtualHostAttrs).attrs.interfaces ≠ [] ∧
      sizingChanged (⟨"vh-1", testAttrs, ["memory_size_gb"]⟩ : ResourceData VirtualHostAttrs)
        = true ∧
      tierChanged (⟨"vh-1", testAttrs, ["memory_size_gb"]⟩ : ResourceData VirtualHostAttrs)
        = false) ∧
    (ResourceVirtualHostCreate ⟨"", testAttrs, []⟩ downClient).requests =
      [Request.mutationCreateVM (virtualHostCreateInput ⟨"", testAttrs, []⟩)] ∧
    (virtualHostCreateInput ⟨"", testAttrs, []⟩).memorySizeGB = 8 ∧
    (ResourceVirtualHostUpdate ⟨"vh-1", testAttrs, ["memory_size_gb"]⟩ downClient).requests.head? =
      some (Request.mutationResizeVm (resizeInput ⟨"vh-1", testAttrs, ["memory_size_gb"]⟩)) ∧
    (resizeInput ⟨"vh-1", testAttrs, ["memory_size_gb"]⟩).memorySizeGB = some 8 :=
  ⟨⟨by decide, by decide, by decide⟩,
    memory_on_write_is_declared_gb ⟨"", testAttrs, []⟩ ⟨"vh-1", testAttrs, ["memory_size_gb"]⟩
      downClient (by decide) (by decide) (by decide)⟩

/-! ### C4: delete of the standard and immutable variants -/

/-- C4 (evaluation at the failing input): when the executor succeeds and the delete payload has
`__typename` `Unauthorized`, `ResourceVirtualHostDelete` returns no diagnostics and clears the
identifier `vh-1`; the same holds for every other payload type, since the decoded type name is
never inspected. -/
theorem delete_ignores_payload_type :
    HasError (ResourceVirtualHostDelete (⟨"vh-1", testAttrs, []⟩ : ResourceData VirtualHostAttrs)
      refusedDeleteClient).diags = false ∧
    (ResourceVirtualHostDelete (⟨"vh-1", testAttrs, []⟩ : ResourceData VirtualHostAttrs)
      refusedDeleteClient).d.Id = "" ∧
    (∀ (d : ResourceData VirtualHostAttrs) (client : Client) (t : String),
      client.DeleteVm d.Id = .ok t →
        (ResourceVirtualHostDelete d client).diags = [] ∧
        (ResourceVirtualHostDelete d client).d.Id = "") := by
  refine ⟨rfl, rfl, ?_⟩
  intro d client t h
  have hd : ResourceVirtualHostDelete d client =
      ⟨d.SetId "", [], [Request.mutationDelete d.Id]⟩ := by
    unfold ResourceVirtualHostDelete
    simp only [h]
  rw [hd]
  exact ⟨rfl, rfl⟩

/-! ### C5: read of a missing object -/

/-- What `ResourceVirtualHostRead` does when the backend reports a null object. -/
theorem read_of_missing (d : ResourceData VirtualHostAttrs) (client : Client)
    (h : client.GetVm d.Id = .ok none) :
    ResourceVirtualHostRead d client = ⟨d.SetId "", [], [Request.queryGetVM d.Id]⟩ := by
  unfold ResourceVirtualHostRead
  simp only [h]

/-- What `resourceVirtualHostCaasRead` does when the backend reports a null object. -/
theorem caas_read_of_missing (d : ResourceData VirtualHostCaasAttrs) (client : Client)
    (h : client.GetVirtualHostCaas d.Id = .ok none) :
    resourceVirtualHostCaasRead d client =
      ⟨d.SetId "", [], [Request.queryGetVirtualHostCaas d.Id]⟩ := by
  unfold resourceVirtualHostCaasRead
  simp only [h]

/-- What `ResourceVirtualHostImmutableRead` does when the backend reports a null object. -/
theorem immutable_read_of_missing (d : ResourceData VirtualHostImmutableAttrs)
    (client : Client) (h : client.GetVm d.Id = .ok none) :
    ResourceVirtualHostImmutableRead d client =
      ⟨d.SetId "", [], [Request.queryGetVM d.Id]⟩ := by
  unfold ResourceVirtualHostImmutableRead
  simp only [h]

/-- C5. For each of the three variants on its own: whenever the executor succeeds and the
backend reports a null `virtualHost` to that variant's read, the read
(`ResourceVirtualHostRead`, `resourceVirtualHostCaasRead`, `ResourceVirtualHostImmutableRead`)
sets the identifier to the empty string and returns no diagnostics, whatever the identifier and
the attributes were and whatever the backend answers to any other call. -/
theorem read_missing_object_clears_id :
    (∀ (d : ResourceData VirtualHostAttrs) (client : Client),
      client.GetVm d.Id = .ok none →
      (ResourceVirtualHostRead d client).d.Id = "" ∧
      (ResourceVirtualHostRead d client).diags = []) ∧
    (∀ (dc : ResourceData VirtualHostCaasAttrs) (client : Client),
      client.GetVirtualHostCaas dc.Id = .ok none →
      (resourceVirtualHostCaasRead dc client).d.Id = "" ∧
      (resourceVirtualHostCaasRead dc client).diags = []) ∧
    (∀ (di : ResourceData VirtualHostImmutableAttrs) (client : Client),
      client.GetVm di.Id = .ok none →
      (ResourceVirtualHostImmutableRead di client).d.Id = "" ∧
      (ResourceVirtualHostImmutableRead di client).diags = []) := by
  refine ⟨?_, ?_, ?_⟩
  · intro d client h
    rw [read_of_missing d client h]
    exact ⟨rfl, rfl⟩
  · intro dc client hc
    rw [caas_read_of_missing dc client hc]
    exact ⟨rfl, rfl⟩
  · intro di client hi
    rw [immutable_read_of_missing di client hi]
    exact ⟨rfl, rfl⟩

/-- Witness of C5: the identifiers `vh-1` and `vh-immutable-1` become the empty string; each
variant is read against a backend that reports the object missing to that variant's query
only. -/
theorem read_missing_object_clears_id_witness :
    (vmGoneClient.GetVm "vh-1" = .ok none ∧ caasGoneClient.GetVirtualHostCaas "vh-1" = .ok none ∧
      vmGoneClient.GetVm "vh-immutable-1" = .ok none) ∧
    ((ResourceVirtualHostRead ⟨"vh-1", testAttrs, []⟩ vmGoneClient).d.Id = "" ∧
      (ResourceVirtualHostRead ⟨"vh-1", testAttrs, []⟩ vmGoneClient).diags = []) ∧
    ((resourceVirtualHostCaasRead ⟨"vh-1", testCaasAttrs, []⟩ caasGoneClient).d.Id = "" ∧
      (resourceVirtualHostCaasRead ⟨"vh-1", testCaasAttrs, []⟩ caasGoneClient).diags = []) ∧
    ((ResourceVirtualHostImmutableRead ⟨"vh-immutable-1", testImmutableAttrs, []⟩
        vmGoneClient).d.Id = "" ∧
      (ResourceVirtualHostImmutableRead ⟨"vh-immutable-1", testImmutableAttrs, []⟩
        vmGoneClient).diags = []) :=
  ⟨⟨rfl, rfl, rfl⟩,
    read_missing_object_clears_id.1 ⟨"vh-1", testAttrs, []⟩ vmGoneClient rfl,
    read_missing_object_clears_id.2.1 ⟨"vh-1", testCaasAttrs, []⟩ caasGoneClient rfl,
    read_missing_object_clears_id.2.2 ⟨"vh-immutable-1", testImmutableAttrs, []⟩ vmGoneClient
      rfl⟩

/-! ### C6: an unknown discriminant is fatal -/

/-- `ResourceVirtualHostCreate` on a payload of unrecognised type. -/
theorem create_unknown_typename (d : ResourceData VirtualHostAttrs) (client : Client)
    (p : VirtualHostCreatePayload) (hi : d.attrs.interfaces ≠ [])
    (h : client.CreateVm (virtualHostCreateInput d) = .ok p)
    (hp : p.Typename ∉ createTypenames) :
    ResourceVirtualHostCreate d client =
      ⟨d, [Diag.errorf "virtualHostCreate: unexpected payload type %q" [p.Typename]],
        [Request.mutationCreateVM (virtualHostCreateInput d)]⟩ := by
  have hlen : ¬ d.attrs.interfaces.length = 0 := by
    simpa [List.length_eq_zero] using hi
  simp only [createTypenames, List.mem_cons, List.mem_singleton, List.not_mem_nil, or_false,
    not_or] at hp
  obtain ⟨h1, h2, h3, h4⟩ := hp
  unfold ResourceVirtualHostCreate
  rw [if_neg hlen]
  simp only [h, if_neg h1, if_neg h2, h3, h4, or_self, if_false]

/-- `ResourceVirtualHostImmutableCreate` on a payload of unrecognised type. -/
theorem immutable_create_unknown_typename (d : ResourceData VirtualHostImmutableAttrs)
    (client : Client) (p : VirtualHostCreatePayload)
    (h : client.CreateVmImmutable (virtualHostCreateImmutableInput d) = .ok p)
    (hp : p.Typename ∉ createTypenames) :
    ResourceVirtualHostImmutableCreate d client =
      ⟨d, [Diag.errorf "virtualHostCreateImmutable: unexpected payload type %q" [p.Typename]],
        [Request.mutationCreateImmutableVM (virtualHostCreateImmutableInput d)]⟩ := by
  simp only [createTypenames, List.mem_cons, List.mem_singleton, List.not_mem_nil, or_false,
    not_or] at hp
  obtain ⟨h1, h2, h3, h4⟩ := hp
  unfold ResourceVirtualHostImmutableCreate
  simp only [h, if_neg h1, if_neg h2, h3, h4, or_self, if_false]

/-- The resize switches on a payload of unrecognised type. -/
theorem resizeSwitch_unknown (p : TaskPayload) (hp : p.Typename ∉ taskTypenames) :
    resizeSwitch p =
      some [Diag.errorf "virtualHostResize: unexpected payload type %q" [p.Typename]] ∧
    immutableResizeSwitch p =
      some [Diag.errorf "virtualHostResize: unexpected payload type %q" [p.Typename]] := by
  simp only [taskTypenames, List.mem_cons, List.mem_singleton, List.not_mem_nil, or_false,
    not_or] at hp
  obtain ⟨h1, h2, h3, h4⟩ := hp
  unfold resizeSwitch immutableResizeSwitch
  simp only [if_neg h1, if_neg h2, h3, h4, or_self, if_false, and_self]

/-- The tier-update switches on a payload of unrecognised type. -/
theorem updateTierSwitch_unknown (p : TaskPayload) (hp : p.Typename ∉ taskTypenames) :
    updateTierSwitch p =
      some [Diag.errorf "virtualHostUpdateTier: unexpected payload type %q" [p.Typename]] ∧
    immutableUpdateTierSwitch p =
      some [Diag.errorf "virtualHostUpdateTier: unexpected payload type %q" [p.Typename]] := by
  simp only [taskTypenames, List.mem_cons, List.mem_singleton, List.not_mem_nil, or_false,
    not_or] at hp
  obtain ⟨h1, h2, h3, h4⟩ := hp
  unfold updateTierSwitch immutableUpdateTierSwitch
  simp only [if_neg h1, if_neg h2, h3, h4, or_self, if_false, and_self]

/-- `ResourceVirtualHostUpdate`, sizing only, on a resize payload of unrecognised type. -/
theorem update_resize_unknown_typename (d : ResourceData VirtualHostAttrs) (client : Client)
    (p : TaskPayload) (hs : sizingChanged d = true) (ht : tierChanged d = false)
    (h : client.ResizeVm (resizeInput d) = .ok p) (hp : p.Typename ∉ taskTypenames) :
    ResourceVirtualHostUpdate d client =
      ⟨d, [Diag.errorf "virtualHostResize: unexpected payload type %q" [p.Typename]],
        [Request.mutationResizeVm (resizeInput d)]⟩ := by
  rw [update_sizing_only d client hs ht]
  have hb : resizeBlock d client = (resizeSwitch p, [Request.mutationResizeVm (resizeInput d)]) := by
    unfold resizeBlock
    simp only [h]
  rw [hb, (resizeSwitch_unknown p hp).1]

/-- `ResourceVirtualHostUpdate`, tier only, on a tier-update payload of unrecognised type. -/
theorem update_tier_unknown_typename (d : ResourceData VirtualHostAttrs) (client : Client)
    (p : TaskPayload) (hs : sizingChanged d = false) (ht : tierChanged d = true)
    (h : client.UpdateVmTier (updateTierInput d) = .ok p)
    (hp : p.Typename ∉ taskTypenames) :
    ResourceVirtualHostUpdate d client =
      ⟨d, [Diag.errorf "virtualHostUpdateTier: unexpected payload type %q" [p.Typename]],
        [Request.mutationUpdateVmTier (updateTierInput d)]⟩ := by
  rw [update_tier_only d client hs ht]
  have hb : updateTierBlock d client = (updateTierSwitch p,
      [Request.mutationUpdateVmTier (updateTierInput d)]) := by
    unfold updateTierBlock
    simp only [h]
  rw [hb, (updateTierSwitch_unknown p hp).1]

/-- `ResourceVirtualHostImmutableUpdate`, sizing only, on a resize payload of unrecognised
type. -/
theorem immutable_update_resize_unknown_typename (d : ResourceData VirtualHostImmutableAttrs)
    (client : Client) (p : TaskPayload) (hs : sizingChanged d = true)
    (ht : tierChanged d = false)
    (h : client.ResizeVm (immutableResizeInput d) = .ok p) (hp : p.Typename ∉ taskTypenames) :
    ResourceVirtualHostImmutableUpdate d client =
      ⟨d, [Diag.errorf "virtualHostResize: unexpected payload type %q" [p.Typename]],
        [Request.mutationResizeVm (immutableResizeInput d)]⟩ := by
  rw [immutable_update_sizing_only d client hs ht]
  have hb : immutableResizeBlock d client =
      (immutableResizeSwitch p, [Request.mutationResizeVm (immutableResizeInput d)]) := by
    unfold immutableResizeBlock
    simp only [h]
  rw [hb, (resizeSwitch_unknown p hp).2]

/-- `ResourceVirtualHostImmutableUpdate`, tier only, on a tier-update payload of unrecognised
type. -/
theorem immutable_update_tier_unknown_typename (d : ResourceData VirtualHostImmutableAttrs)
    (client : Client) (p : TaskPayload) (hs : sizingChanged d = false)
    (ht : tierChanged d = true)
    (h : client.UpdateVmTier (immutableUpdateTierInput d) = .ok p)
    (hp : p.Typename ∉ taskTypenames) :
    ResourceVirtualHostImmutableUpdate d client =
      ⟨d, [Diag.errorf "virtualHostUpdateTier: unexpected payload type %q" [p.Typename]],
        [Request.mutationUpdateVmTier (immutableUpdateTierInput d)]⟩ := by
  rw [immutable_update_tier_only d client hs ht]
  have hb : immutableUpdateTierBlock d client = (immutableUpdateTierSwitch p,
      [Request.mutationUpdateVmTier (immutableUpdateTierInput d)]) := by
    unfold immutableUpdateTierBlock
    simp only [h]
  rw [hb, (updateTierSwitch_unknown p hp).2]

/-- `resourceVirtualHostCaasCreate` on a payload of unrecognised type. -/
theorem caas_create_unknown_typename (d : ResourceData VirtualHostCaasAttrs) (client : Client)
    (p : caasPayload)
    (h : client.CreateVirtualHostCaas (virtualHostCreateCaasInput d) = .ok p)
    (hp : p.Typename ∉ caasTypenames) :
    (resourceVirtualHostCaasCreate d client).d = d ∧
    (resourceVirtualHostCaasCreate d client).diags =
      [Diag.errorf "virtualHostCreateCaas: unexpected payload type %q" [p.Typename]] := by
  simp only [caasTypenames, List.mem_cons, List.mem_singleton, List.not_mem_nil, or_false,
    not_or] at hp
  obtain ⟨h1, h2, h3, h4⟩ := hp
  unfold resourceVirtualHostCaasCreate
  simp only [h, if_neg h1, if_neg h2, h3, h4, or_self, if_false, and_self]

/-- `resourceVirtualHostCaasUpdate` on a payload of unrecognised type. -/
theorem caas_update_unknown_typename (d : ResourceData VirtualHostCaasAttrs) (client : Client)
    (p : caasPayload) (hc : (d.HasChange "note" || d.HasChange "tier_id") = true)
    (h : client.UpdateVirtualHostCaas (virtualHostUpdateCaasInput d) = .ok p)
    (hp : p.Typename ∉ caasTypenames) :
    (resourceVirtualHostCaasUpdate d client).d = d ∧
    (resourceVirtualHostCaasUpdate d client).diags =
      [Diag.errorf "virtualHostUpdateCaas: unexpected payload type %q" [p.Typename]] ∧
    (resourceVirtualHostCaasUpdate d client).requests.length = 1 := by
  simp only [caasTypenames, List.mem_cons, List.mem_singleton, List.not_mem_nil, or_false,
    not_or] at hp
  obtain ⟨h1, h2, h3, h4⟩ := hp
  unfold resourceVirtualHostCaasUpdate
  simp only [hc, h, if_neg h1, if_neg h2, h3, h4, or_self, if_false, Bool.not_true,
    Bool.false_eq_true, List.length_singleton, and_self]

/-- `resourceVirtualHostCaasDelete` on a payload of unrecognised type. -/
theorem caas_delete_unknown_typename (d : ResourceData VirtualHostCaasAttrs) (client : Client)
    (p : caasPayload) (h : client.DeleteVirtualHostCaas d.Id = .ok p)
    (hp : p.Typename ∉ caasTypenames) :
    (resourceVirtualHostCaasDelete d client).d = d ∧
    (resourceVirtualHostCaasDelete d client).diags =
      [Diag.errorf "virtualHostDeleteCaas: unexpected payload type %q" [p.Typename]] := by
  simp only [caasTypenames, List.mem_cons, List.mem_singleton, List.not_mem_nil, or_false,
    not_or] at hp
  obtain ⟨h1, h2, h3, h4⟩ := hp
  unfold resourceVirtualHostCaasDelete
  simp only [h, if_neg h1, if_neg h2, h3, h4, or_self, if_false, and_self]

/-- C6. For each operation on its own (the create of the standard, immutable and shadow
variants, resize and tier update in the standard and in the immutable update, the shadow update
and the shadow delete), for every resource data, every backend and every payload returned to
that operation whose `__typename` is not one of the type names the operation recognises: the
operation returns the one error `unexpected payload type` naming that type, and the resource
data (identifier and every attribute) is exactly as before the call. Nothing is assumed about
what the backend answers to any other operation. -/
theorem unknown_discriminant_is_fatal :
    (∀ (d : ResourceData VirtualHostAttrs) (client : Client) (p : VirtualHostCreatePayload),
      d.attrs.interfaces ≠ [] →
      client.CreateVm (virtualHostCreateInput d) = .ok p → p.Typename ∉ createTypenames →
      (ResourceVirtualHostCreate d client).diags =
        [Diag.errorf "virtualHostCreate: unexpected payload type %q" [p.Typename]] ∧
      (ResourceVirtualHostCreate d client).d = d) ∧
    (∀ (di : ResourceData VirtualHostImmutableAttrs) (client : Client)
        (p : VirtualHostCreatePayload),
      client.CreateVmImmutable (virtualHostCreateImmutableInput di) = .ok p →
      p.Typename ∉ createTypenames →
      (ResourceVirtualHostImmutableCreate di client).diags =
        [Diag.errorf "virtualHostCreateImmutable: unexpected payload type %q" [p.Typename]] ∧
      (ResourceVirtualHostImmutableCreate di client).d = di) ∧
    (∀ (dc : ResourceData VirtualHostCaasAttrs) (client : Client) (p : caasPayload),
      client.CreateVirtualHostCaas (virtualHostCreateCaasInput dc) = .ok p →
      p.Typename ∉ caasTypenames →
      (resourceVirtualHostCaasCreate dc client).diags =
        [Diag.errorf "virtualHostCreateCaas: unexpected payload type %q" [p.Typename]] ∧
      (resourceVirtualHostCaasCreate dc client).d = dc) ∧
    (∀ (d : ResourceData VirtualHostAttrs) (client : Client) (p : TaskPayload),
      sizingChanged d = true → tierChanged d = false →
      client.ResizeVm (resizeInput d) = .ok p → p.Typename ∉ taskTypenames →
      (ResourceVirtualHostUpdate d client).diags =
        [Diag.errorf "virtualHostResize: unexpected payload type %q" [p.Typename]] ∧
      (ResourceVirtualHostUpdate d client).d = d) ∧
    (∀ (d : ResourceData VirtualHostAttrs) (client : Client) (p : TaskPayload),
      sizingChanged d = false → tierChanged d = true →
      client.UpdateVmTier (updateTierInput d) = .ok p → p.Typename ∉ taskTypenames →
      (ResourceVirtualHostUpdate d client).diags =
        [Diag.errorf "virtualHostUpdateTier: unexpected payload type %q" [p.Typename]] ∧
      (ResourceVirtualHostUpdate d client).d = d) ∧
    (∀ (di : ResourceData VirtualHostImmutableAttrs) (client : Client) (p : TaskPayload),
      sizingChanged di = true → tierChanged di = false →
      client.ResizeVm (immutableResizeInput di) = .ok p → p.Typename ∉ taskTypenames →
      (ResourceVirtualHostImmutableUpdate di client).diags =
        [Diag.errorf "virtualHostResize: unexpected payload type %q" [p.Typename]] ∧
      (ResourceVirtualHostImmutableUpdate di client).d = di) ∧
    (∀ (di : ResourceData VirtualHostImmutableAttrs) (client : Client) (p : TaskPayload),
      sizingChanged di = false → tierChanged di = true →
      client.UpdateVmTier (immutableUpdateTierInput di) = .ok p →
      p.Typename ∉ taskTypenames →
      (ResourceVirtualHostImmutableUpdate di client).diags =
        [Diag.errorf "virtualHostUpdateTier: unexpected payload type %q" [p.Typename]] ∧
      (ResourceVirtualHostImmutableUpdate di client).d = di) ∧
    (∀ (dc : ResourceData VirtualHostCaasAttrs) (client : Client) (p : caasPayload),
      (dc.HasChange "note" || dc.HasChange "tier_id") = true →
      client.UpdateVirtualHostCaas (virtualHostUpdateCaasInput dc) = .ok p →
      p.Typename ∉ caasTypenames →
      (resourceVirtualHostCaasUpdate dc client).diags =
        [Diag.errorf "virtualHostUpdateCaas: unexpected payload type %q" [p.Typename]] ∧
      (resourceVirtualHostCaasUpdate dc client).d = dc) ∧
    (∀ (dc : ResourceData VirtualHostCaasAttrs) (client : Client) (p : caasPayload),
      client.DeleteVirtualHostCaas dc.Id = .ok p → p.Typename ∉ caasTypenames →
      (resourceVirtualHostCaasDelete dc client).diags =
        [Diag.errorf "virtualHostDeleteCaas: unexpected payload type %q" [p.Typename]] ∧
      (resourceVirtualHostCaasDelete dc client).d = dc) := by
  refine ⟨?_, ?_, ?_, ?_, ?_, ?_, ?_, ?_, ?_⟩
  · intro d client p hi h hp
    rw [create_unknown_typename d client p hi h hp]
    exact ⟨rfl, rfl⟩
  · intro di client p h hp
    rw [immutable_create_unknown_typename di client p h hp]
    exact ⟨rfl, rfl⟩
  · intro dc client p h hp
    have h3 := caas_create_unknown_typename dc client p h hp
    exact ⟨h3.2, h3.1⟩
  · intro d client p hs ht h hp
    rw [update_resize_unknown_typename d client p hs ht h hp]
    exact ⟨rfl, rfl⟩
  · intro d client p hs ht h hp
    rw [update_tier_unknown_typename d client p hs ht h hp]
    exact ⟨rfl, rfl⟩
  · intro di client p hs ht h hp
    rw [immutable_update_resize_unknown_typename di client p hs ht h hp]
    exact ⟨rfl, rfl⟩
  · intro di client p hs ht h hp
    rw [immutable_update_tier_unknown_typename di client p hs ht h hp]
    exact ⟨rfl, rfl⟩
  · intro dc client p hc h hp
    have h8 := caas_update_unknown_typename dc client p hc h hp
    exact ⟨h8.2.1, h8.1⟩
  · intro dc client p h hp
    have h9 := caas_delete_unknown_typename dc client p h hp
    exact ⟨h9.2, h9.1⟩

/-- Witness of C6: the payload type `SomeNewType` returned to the standard create, to the resize
of a standard update by a backend that answers no other call, and to the shadow delete. -/
theorem unknown_discriminant_is_fatal_witness :
    ("SomeNewType" ∉ createTypenames ∧ "SomeNewType" ∉ taskTypenames ∧
      "SomeNewType" ∉ caasTypenames) ∧
    ((ResourceVirtualHostCreate ⟨"", testAttrs, []⟩ driftClient).diags =
        [Diag.errorf "virtualHostCreate: unexpected payload type %q" ["SomeNewType"]] ∧
      (ResourceVirtualHostCreate ⟨"", testAttrs, []⟩ driftClient).d = ⟨"", testAttrs, []⟩) ∧
    ((ResourceVirtualHostUpdate resizeData resizeDriftClient).diags =
        [Diag.errorf "virtualHostResize: unexpected payload type %q" ["SomeNewType"]] ∧
      (ResourceVirtualHostUpdate resizeData resizeDriftClient).d = resizeData) ∧
    ((resourceVirtualHostCaasDelete ⟨"vh-1", testCaasAttrs, []⟩ driftClient).diags =
        [Diag.errorf "virtualHostDeleteCaas: unexpected payload type %q" ["SomeNewType"]] ∧
      (resourceVirtualHostCaasDelete ⟨"vh-1", testCaasAttrs, []⟩ driftClient).d =
        ⟨"vh-1", testCaasAttrs, []⟩) :=
  ⟨⟨by decide, by decide, by decide⟩,
    unknown_discriminant_is_fatal.1 ⟨"", testAttrs, []⟩ driftClient
      (createPayload "SomeNewType" none) (by decide) rfl (by decide),
    unknown_discriminant_is_fatal.2.2.2.1 resizeData resizeDriftClient
      (taskPayload "SomeNewType") (by decide) (by decide) rfl (by decide),
    unknown_discriminant_is_fatal.2.2.2.2.2.2.2.2 ⟨"vh-1", testCaasAttrs, []⟩ driftClient
      (caasPayloadOf "SomeNewType") rfl (by decide)⟩

/-! ### C7: declared interfaces survive a read -/

/-- The attributes `ResourceVirtualHostRead` leaves when the backend returns an object. -/
theorem read_of_object_interfaces (d : ResourceData VirtualHostAttrs) (client : Client)
    (vh : VirtualHostNode) (h : client.GetVm d.Id = .ok (some vh)) :
    (ResourceVirtualHostRead d client).d.attrs.interfaces =
      (if d.attrs.interfaces.length = 0 then
        vh.NetworkInterfaceList.map interfaceOfNetworkInterface
       else d.attrs.interfaces) ∧
    (ResourceVirtualHostRead d client).diags = [] ∧
    (ResourceVirtualHostRead d client).d.id = d.id := by
  unfold ResourceVirtualHostRead
  rw [h]
  by_cases hl : d.attrs.interfaces.length = 0 <;> simp [hl]

/-- The interfaces `ResourceVirtualHostImmutableRead` leaves when the backend returns an
object. -/
theorem immutable_read_of_object_interfaces (d : ResourceData VirtualHostImmutableAttrs)
    (client : Client) (vh : VirtualHostNode) (h : client.GetVm d.Id = .ok (some vh)) :
    (ResourceVirtualHostImmutableRead d client).d.attrs.interfaces =
      (if d.attrs.interfaces.length = 0 then
        vh.NetworkInterfaceList.map immutableInterfaceOfNetworkInterface
       else d.attrs.interfaces) ∧
    (ResourceVirtualHostImmutableRead d client).diags = [] ∧
    (ResourceVirtualHostImmutableRead d client).d.id = d.id := by
  unfold ResourceVirtualHostImmutableRead
  rw [h]
  by_cases hl : d.attrs.interfaces.length = 0 <;> simp [hl]

/-- C7. If the interfaces list held before the call is non-empty, then after
`ResourceVirtualHostRead` and after `ResourceVirtualHostImmutableRead` the interfaces list is
exactly the list held before, whatever the executor answers (any object, with any
`networkInterfaceList`, a null object, or an error). -/
theorem read_keeps_declared_interfaces
    (d : ResourceData VirtualHostAttrs) (di : ResourceData VirtualHostImmutableAttrs)
    (client : Client)
    (h : d.attrs.interfaces ≠ []) (hi : di.attrs.interfaces ≠ []) :
    (ResourceVirtualHostRead d client).d.attrs.interfaces = d.attrs.interfaces ∧
    (ResourceVirtualHostImmutableRead di client).d.attrs.interfaces = di.attrs.interfaces := by
  have hlen : ¬ d.attrs.interfaces.length = 0 := by
    simpa [List.length_eq_zero] using h
  have hilen : ¬ di.attrs.interfaces.length = 0 := by
    simpa [List.length_eq_zero] using hi
  constructor
  · rcases hg : client.GetVm d.Id with err | (_ | vh)
    · unfold ResourceVirtualHostRead
      simp only [hg]
    · rw [read_of_missing d client hg]
      rfl
    · rw [(read_of_object_interfaces d client vh hg).1, if_neg hlen]
  · rcases hg : client.GetVm di.Id with err | (_ | vh)
    · unfold ResourceVirtualHostImmutableRead
      simp only [hg]
    · rw [immutable_read_of_missing di client hg]
      rfl
    · rw [(immutable_read_of_object_interfaces di client vh hg).1, if_neg hilen]

/-- Witness of C7: one declared interface on `net-1`, while the backend reports two interfaces on
other networks. -/
theorem read_keeps_declared_interfaces_witness :
    (testAttrs.interfaces ≠ [] ∧ testImmutableAttrsWithInterface.interfaces ≠ [] ∧
      otherInterfacesNode.NetworkInterfaceList.length = 2) ∧
    (ResourceVirtualHostRead ⟨"vh-1", testAttrs, []⟩
        (nodeClient otherInterfacesNode)).d.attrs.interfaces =
      [{ network_id := "net-1", auto_assign_ip := some true, ip := some "" }] ∧
    (ResourceVirtualHostImmutableRead ⟨"vh-immutable-1", testImmutableAttrsWithInterface, []⟩
        (nodeClient otherInterfacesNode)).d.attrs.interfaces =
      [{ network_id := "net-1", ip_list := some ["192.0.2.10"] }] :=
  ⟨⟨by decide, by decide, rfl⟩,
    read_keeps_declared_interfaces ⟨"vh-1", testAttrs, []⟩
      ⟨"vh-immutable-1", testImmutableAttrsWithInterface, []⟩ (nodeClient otherInterfacesNode)
      (by decide) (by decide)⟩

/-! ### C8: interface materialization on read -/

/-- C8. When no interface is held locally and the backend returns an object,
`ResourceVirtualHostRead` leaves one `interfaces` entry per backend network interface, in the
same order, with `network_id` the backend network id; an entry whose backend interface reports
the IPv4 addresses `a :: rest` has `auto_assign_ip = false` and `ip = a.IP` (the prefix length is
dropped), and an entry whose backend interface reports no IPv4 address has
`auto_assign_ip = true` and no `ip`. -/
theorem read_materializes_interfaces (d : ResourceData VirtualHostAttrs) (client : Client)
    (vh : VirtualHostNode) (h0 : d.attrs.interfaces = [])
    (h : client.GetVm d.Id = .ok (some vh)) :
    (ResourceVirtualHostRead d client).d.attrs.interfaces.length =
      vh.NetworkInterfaceList.length ∧
    ∀ (i : Nat) (ni : NetworkInterface), vh.NetworkInterfaceList[i]? = some ni →
      ∃ e : Interface, (ResourceVirtualHostRead d client).d.attrs.interfaces[i]? = some e ∧
        e.network_id = ni.Network ∧
        (∀ (a : IPAddress) (rest : List IPAddress), ni.IPv4Addresses = a :: rest →
          e.auto_assign_ip = some false ∧ e.ip = some a.IP) ∧
        (ni.IPv4Addresses = [] → e.auto_assign_ip = some true ∧ e.ip = none) := by
  have hr := (read_of_object_interfaces d client vh h).1
  rw [h0] at hr
  simp only [List.length_nil, if_true] at hr
  rw [hr]
  refine ⟨List.length_map _ _, ?_⟩
  intro i ni hni
  refine ⟨interfaceOfNetworkInterface ni, ?_, ?_, ?_, ?_⟩
  · rw [List.getElem?_map, hni]
    rfl
  · unfold interfaceOfNetworkInterface
    split <;> rfl
  · intro a rest ha
    unfold interfaceOfNetworkInterface
    rw [ha]
    exact ⟨rfl, rfl⟩
  · intro ha
    unfold interfaceOfNetworkInterface
    rw [ha]
    exact ⟨rfl, rfl⟩

/-- Witness of C8: one backend interface on `net-1` reporting `192.0.2.10/24` yields
`network_id = net-1`, `auto_assign_ip = false`, `ip = 192.0.2.10`. -/
theorem read_materializes_interfaces_witness :
    (testAttrsNoInterfaces.interfaces = [] ∧
      (nodeClient testNode).GetVm "vh-1" = .ok (some testNode)) ∧
    (ResourceVirtualHostRead ⟨"vh-1", testAttrsNoInterfaces, []⟩
        (nodeClient testNode)).d.attrs.interfaces.length = 1 ∧
    (ResourceVirtualHostRead ⟨"vh-1", testAttrsNoInterfaces, []⟩
        (nodeClient testNode)).d.attrs.interfaces =
      [{ network_id := "net-1", auto_assign_ip := some false, ip := some "192.0.2.10" }] :=
  ⟨⟨rfl, rfl⟩,
    (read_materializes_interfaces ⟨"vh-1", testAttrsNoInterfaces, []⟩ (nodeClient testNode)
      testNode rfl rfl).1,
    rfl⟩

/-! ### C9: which addresses classify an interface as manually assigned -/

/-- C9 (counterexample). With no interface held locally, a backend interface that reports an
IPv6 address and no IPv4 address is materialized by `ResourceVirtualHostRead` as auto-assigned
(`auto_assign_ip = true`, no `ip`), not as manually assigned. -/
theorem ipv6_only_interface_is_auto_assigned :
    (ipv6OnlyNode.NetworkInterfaceList.map (fun ni => ni.IPv6Addresses.length)) = [1] ∧
    (ResourceVirtualHostRead ⟨"vh-1", testAttrsNoInterfaces, []⟩
        (nodeClient ipv6OnlyNode)).d.attrs.interfaces =
      [{ network_id := "net-1", auto_assign_ip := some true, ip := none }] ∧
    ¬ (∀ e ∈ (ResourceVirtualHostRead ⟨"vh-1", testAttrsNoInterfaces, []⟩
        (nodeClient ipv6OnlyNode)).d.attrs.interfaces, e.auto_assign_ip = some false) := by
  refine ⟨rfl, rfl, ?_⟩
  intro hall
  have hmem : ({ network_id := "net-1", auto_assign_ip := some true, ip := none } : Interface) ∈
      (ResourceVirtualHostRead ⟨"vh-1", testAttrsNoInterfaces, []⟩
        (nodeClient ipv6OnlyNode)).d.attrs.interfaces := by
    have hlist : (ResourceVirtualHostRead ⟨"vh-1", testAttrsNoInterfaces, []⟩
        (nodeClient ipv6OnlyNode)).d.attrs.interfaces =
        [{ network_id := "net-1", auto_assign_ip := some true, ip := none }] := rfl
    rw [hlist]
    exact List.mem_singleton.mpr rfl
  have hfalse := hall _ hmem
  simp at hfalse

/-- C9 (amended). During read-driven materialization only the reported IPv4 addresses classify
an interface: the entry is manually assigned (`auto_assign_ip = false`) exactly when the backend
interface reports at least one IPv4 address, auto-assigned (`auto_assign_ip = true`) exactly when
it reports none, and the recorded `ip` is the first IPv4 address if there is one and absent
otherwise, whatever the IPv6 addresses are. -/
theorem classification_follows_ipv4_only (d : ResourceData VirtualHostAttrs) (client : Client)
    (vh : VirtualHostNode) (h0 : d.attrs.interfaces = [])
    (h : client.GetVm d.Id = .ok (some vh)) :
    ∀ (i : Nat) (ni : NetworkInterface), vh.NetworkInterfaceList[i]? = some ni →
      ∃ e : Interface, (ResourceVirtualHostRead d client).d.attrs.interfaces[i]? = some e ∧
        (e.auto_assign_ip = some false ↔ ni.IPv4Addresses ≠ []) ∧
        (e.auto_assign_ip = some true ↔ ni.IPv4Addresses = []) ∧
        e.ip = ni.IPv4Addresses.head?.map (fun a => a.IP) := by
  have hr := (read_of_object_interfaces d client vh h).1
  rw [h0] at hr
  simp only [List.length_nil, if_true] at hr
  rw [hr]
  intro i ni hni
  refine ⟨interfaceOfNetworkInterface ni, ?_, ?_, ?_, ?_⟩
  · rw [List.getElem?_map, hni]
    rfl
  · unfold interfaceOfNetworkInterface
    rcases ni.IPv4Addresses with _ | ⟨a, rest⟩ <;> simp
  · unfold interfaceOfNetworkInterface
    rcases ni.IPv4Addresses with _ | ⟨a, rest⟩ <;> simp
  · unfold interfaceOfNetworkInterface
    rcases ni.IPv4Addresses with _ | ⟨a, rest⟩ <;> simp

/-- Witness of C9 (amended): the IPv6-only interface is entry 0 and is auto-assigned. -/
theorem classification_follows_ipv4_only_witness :
    (testAttrsNoInterfaces.interfaces = [] ∧
      (nodeClient ipv6OnlyNode).GetVm "vh-1" = .ok (some ipv6OnlyNode) ∧
      ipv6OnlyNode.NetworkInterfaceList[0]? = some ipv6OnlyInterface) ∧
    ∃ e : Interface,
      (ResourceVirtualHostRead ⟨"vh-1", testAttrsNoInterfaces, []⟩
        (nodeClient ipv6OnlyNode)).d.attrs.interfaces[0]? = some e ∧
      (e.auto_assign_ip = some false ↔ ipv6OnlyInterface.IPv4Addresses ≠ []) ∧
      (e.auto_assign_ip = some true ↔ ipv6OnlyInterface.IPv4Addresses = []) ∧
      e.ip = ipv6OnlyInterface.IPv4Addresses.head?.map (fun a => a.IP) :=
  ⟨⟨rfl, rfl, rfl⟩,
    classification_follows_ipv4_only ⟨"vh-1", testAttrsNoInterfaces, []⟩
      (nodeClient ipv6OnlyNode) ipv6OnlyNode rfl rfl 0 ipv6OnlyInterface rfl⟩

/-! ### C10: memory round trip -/

/-- What `ResourceVirtualHostCreate` stores on `VirtualHostCreated` with an object. -/
theorem create_of_created (d : ResourceData VirtualHostAttrs) (client : Client)
    (p : VirtualHostCreatePayload) (vm : VirtualHost) (hi : d.attrs.interfaces ≠ [])
    (h : client.CreateVm (virtualHostCreateInput d) = .ok p)
    (ht : p.Typename = "VirtualHostCreated") (hv : p.VirtualHost = some vm) :
    (ResourceVirtualHostCreate d client).diags = [] ∧
    (ResourceVirtualHostCreate d client).d.id = vm.ID ∧
    (ResourceVirtualHostCreate d client).d.attrs.memory_size_gb = vm.MemorySizeMB.tdiv 1024 := by
  have hlen : ¬ d.attrs.interfaces.length = 0 := by
    simpa [List.length_eq_zero] using hi
  unfold ResourceVirtualHostCreate
  rw [if_neg hlen]
  simp [h, ht, hv, ResourceData.SetId]

/-- The memory `ResourceVirtualHostRead` stores when the backend returns an object. -/
theorem read_of_object_memory (d : ResourceData VirtualHostAttrs) (client : Client)
    (vh : VirtualHostNode) (h : client.GetVm d.Id = .ok (some vh)) :
    (ResourceVirtualHostRead d client).d.attrs.memory_size_gb = vh.MemorySizeMB.tdiv 1024 := by
  unfold ResourceVirtualHostRead
  rw [h]
  by_cases hl : d.attrs.interfaces.length = 0 <;> simp [hl]

/-- C10. For every non-negative `g`: when `memory_size_gb = g` is declared, the create mutation
is answered with `VirtualHostCreated` and an object whose `memorySizeMB` is `g * 1024`, then
`ResourceVirtualHostCreate` succeeds and stores `memory_size_gb = g`; and every later
`ResourceVirtualHostRead` whose backend reports the same `memorySizeMB` stores
`memory_size_gb = g` again. -/
theorem memory_round_trip (g : Int) (hg : 0 ≤ g)
    (d : ResourceData VirtualHostAttrs) (client : Client)
    (p : VirtualHostCreatePayload) (vm : VirtualHost)
    (hd : d.attrs.memory_size_gb = g) (hi : d.attrs.interfaces ≠ [])
    (h : client.CreateVm (virtualHostCreateInput d) = .ok p)
    (ht : p.Typename = "VirtualHostCreated") (hv : p.VirtualHost = some vm)
    (hm : vm.MemorySizeMB = g * 1024) :
    (virtualHostCreateInput d).memorySizeGB = g ∧
    (ResourceVirtualHostCreate d client).diags = [] ∧
    (ResourceVirtualHostCreate d client).d.attrs.memory_size_gb = g ∧
    ∀ (later : Client) (vh : VirtualHostNode),
      later.GetVm (ResourceVirtualHostCreate d client).d.Id = .ok (some vh) →
      vh.MemorySizeMB = g * 1024 →
      (ResourceVirtualHostRead (ResourceVirtualHostCreate d client).d
        later).d.attrs.memory_size_gb = g := by
  have hdiv : (g * 1024).tdiv 1024 = g := by
    rw [Int.tdiv_eq_ediv (Int.mul_nonneg hg (by decide)) (by decide)]
    exact Int.mul_ediv_cancel g (by decide)
  have hc := create_of_created d client p vm hi h ht hv
  refine ⟨hd, hc.1, ?_, ?_⟩
  · rw [hc.2.2, hm, hdiv]
  · intro later vh hl hvm
    rw [read_of_object_memory _ later vh hl, hvm, hdiv]

/-- Witness of C10: 8 GB declared, the backend echoes 8192 MB, the state holds 8 after create and
after the next read. -/
theorem memory_round_trip_witness :
    ((0 : Int) ≤ 8 ∧ testAttrs.memory_size_gb = 8 ∧ testVirtualHost.MemorySizeMB = 8 * 1024 ∧
      testNode.MemorySizeMB = 8 * 1024) ∧
    (virtualHostCreateInput ⟨"", testAttrs, []⟩).memorySizeGB = 8 ∧
    (ResourceVirtualHostCreate ⟨"", testAttrs, []⟩ echoClient).diags = [] ∧
    (ResourceVirtualHostCreate ⟨"", testAttrs, []⟩ echoClient).d.attrs.memory_size_gb = 8 ∧
    (ResourceVirtualHostRead (ResourceVirtualHostCreate ⟨"", testAttrs, []⟩ echoClient).d
      echoClient).d.attrs.memory_size_gb = 8 :=
  have h := memory_round_trip 8 (by decide) ⟨"", testAttrs, []⟩ echoClient
    (createPayload "VirtualHostCreated" (some testVirtualHost)) testVirtualHost
    rfl (by decide) rfl rfl rfl (by decide)
  ⟨⟨by decide, rfl, by decide, by decide⟩, h.1, h.2.1, h.2.2.1,
    h.2.2.2 echoClient testNode rfl (by decide)⟩

/-! ### C11: sizing-only and tier-only updates -/

/-- The `tier_id` `ResourceVirtualHostRead` stores when the backend returns an object. -/
theorem read_of_object_tier (d : ResourceData VirtualHostAttrs) (client : Client)
    (vh : VirtualHostNode) (h : client.GetVm d.Id = .ok (some vh)) :
    (ResourceVirtualHostRead d client).d.attrs.tier_id = vh.Tier := by
  unfold ResourceVirtualHostRead
  rw [h]
  by_cases hl : d.attrs.interfaces.length = 0 <;> simp [hl]

/-- `ResourceVirtualHostUpdate`, sizing only, when the resize is acknowledged. -/
theorem update_resize_acknowledged (d : ResourceData VirtualHostAttrs) (client : Client)
    (p : TaskPayload) (hs : sizingChanged d = true) (ht : tierChanged d = false)
    (h : client.ResizeVm (resizeInput d) = .ok p) (hp : p.Typename = "TaskExecutionNode") :
    ResourceVirtualHostUpdate d client =
      ⟨(ResourceVirtualHostRead d client).d, (ResourceVirtualHostRead d client).diags,
        [Request.mutationResizeVm (resizeInput d), Request.queryGetVM d.Id]⟩ := by
  rw [update_sizing_only d client hs ht]
  have hb : resizeBlock d client = (none, [Request.mutationResizeVm (resizeInput d)]) := by
    unfold resizeBlock resizeSwitch
    simp only [h, hp, if_true]
  rw [hb, read_requests]
  rfl

/-- `ResourceVirtualHostUpdate`, tier only, when the tier update is acknowledged. -/
theorem update_tier_acknowledged (d : ResourceData VirtualHostAttrs) (client : Client)
    (p : TaskPayload) (hs : sizingChanged d = false) (ht : tierChanged d = true)
    (h : client.UpdateVmTier (updateTierInput d) = .ok p)
    (hp : p.Typename = "TaskExecutionNode") :
    ResourceVirtualHostUpdate d client =
      ⟨(ResourceVirtualHostRead d client).d, (ResourceVirtualHostRead d client).diags,
        [Request.mutationUpdateVmTier (updateTierInput d), Request.queryGetVM d.Id]⟩ := by
  rw [update_tier_only d client hs ht]
  have hb : updateTierBlock d client =
      (none, [Request.mutationUpdateVmTier (updateTierInput d)]) := by
    unfold updateTierBlock updateTierSwitch
    simp only [h, hp, if_true]
  rw [hb, read_requests]
  rfl

/-- C11. Sizing-only update: for every resource data in which at least one sizing field changed
and `tier_id` did not, and every backend that acknowledges the resize with `TaskExecutionNode`
(nothing is assumed about its tier-update answer), `ResourceVirtualHostUpdate` sends exactly the
resize mutation followed by exactly one `queryGetVM` read and no tier-update mutation; the
resulting resource data and diagnostics are those of that read, so that `tier_id` is the value
the read reports when it returns an object. Tier-only update, on its own: when `tier_id`
changed and no sizing field did, and the backend acknowledges the tier update with
`TaskExecutionNode`, it sends exactly the tier-update mutation followed by one read and no
resize mutation, and data and diagnostics are those of that read. -/
theorem single_category_update :
    (∀ (d : ResourceData VirtualHostAttrs) (client : Client) (p : TaskPayload),
      sizingChanged d = true → tierChanged d = false →
      client.ResizeVm (resizeInput d) = .ok p → p.Typename = "TaskExecutionNode" →
      (ResourceVirtualHostUpdate d client).requests =
        [Request.mutationResizeVm (resizeInput d), Request.queryGetVM d.Id] ∧
      (ResourceVirtualHostUpdate d client).requests.any Request.isTierUpdate = false ∧
      (ResourceVirtualHostUpdate d client).d = (ResourceVirtualHostRead d client).d ∧
      (ResourceVirtualHostUpdate d client).diags = (ResourceVirtualHostRead d client).diags ∧
      (∀ vh : VirtualHostNode, client.GetVm d.Id = .ok (some vh) →
        (ResourceVirtualHostUpdate d client).d.attrs.tier_id = vh.Tier)) ∧
    (∀ (e : ResourceData VirtualHostAttrs) (client : Client) (q : TaskPayload),
      sizingChanged e = false → tierChanged e = true →
      client.UpdateVmTier (updateTierInput e) = .ok q → q.Typename = "TaskExecutionNode" →
      (ResourceVirtualHostUpdate e client).requests =
        [Request.mutationUpdateVmTier (updateTierInput e), Request.queryGetVM e.Id] ∧
      (ResourceVirtualHostUpdate e client).requests.any Request.isResize = false ∧
      (ResourceVirtualHostUpdate e client).d = (ResourceVirtualHostRead e client).d ∧
      (ResourceVirtualHostUpdate e client).diags = (ResourceVirtualHostRead e client).diags ∧
      (∀ vh : VirtualHostNode, client.GetVm e.Id = .ok (some vh) →
        (ResourceVirtualHostUpdate e client).d.attrs.tier_id = vh.Tier)) := by
  refine ⟨?_, ?_⟩
  · intro d client p hs ht h hp
    rw [update_resize_acknowledged d client p hs ht h hp]
    refine ⟨rfl, rfl, rfl, rfl, ?_⟩
    intro vh hv
    exact read_of_object_tier d client vh hv
  · intro e client q hs ht h hq
    rw [update_tier_acknowledged e client q hs ht h hq]
    refine ⟨rfl, rfl, rfl, rfl, ?_⟩
    intro vh hv
    exact read_of_object_tier e client vh hv

/-- Witness of C11: `cpu_count` changed, against the backend of the resize test (no tier-update
payload); then `tier_id` changed, against the backend of the tier test (no resize payload); in
both the job is accepted and the read reports tier `tier-2`. -/
theorem single_category_update_witness :
    (sizingChanged resizeData = true ∧ tierChanged resizeData = false ∧
      sizingChanged retierData = false ∧ tierChanged retierData = true) ∧
    (ResourceVirtualHostUpdate resizeData (resizeOnlyClient retieredNode)).requests =
      [Request.mutationResizeVm (resizeInput resizeData), Request.queryGetVM "vh-1"] ∧
    (ResourceVirtualHostUpdate resizeData (resizeOnlyClient retieredNode)).d.attrs.tier_id
      = "tier-2" ∧
    (ResourceVirtualHostUpdate retierData (retierOnlyClient retieredNode)).requests =
      [Request.mutationUpdateVmTier (updateTierInput retierData), Request.queryGetVM "vh-1"] ∧
    (ResourceVirtualHostUpdate retierData (retierOnlyClient retieredNode)).d.attrs.tier_id
      = "tier-2" :=
  have h := single_category_update.1 resizeData (resizeOnlyClient retieredNode)
    (taskPayload "TaskExecutionNode") (by decide) (by decide) rfl rfl
  have h2 := single_category_update.2 retierData (retierOnlyClient retieredNode)
    (taskPayload "TaskExecutionNode") (by decide) (by decide) rfl rfl
  ⟨⟨by decide, by decide, by decide, by decide⟩, h.1, h.2.2.2.2 retieredNode rfl,
    h2.1, h2.2.2.2.2 retieredNode rfl⟩

/-! ### C12: the identifier across an update -/

/-- The identifier and diagnostics `ResourceVirtualHostRead` leaves, in every case. -/
theorem read_identifier (d : ResourceData VirtualHostAttrs) (client : Client) :
    ((ResourceVirtualHostRead d client).d.id = d.id ∨
      ((ResourceVirtualHostRead d client).d.id = "" ∧
        (ResourceVirtualHostRead d client).diags = [] ∧ client.GetVm d.Id = .ok none)) ∧
    ((ResourceVirtualHostRead d client).diags = [] ∨
      (ResourceVirtualHostRead d client).d = d) := by
  rcases hg : client.GetVm d.Id with err | (_ | vh)
  · have hr : ResourceVirtualHostRead d client =
        ⟨d, [Diag.fromErr err], [Request.queryGetVM d.Id]⟩ := by
      unfold ResourceVirtualHostRead
      simp only [hg]
    rw [hr]
    exact ⟨Or.inl rfl, Or.inr rfl⟩
  · rw [read_of_missing d client hg]
    exact ⟨Or.inr ⟨rfl, rfl, rfl⟩, Or.inl rfl⟩
  · have ho := read_of_object_interfaces d client vh hg
    exact ⟨Or.inl ho.2.2, Or.inl ho.2.1⟩

/-- The identifier and diagnostics `ResourceVirtualHostImmutableRead` leaves, in every case. -/
theorem immutable_read_identifier (d : ResourceData VirtualHostImmutableAttrs)
    (client : Client) :
    ((ResourceVirtualHostImmutableRead d client).d.id = d.id ∨
      ((ResourceVirtualHostImmutableRead d client).d.id = "" ∧
        (ResourceVirtualHostImmutableRead d client).diags = [] ∧
        client.GetVm d.Id = .ok none)) ∧
    ((ResourceVirtualHostImmutableRead d client).diags = [] ∨
      (ResourceVirtualHostImmutableRead d client).d = d) := by
  rcases hg : client.GetVm d.Id with err | (_ | vh)
  · have hr : ResourceVirtualHostImmutableRead d client =
        ⟨d, [Diag.fromErr err], [Request.queryGetVM d.Id]⟩ := by
      unfold ResourceVirtualHostImmutableRead
      simp only [hg]
    rw [hr]
    exact ⟨Or.inl rfl, Or.inr rfl⟩
  · rw [immutable_read_of_missing d client hg]
    exact ⟨Or.inr ⟨rfl, rfl, rfl⟩, Or.inl rfl⟩
  · have ho := immutable_read_of_object_interfaces d client vh hg
    exact ⟨Or.inl ho.2.2, Or.inl ho.2.1⟩

/-- The identifier and diagnostics `resourceVirtualHostCaasRead` leaves, in every case. -/
theorem caas_read_identifier (d : ResourceData VirtualHostCaasAttrs) (client : Client) :
    ((resourceVirtualHostCaasRead d client).d.id = d.id ∨
      ((resourceVirtualHostCaasRead d client).d.id = "" ∧
        (resourceVirtualHostCaasRead d client).diags = [] ∧
        client.GetVirtualHostCaas d.Id = .ok none)) ∧
    ((resourceVirtualHostCaasRead d client).diags = [] ∨
      (resourceVirtualHostCaasRead d client).d = d) := by
  rcases hg : client.GetVirtualHostCaas d.Id with err | (_ | vh)
  · have hr : resourceVirtualHostCaasRead d client =
        ⟨d, [Diag.fromErr err], [Request.queryGetVirtualHostCaas d.Id]⟩ := by
      unfold resourceVirtualHostCaasRead
      simp only [hg]
    rw [hr]
    exact ⟨Or.inl rfl, Or.inr rfl⟩
  · rw [caas_read_of_missing d client hg]
    exact ⟨Or.inr ⟨rfl, rfl, rfl⟩, Or.inl rfl⟩
  · have hr : (resourceVirtualHostCaasRead d client).d.id = d.id ∧
        (resourceVirtualHostCaasRead d client).diags = [] := by
      unfold resourceVirtualHostCaasRead
      rw [hg]
      exact ⟨rfl, rfl⟩
    exact ⟨Or.inl hr.1, Or.inl hr.2⟩

/-- The identifier and diagnostics `ResourceVirtualHostUpdate` leaves, in every case. -/
theorem update_identifier (d : ResourceData VirtualHostAttrs) (client : Client) :
    ((ResourceVirtualHostUpdate d client).d.id = d.id ∨
      ((ResourceVirtualHostUpdate d client).d.id = "" ∧
        (ResourceVirtualHostUpdate d client).diags = [] ∧ client.GetVm d.Id = .ok none)) ∧
    ((ResourceVirtualHostUpdate d client).diags = [] ∨
      (ResourceVirtualHostUpdate d client).d = d) := by
  have hread := read_identifier d client
  rcases hs : sizingChanged d <;> rcases ht : tierChanged d
  · have hu : ResourceVirtualHostUpdate d client = ResourceVirtualHostRead d client := by
      unfold sizingChanged at hs
      unfold tierChanged at ht
      unfold ResourceVirtualHostUpdate
      simp only [hs, ht]
      simp
    rw [hu]
    exact hread
  · rw [update_tier_only d client hs ht]
    rcases updateTierBlock d client with ⟨_ | ds, sent⟩
    · exact hread
    · exact ⟨Or.inl rfl, Or.inr rfl⟩
  · rw [update_sizing_only d client hs ht]
    rcases resizeBlock d client with ⟨_ | ds, sent⟩
    · exact hread
    · exact ⟨Or.inl rfl, Or.inr rfl⟩
  · have hu : ResourceVirtualHostUpdate d client = ⟨d, [updateGuardDiag], []⟩ := by
      unfold sizingChanged at hs
      unfold tierChanged at ht
      unfold ResourceVirtualHostUpdate
      simp only [hs, ht]
      simp
    rw [hu]
    exact ⟨Or.inl rfl, Or.inr rfl⟩

/-- `ResourceVirtualHostUpdate` with no watched change is `ResourceVirtualHostRead`. -/
theorem update_no_change (d : ResourceData VirtualHostAttrs) (client : Client)
    (hs : sizingChanged d = false) (ht : tierChanged d = false) :
    ResourceVirtualHostUpdate d client = ResourceVirtualHostRead d client := by
  unfold sizingChanged at hs
  unfold tierChanged at ht
  unfold ResourceVirtualHostUpdate
  simp only [hs, ht]
  simp

/-- `ResourceVirtualHostImmutableUpdate` with no watched change is
`ResourceVirtualHostImmutableRead`. -/
theorem immutable_update_no_change (d : ResourceData VirtualHostImmutableAttrs)
    (client : Client) (hs : sizingChanged d = false) (ht : tierChanged d = false) :
    ResourceVirtualHostImmutableUpdate d client = ResourceVirtualHostImmutableRead d client := by
  unfold sizingChanged at hs
  unfold tierChanged at ht
  unfold ResourceVirtualHostImmutableUpdate
  simp only [hs, ht]
  simp

/-- `ResourceVirtualHostImmutableUpdate` when sizing and tier both changed. -/
theorem immutable_update_guarded (d : ResourceData VirtualHostImmutableAttrs)
    (client : Client) (hs : sizingChanged d = true) (ht : tierChanged d = true) :
    ResourceVirtualHostImmutableUpdate d client = ⟨d, [immutableUpdateGuardDiag], []⟩ := by
  unfold sizingChanged at hs
  unfold tierChanged at ht
  unfold ResourceVirtualHostImmutableUpdate
  simp only [hs, ht]
  simp

/-- The identifier and diagnostics `ResourceVirtualHostImmutableUpdate` leaves, in every
case. -/
theorem immutable_update_identifier (d : ResourceData VirtualHostImmutableAttrs)
    (client : Client) :
    ((ResourceVirtualHostImmutableUpdate d client).d.id = d.id ∨
      ((ResourceVirtualHostImmutableUpdate d client).d.id = "" ∧
        (ResourceVirtualHostImmutableUpdate d client).diags = [] ∧
        client.GetVm d.Id = .ok none)) ∧
    ((ResourceVirtualHostImmutableUpdate d client).diags = [] ∨
      (ResourceVirtualHostImmutableUpdate d client).d = d) := by
  have hread := immutable_read_identifier d client
  rcases hs : sizingChanged d <;> rcases ht : tierChanged d
  · rw [immutable_update_no_change d client hs ht]
    exact hread
  · rw [immutable_update_tier_only d client hs ht]
    rcases immutableUpdateTierBlock d client with ⟨_ | ds, sent⟩
    · exact hread
    · exact ⟨Or.inl rfl, Or.inr rfl⟩
  · rw [immutable_update_sizing_only d client hs ht]
    rcases immutableResizeBlock d client with ⟨_ | ds, sent⟩
    · exact hread
    · exact ⟨Or.inl rfl, Or.inr rfl⟩
  · rw [immutable_update_guarded d client hs ht]
    exact ⟨Or.inl rfl, Or.inr rfl⟩

/-- The outcomes of `resourceVirtualHostCaasUpdate`: either those of the read (no watched
change, or the update was acknowledged), or the data unchanged. -/
theorem caas_update_cases (d : ResourceData VirtualHostCaasAttrs) (client : Client) :
    ((resourceVirtualHostCaasUpdate d client).d = (resourceVirtualHostCaasRead d client).d ∧
      (resourceVirtualHostCaasUpdate d client).diags =
        (resourceVirtualHostCaasRead d client).diags) ∨
    ((resourceVirtualHostCaasUpdate d client).d = d ∧
      (resourceVirtualHostCaasUpdate d client).diags ≠ []) := by
  unfold resourceVirtualHostCaasUpdate
  rcases hc : (d.HasChange "note" || d.HasChange "tier_id")
  · simp
  · simp only [Bool.not_true, Bool.false_eq_true, if_false]
    rcases client.UpdateVirtualHostCaas (virtualHostUpdateCaasInput d) with err | p
    · exact Or.inr ⟨rfl, by simp⟩
    · dsimp only
      split
      · exact Or.inl ⟨rfl, rfl⟩
      · split
        · exact Or.inr ⟨rfl, by simp⟩
        · split
          · exact Or.inr ⟨rfl, by simp⟩
          · exact Or.inr ⟨rfl, by simp⟩

/-- The identifier and diagnostics `resourceVirtualHostCaasUpdate` leaves, in every case. -/
theorem caas_update_identifier (d : ResourceData VirtualHostCaasAttrs) (client : Client) :
    ((resourceVirtualHostCaasUpdate d client).d.id = d.id ∨
      ((resourceVirtualHostCaasUpdate d client).d.id = "" ∧
        (resourceVirtualHostCaasUpdate d client).diags = [] ∧
        client.GetVirtualHostCaas d.Id = .ok none)) ∧
    ((resourceVirtualHostCaasUpdate d client).diags = [] ∨
      (resourceVirtualHostCaasUpdate d client).d = d) := by
  have hread := caas_read_identifier d client
  rcases caas_update_cases d client with ⟨hd, hg⟩ | ⟨hd, _⟩
  · rw [hd, hg]
    exact hread
  · rw [hd]
    exact ⟨Or.inl rfl, Or.inr rfl⟩

/-- C12 (counterexample). The resource `vh-1` has `cpu_count` changed, the resize is accepted
(`TaskExecutionNode`), and the read that follows finds the object missing: the update returns no
error and the identifier is empty afterwards. The same happens in the shadow variant. -/
theorem update_can_clear_identifier :
    resizeData.Id = "vh-1" ∧
    (ResourceVirtualHostUpdate resizeData jobThenGoneClient).diags = [] ∧
    (ResourceVirtualHostUpdate resizeData jobThenGoneClient).d.Id = "" ∧
    (ResourceVirtualHostUpdate resizeData jobThenGoneClient).d.Id ≠ resizeData.Id ∧
    (resourceVirtualHostCaasUpdate caasNoteData jobThenGoneClient).diags = [] ∧
    (resourceVirtualHostCaasUpdate caasNoteData jobThenGoneClient).d.Id = "" := by
  refine ⟨rfl, rfl, rfl, by decide, rfl, rfl⟩

/-! ### Texts: folds, `Sprintf` and the message functions -/

/-- Left folding with `++` from `init` prepends `init` to the fold from the empty string. -/
theorem foldl_append_init (l : List String) (init : String) :
    l.foldl (fun r s => r ++ s) init = init ++ l.foldl (fun r s => r ++ s) "" := by
  induction l generalizing init with
  | nil => simp
  | cons a l ih =>
    simp only [List.foldl_cons]
    rw [ih (init ++ a), ih ("" ++ a)]
    simp [String.append_assoc]

/-- `String.join` of a non-empty list. -/
theorem join_cons (a : String) (l : List String) :
    String.join (a :: l) = a ++ String.join l := by
  unfold String.join
  simp only [List.foldl_cons]
  rw [foldl_append_init l ("" ++ a)]
  simp

/-- A loop `msg += f e` over `es`, started at `init`, yields `init` followed by the pieces
`f e` in order. -/
theorem foldl_pieces (f : FieldMessages → String) (es : List FieldMessages) (init : String) :
    es.foldl (fun msg e => msg ++ f e) init = init ++ String.join (es.map f) := by
  induction es generalizing init with
  | nil => simp [String.join]
  | cons e es ih =>
    simp only [List.foldl_cons, List.map_cons]
    rw [ih (init ++ f e), join_cons, String.append_assoc]

/-- A string that ends with the character `c` is not empty. -/
theorem append_singleton_ne_empty (s : String) (c : Char) : s ++ String.singleton c ≠ "" := by
  intro h
  have hd := congrArg String.data h
  simp [String.data_append] at hd

/-- Appending on the left is injective. -/
theorem append_left_cancel (a b c : String) (h : a ++ b = a ++ c) : b = c := by
  have hd := congrArg String.data h
  simp only [String.data_append] at hd
  exact String.ext (List.append_cancel_left hd)

/-- The last character of `s ++ t` is the last character of `t` when `t` has one. -/
theorem lastChar_append (s t : String) (c : Char) (h : lastChar t = some c) :
    lastChar (s ++ t) = some c := by
  unfold lastChar at h ⊢
  rw [String.data_append, List.getLast?_append, h]
  rfl

/-- A string with a last character is not empty. -/
theorem ne_empty_of_lastChar (s : String) (c : Char) (h : lastChar s = some c) : s ≠ "" := by
  intro hs
  rw [hs] at h
  exact Option.noConfusion h

/-- The concatenation of pieces that all end with `c` ends with `c`. -/
theorem lastChar_join (f : FieldMessages → String) (c : Char)
    (hf : ∀ e, lastChar (f e) = some c) (es : List FieldMessages) (hes : es ≠ []) :
    lastChar (String.join (es.map f)) = some c := by
  induction es with
  | nil => exact absurd rfl hes
  | cons e es ih =>
    rw [List.map_cons, join_cons]
    rcases es with _ | ⟨e2, es⟩
    · have hj : String.join (([] : List FieldMessages).map f) = "" := rfl
      rw [hj, String.append_empty]
      exact hf e
    · exact lastChar_append _ _ c (ih (by simp))

/-- Every piece added by the update functions ends with a semicolon. -/
theorem lastChar_fieldPiece (e : FieldMessages) : lastChar (fieldPiece e) = some ';' := by
  unfold fieldPiece
  exact lastChar_append _ ";" ';' rfl

/-- The text of the `ValidationErrors` branch of resize, tier update and the shadow mutations,
for the top-level message `m` and the field errors `es`. -/
theorem task_text_form (m : String) (es : List FieldMessages) :
    (if es.foldl (fun msg e => msg ++ (" " ++ e.Field ++ ": " ++ fmtStrings e.Messages ++ ";")) m
        = ""
      then "validation failed without message"
      else es.foldl
        (fun msg e => msg ++ (" " ++ e.Field ++ ": " ++ fmtStrings e.Messages ++ ";")) m) =
    (if es = [] then (if m = "" then validationPlaceholder else m)
      else m ++ String.join (es.map fieldPiece)) := by
  have hfold := foldl_pieces fieldPiece es m
  unfold fieldPiece at hfold
  rw [hfold]
  rcases es with _ | ⟨e, es⟩
  · simp [String.join, validationPlaceholder]
  · have hne : m ++ String.join ((e :: es).map fieldPiece) ≠ "" :=
      ne_empty_of_lastChar _ ';'
        (lastChar_append _ _ ';' (lastChar_join fieldPiece ';' lastChar_fieldPiece _ (by simp)))
    unfold fieldPiece at hne
    rw [if_neg hne, if_neg (by simp)]
    rfl

/-- The text of the `ValidationErrors` branch of the two create functions, for the top-level
message `m` and the field errors `es`. -/
theorem create_text_form (m : String) (es : List FieldMessages) :
    (if (if es.length > 0 then
          m ++ " (" ++ es.foldl
            (fun details e => details ++ (e.Field ++ ": " ++ fmtStrings e.Messages ++ "; ")) ""
            ++ ")"
        else m) = ""
      then "validation failed without message"
      else (if es.length > 0 then
          m ++ " (" ++ es.foldl
            (fun details e => details ++ (e.Field ++ ": " ++ fmtStrings e.Messages ++ "; ")) ""
            ++ ")"
        else m)) =
    (if es = [] then (if m = "" then validationPlaceholder else m)
      else m ++ " (" ++ String.join (es.map createFieldPiece) ++ ")") := by
  have hfold := foldl_pieces createFieldPiece es ""
  unfold createFieldPiece at hfold
  rw [hfold, String.empty_append]
  rcases es with _ | ⟨e, es⟩
  · simp [validationPlaceholder]
  · have hlen : (e :: es).length > 0 := by simp
    have hne : m ++ " (" ++ String.join ((e :: es).map createFieldPiece) ++ ")" ≠ "" :=
      ne_empty_of_lastChar _ ')' (lastChar_append _ ")" ')' rfl)
    unfold createFieldPiece at hne
    rw [if_pos hlen, if_neg hne, if_neg (by simp)]
    rfl

/-- `createValidationMessage` in closed form. -/
theorem createValidationMessage_eq (p : VirtualHostCreatePayload) :
    createValidationMessage p = createValidationText p.Message p.Errors := by
  unfold createValidationMessage createValidationText
  exact create_text_form p.Message p.Errors

/-- `immutableCreateValidationMessage` in closed form. -/
theorem immutableCreateValidationMessage_eq (p : VirtualHostCreatePayload) :
    immutableCreateValidationMessage p = createValidationText p.Message p.Errors := by
  unfold immutableCreateValidationMessage createValidationText
  exact create_text_form p.Message p.Errors

/-- `taskValidationMessage` in closed form. -/
theorem taskValidationMessage_eq (p : TaskPayload) :
    taskValidationMessage p = validationText p.Message p.Errors := by
  unfold taskValidationMessage validationText
  exact task_text_form p.Message p.Errors

/-- `immutableTaskValidationMessage` in closed form. -/
theorem immutableTaskValidationMessage_eq (p : TaskPayload) :
    immutableTaskValidationMessage p = validationText p.Message p.Errors := by
  unfold immutableTaskValidationMessage validationText
  exact task_text_form p.Message p.Errors

/-- `formatValidationMessage` in closed form. -/
theorem formatValidationMessage_eq (p : caasPayload) :
    formatValidationMessage p = validationText p.Message p.Errors := by
  unfold formatValidationMessage validationText
  exact task_text_form p.Message p.Errors

/-- The closed-form validation text: never empty, starting with the message, and equal to the
placeholder exactly when there is no field error and the message is empty or is itself the
placeholder. -/
theorem validationText_facts (m : String) (es : List FieldMessages) :
    validationText m es ≠ "" ∧
    (∃ post : String, validationText m es = m ++ post) ∧
    (validationText m es = validationPlaceholder ↔
      es = [] ∧ (m = "" ∨ m = validationPlaceholder)) := by
  unfold validationText
  rcases es with _ | ⟨e, es⟩
  · by_cases hm : m = ""
    · simp [hm, validationPlaceholder]
    · simp only [if_true, if_neg hm]
      refine ⟨hm, ⟨"", by simp⟩, ?_⟩
      simp [hm]
  · have hlast : lastChar (m ++ String.join ((e :: es).map fieldPiece)) = some ';' :=
      lastChar_append _ _ ';' (lastChar_join fieldPiece ';' lastChar_fieldPiece _ (by simp))
    rw [if_neg (by simp)]
    refine ⟨ne_empty_of_lastChar _ ';' hlast, ⟨_, rfl⟩, ?_⟩
    constructor
    · intro h
      rw [h] at hlast
      exact absurd hlast (by decide)
    · intro h
      exact absurd h.1 (by simp)

/-- The closed-form validation text of the create functions: same facts. -/
theorem createValidationText_facts (m : String) (es : List FieldMessages) :
    createValidationText m es ≠ "" ∧
    (∃ post : String, createValidationText m es = m ++ post) ∧
    (createValidationText m es = validationPlaceholder ↔
      es = [] ∧ (m = "" ∨ m = validationPlaceholder)) := by
  unfold createValidationText
  rcases es with _ | ⟨e, es⟩
  · by_cases hm : m = ""
    · simp [hm, validationPlaceholder]
    · simp only [if_true, if_neg hm]
      refine ⟨hm, ⟨"", by simp⟩, ?_⟩
      simp [hm]
  · have hlast : lastChar (m ++ " (" ++ String.join ((e :: es).map createFieldPiece) ++ ")")
        = some ')' := lastChar_append _ ")" ')' rfl
    rw [if_neg (by simp)]
    refine ⟨ne_empty_of_lastChar _ ')' hlast,
      ⟨" (" ++ String.join ((e :: es).map createFieldPiece) ++ ")", ?_⟩, ?_⟩
    · simp [String.append_assoc]
    · constructor
      · intro h
        rw [h] at hlast
        exact absurd hlast (by decide)
      · intro h
        exact absurd h.1 (by simp)

/-- The summary of `diag.Errorf("<operation>: %s", x)` is the operation prefix followed by
`x`, for each operation prefix of the repository. -/
theorem summary_of_errorf (quote : String → String) (x : String) :
    Diag.Summary quote (Diag.errorf "virtualHostCreate: %s" [x]) = "virtualHostCreate: " ++ x ∧
    Diag.Summary quote (Diag.errorf "virtualHostCreateImmutable: %s" [x]) =
      "virtualHostCreateImmutable: " ++ x ∧
    Diag.Summary quote (Diag.errorf "virtualHostCreateCaas: %s" [x]) =
      "virtualHostCreateCaas: " ++ x ∧
    Diag.Summary quote (Diag.errorf "virtualHostResize: %s" [x]) = "virtualHostResize: " ++ x ∧
    Diag.Summary quote (Diag.errorf "virtualHostUpdateTier: %s" [x]) =
      "virtualHostUpdateTier: " ++ x ∧
    Diag.Summary quote (Diag.errorf "virtualHostUpdateCaas: %s" [x]) =
      "virtualHostUpdateCaas: " ++ x ∧
    Diag.Summary quote (Diag.errorf "virtualHostDeleteCaas: %s" [x]) =
      "virtualHostDeleteCaas: " ++ x := by
  have h1 : (Diag.Summary quote (Diag.errorf "virtualHostCreate: %s" [x])).data =
      "virtualHostCreate: ".data ++ (x.data ++ []) := rfl
  have h2 : (Diag.Summary quote (Diag.errorf "virtualHostCreateImmutable: %s" [x])).data =
      "virtualHostCreateImmutable: ".data ++ (x.data ++ []) := rfl
  have h3 : (Diag.Summary quote (Diag.errorf "virtualHostCreateCaas: %s" [x])).data =
      "virtualHostCreateCaas: ".data ++ (x.data ++ []) := rfl
  have h4 : (Diag.Summary quote (Diag.errorf "virtualHostResize: %s" [x])).data =
      "virtualHostResize: ".data ++ (x.data ++ []) := rfl
  have h5 : (Diag.Summary quote (Diag.errorf "virtualHostUpdateTier: %s" [x])).data =
      "virtualHostUpdateTier: ".data ++ (x.data ++ []) := rfl
  have h6 : (Diag.Summary quote (Diag.errorf "virtualHostUpdateCaas: %s" [x])).data =
      "virtualHostUpdateCaas: ".data ++ (x.data ++ []) := rfl
  have h7 : (Diag.Summary quote (Diag.errorf "virtualHostDeleteCaas: %s" [x])).data =
      "virtualHostDeleteCaas: ".data ++ (x.data ++ []) := rfl
  refine ⟨?_, ?_, ?_, ?_, ?_, ?_, ?_⟩ <;> apply String.ext
  · rw [h1, List.append_nil, String.data_append]
  · rw [h2, List.append_nil, String.data_append]
  · rw [h3, List.append_nil, String.data_append]
  · rw [h4, List.append_nil, String.data_append]
  · rw [h5, List.append_nil, String.data_append]
  · rw [h6, List.append_nil, String.data_append]
  · rw [h7, List.append_nil, String.data_append]

/-- The refusal messages of the update functions and of the shadow mutations start with the
payload's message. -/
theorem refusal_message_starts_with_message (p : TaskPayload) (c : caasPayload) :
    (∃ post : String, taskRefusalMessage p = p.Message ++ post) ∧
    (∃ post : String, immutableTaskRefusalMessage p = p.Message ++ post) ∧
    (∃ post : String, caasRefusalMessage c = c.Message ++ post) := by
  refine ⟨?_, ?_, ?_⟩
  · unfold taskRefusalMessage
    dsimp only
    by_cases hr : p.Reasons.length > 0
    · rw [if_pos hr]
      split
      · rename_i h
        have hne := ne_empty_of_lastChar _ ')' (lastChar_append
          (p.Message ++ " (reasons=" ++ fmtStrings p.Reasons) ")" ')' rfl)
        exact absurd h hne
      · exact ⟨" (reasons=" ++ fmtStrings p.Reasons ++ ")", by simp [String.append_assoc]⟩
    · rw [if_neg hr]
      split
      · rename_i h
        exact ⟨p.Typename, by rw [h]; simp⟩
      · exact ⟨"", by simp⟩
  · unfold immutableTaskRefusalMessage
    dsimp only
    by_cases hr : p.Reasons.length > 0
    · rw [if_pos hr]
      split
      · rename_i h
        have hne := ne_empty_of_lastChar _ ')' (lastChar_append
          (p.Message ++ " (reasons=" ++ fmtStrings p.Reasons) ")" ')' rfl)
        exact absurd h hne
      · exact ⟨" (reasons=" ++ fmtStrings p.Reasons ++ ")", by simp [String.append_assoc]⟩
    · rw [if_neg hr]
      split
      · rename_i h
        exact ⟨p.Typename, by rw [h]; simp⟩
      · exact ⟨"", by simp⟩
  · unfold caasRefusalMessage
    dsimp only
    by_cases hr : c.Reasons.length > 0
    · rw [if_pos hr]
      split
      · rename_i h
        have hne := ne_empty_of_lastChar _ ')' (lastChar_append
          (c.Message ++ " (reasons=" ++ fmtStrings c.Reasons) ")" ')' rfl)
        exact absurd h hne
      · exact ⟨" (reasons=" ++ fmtStrings c.Reasons ++ ")", by simp [String.append_assoc]⟩
    · rw [if_neg hr]
      split
      · rename_i h
        exact ⟨c.Typename, by rw [h]; simp⟩
      · exact ⟨"", by simp⟩

/-! ### Failed mutations of an update -/

/-- The `resizeSwitch` on a payload whose type is not `TaskExecutionNode`: it returns diagnostics,
and for `ValidationErrors`, `Unauthorized` and `OperationUnavailable` their text is the
operation prefix followed by a text that starts with the payload's message. -/
theorem resizeSwitch_failure (quote : String → String) (p : TaskPayload)
    (hp : p.Typename ≠ "TaskExecutionNode") :
    ∃ ds : List Diag, resizeSwitch p = some ds ∧ ds ≠ [] ∧
      (p.Typename = "ValidationErrors" ∨ p.Typename = "Unauthorized" ∨
          p.Typename = "OperationUnavailable" →
        ∃ post : String, ds.map (Diag.Summary quote) = ["virtualHostResize: " ++ (p.Message ++ post)]) := by
  unfold resizeSwitch
  rw [if_neg hp]
  by_cases hv : p.Typename = "ValidationErrors"
  · rw [if_pos hv]
    refine ⟨_, rfl, by simp, ?_⟩
    intro _
    obtain ⟨post, hpost⟩ := (validationText_facts p.Message p.Errors).2.1
    refine ⟨post, ?_⟩
    rw [List.map_singleton, (summary_of_errorf quote _).2.2.2.1, taskValidationMessage_eq p, hpost]
  · rw [if_neg hv]
    by_cases hr : p.Typename = "Unauthorized" ∨ p.Typename = "OperationUnavailable"
    · rw [if_pos hr]
      refine ⟨_, rfl, by simp, ?_⟩
      intro _
      obtain ⟨post, hpost⟩ := (refusal_message_starts_with_message p (caasPayloadOf "")).1
      refine ⟨post, ?_⟩
      rw [List.map_singleton, (summary_of_errorf quote _).2.2.2.1, hpost]
    · rw [if_neg hr]
      refine ⟨_, rfl, by simp, ?_⟩
      intro h
      rcases h with h | h | h
      · exact absurd h hv
      · exact absurd (Or.inl h) hr
      · exact absurd (Or.inr h) hr

/-- `ResourceVirtualHostUpdate`, sizing only, when the resize mutation fails: the executor's error is returned as it
is, a payload other than `TaskExecutionNode` gives diagnostics as described by
`resizeSwitch_failure`; in both cases the resource data is unchanged and the mutation is the only
request. -/
theorem update_resize_failure (quote : String → String) (d : ResourceData VirtualHostAttrs) (client : Client)
    (hs : sizingChanged d = true) (ht : tierChanged d = false) :
    (∀ err : String, client.ResizeVm (resizeInput d) = .error err →
      ResourceVirtualHostUpdate d client = ⟨d, [Diag.fromErr err], [Request.mutationResizeVm (resizeInput d)]⟩) ∧
    (∀ p : TaskPayload, client.ResizeVm (resizeInput d) = .ok p → p.Typename ≠ "TaskExecutionNode" →
      ∃ ds : List Diag, ResourceVirtualHostUpdate d client = ⟨d, ds, [Request.mutationResizeVm (resizeInput d)]⟩ ∧ ds ≠ [] ∧
        (p.Typename = "ValidationErrors" ∨ p.Typename = "Unauthorized" ∨
            p.Typename = "OperationUnavailable" →
          ∃ post : String,
            ds.map (Diag.Summary quote) = ["virtualHostResize: " ++ (p.Message ++ post)])) := by
  constructor
  · intro err h
    rw [update_sizing_only d client hs ht]
    have hb : resizeBlock d client = (some [Diag.fromErr err], [Request.mutationResizeVm (resizeInput d)]) := by
      unfold resizeBlock
      simp only [h]
    rw [hb]
  · intro p h hp
    obtain ⟨ds, hsw, hne, htext⟩ := resizeSwitch_failure quote p hp
    refine ⟨ds, ?_, hne, htext⟩
    rw [update_sizing_only d client hs ht]
    have hb : resizeBlock d client = (some ds, [Request.mutationResizeVm (resizeInput d)]) := by
      unfold resizeBlock
      simp only [h, hsw]
    rw [hb]

/-- The `updateTierSwitch` on a payload whose type is not `TaskExecutionNode`: it returns diagnostics,
and for `ValidationErrors`, `Unauthorized` and `OperationUnavailable` their text is the
operation prefix followed by a text that starts with the payload's message. -/
theorem updateTierSwitch_failure (quote : String → String) (p : TaskPayload)
    (hp : p.Typename ≠ "TaskExecutionNode") :
    ∃ ds : List Diag, updateTierSwitch p = some ds ∧ ds ≠ [] ∧
      (p.Typename = "ValidationErrors" ∨ p.Typename = "Unauthorized" ∨
          p.Typename = "OperationUnavailable" →
        ∃ post : String, ds.map (Diag.Summary quote) = ["virtualHostUpdateTier: " ++ (p.Message ++ post)]) := by
  unfold updateTierSwitch
  rw [if_neg hp]
  by_cases hv : p.Typename = "ValidationErrors"
  · rw [if_pos hv]
    refine ⟨_, rfl, by simp, ?_⟩
    intro _
    obtain ⟨post, hpost⟩ := (validationText_facts p.Message p.Errors).2.1
    refine ⟨post, ?_⟩
    rw [List.map_singleton, (summary_of_errorf quote _).2.2.2.2.1, taskValidationMessage_eq p, hpost]
  · rw [if_neg hv]
    by_cases hr : p.Typename = "Unauthorized" ∨ p.Typename = "OperationUnavailable"
    · rw [if_pos hr]
      refine ⟨_, rfl, by simp, ?_⟩
      intro _
      obtain ⟨post, hpost⟩ := (refusal_message_starts_with_message p (caasPayloadOf "")).1
      refine ⟨post, ?_⟩
      rw [List.map_singleton, (summary_of_errorf quote _).2.2.2.2.1, hpost]
    · rw [if_neg hr]
      refine ⟨_, rfl, by simp, ?_⟩
      intro h
      rcases h with h | h | h
      · exact absurd h hv
      · exact absurd (Or.inl h) hr
      · exact absurd (Or.inr h) hr

/-- `ResourceVirtualHostUpdate`, tier only, when the tier-update mutation fails: the executor's error is returned as it
is, a payload other than `TaskExecutionNode` gives diagnostics as described by
`updateTierSwitch_failure`; in both cases the resource data is unchanged and the mutation is the only
request. -/
theorem update_tier_failure (quote : String → String) (d : ResourceData VirtualHostAttrs) (client : Client)
    (hs : sizingChanged d = false) (ht : tierChanged d = true) :
    (∀ err : String, client.UpdateVmTier (updateTierInput d) = .error err →
      ResourceVirtualHostUpdate d client = ⟨d, [Diag.fromErr err], [Request.mutationUpdateVmTier (updateTierInput d)]⟩) ∧
    (∀ p : TaskPayload, client.UpdateVmTier (updateTierInput d) = .ok p → p.Typename ≠ "TaskExecutionNode" →
      ∃ ds : List Diag, ResourceVirtualHostUpdate d client = ⟨d, ds, [Request.mutationUpdateVmTier (updateTierInput d)]⟩ ∧ ds ≠ [] ∧
        (p.Typename = "ValidationErrors" ∨ p.Typename = "Unauthorized" ∨
            p.Typename = "OperationUnavailable" →
          ∃ post : String,
            ds.map (Diag.Summary quote) = ["virtualHostUpdateTier: " ++ (p.Message ++ post)])) := by
  constructor
  · intro err h
    rw [update_tier_only d client hs ht]
    have hb : updateTierBlock d client = (some [Diag.fromErr err], [Request.mutationUpdateVmTier (updateTierInput d)]) := by
      unfold updateTierBlock
      simp only [h]
    rw [hb]
  · intro p h hp
    obtain ⟨ds, hsw, hne, htext⟩ := updateTierSwitch_failure quote p hp
    refine ⟨ds, ?_, hne, htext⟩
    rw [update_tier_only d client hs ht]
    have hb : updateTierBlock d client = (some ds, [Request.mutationUpdateVmTier (updateTierInput d)]) := by
      unfold updateTierBlock
      simp only [h, hsw]
    rw [hb]

/-- The `immutableResizeSwitch` on a payload whose type is not `TaskExecutionNode`: it returns diagnostics,
and for `ValidationErrors`, `Unauthorized` and `OperationUnavailable` their text is the
operation prefix followed by a text that starts with the payload's message. -/
theorem immutableResizeSwitch_failure (quote : String → String) (p : TaskPayload)
    (hp : p.Typename ≠ "TaskExecutionNode") :
    ∃ ds : List Diag, immutableResizeSwitch p = some ds ∧ ds ≠ [] ∧
      (p.Typename = "ValidationErrors" ∨ p.Typename = "Unauthorized" ∨
          p.Typename = "OperationUnavailable" →
        ∃ post : String, ds.map (Diag.Summary quote) = ["virtualHostResize: " ++ (p.Message ++ post)]) := by
  unfold immutableResizeSwitch
  rw [if_neg hp]
  by_cases hv : p.Typename = "ValidationErrors"
  · rw [if_pos hv]
    refine ⟨_, rfl, by simp, ?_⟩
    intro _
    obtain ⟨post, hpost⟩ := (validationText_facts p.Message p.Errors).2.1
    refine ⟨post, ?_⟩
    rw [List.map_singleton, (summary_of_errorf quote _).2.2.2.1, immutableTaskValidationMessage_eq p, hpost]
  · rw [if_neg hv]
    by_cases hr : p.Typename = "Unauthorized" ∨ p.Typename = "OperationUnavailable"
    · rw [if_pos hr]
      refine ⟨_, rfl, by simp, ?_⟩
      intro _
      obtain ⟨post, hpost⟩ := (refusal_message_starts_with_message p (caasPayloadOf "")).2.1
      refine ⟨post, ?_⟩
      rw [List.map_singleton, (summary_of_errorf quote _).2.2.2.1, hpost]
    · rw [if_neg hr]
      refine ⟨_, rfl, by simp, ?_⟩
      intro h
      rcases h with h | h | h
      · exact absurd h hv
      · exact absurd (Or.inl h) hr
      · exact absurd (Or.inr h) hr

/-- `ResourceVirtualHostImmutableUpdate`, sizing only, when the resize mutation fails: the executor's error is returned as it
is, a payload other than `TaskExecutionNode` gives diagnostics as described by
`immutableResizeSwitch_failure`; in both cases the resource data is unchanged and the mutation is the only
request. -/
theorem immutable_update_resize_failure (quote : String → String) (d : ResourceData VirtualHostImmutableAttrs) (client : Client)
    (hs : sizingChanged d = true) (ht : tierChanged d = false) :
    (∀ err : String, client.ResizeVm (immutableResizeInput d) = .error err →
      ResourceVirtualHostImmutableUpdate d client = ⟨d, [Diag.fromErr err], [Request.mutationResizeVm (immutableResizeInput d)]⟩) ∧
    (∀ p : TaskPayload, client.ResizeVm (immutableResizeInput d) = .ok p → p.Typename ≠ "TaskExecutionNode" →
      ∃ ds : List Diag, ResourceVirtualHostImmutableUpdate d client = ⟨d, ds, [Request.mutationResizeVm (immutableResizeInput d)]⟩ ∧ ds ≠ [] ∧
        (p.Typename = "ValidationErrors" ∨ p.Typename = "Unauthorized" ∨
            p.Typename = "OperationUnavailable" →
          ∃ post : String,
            ds.map (Diag.Summary quote) = ["virtualHostResize: " ++ (p.Message ++ post)])) := by
  constructor
  · intro err h
    rw [immutable_update_sizing_only d client hs ht]
    have hb : immutableResizeBlock d client = (some [Diag.fromErr err], [Request.mutationResizeVm (immutableResizeInput d)]) := by
      unfold immutableResizeBlock
      simp only [h]
    rw [hb]
  · intro p h hp
    obtain ⟨ds, hsw, hne, htext⟩ := immutableResizeSwitch_failure quote p hp
    refine ⟨ds, ?_, hne, htext⟩
    rw [immutable_update_sizing_only d client hs ht]
    have hb : immutableResizeBlock d client = (some ds, [Request.mutationResizeVm (immutableResizeInput d)]) := by
      unfold immutableResizeBlock
      simp only [h, hsw]
    rw [hb]

/-- The `immutableUpdateTierSwitch` on a payload whose type is not `TaskExecutionNode`: it returns diagnostics,
and for `ValidationErrors`, `Unauthorized` and `OperationUnavailable` their text is the
operation prefix followed by a text that starts with the payload's message. -/
theorem immutableUpdateTierSwitch_failure (quote : String → String) (p : TaskPayload)
    (hp : p.Typename ≠ "TaskExecutionNode") :
    ∃ ds : List Diag, immutableUpdateTierSwitch p = some ds ∧ ds ≠ [] ∧
      (p.Typename = "ValidationErrors" ∨ p.Typename = "Unauthorized" ∨
          p.Typename = "OperationUnavailable" →
        ∃ post : String, ds.map (Diag.Summary quote) = ["virtualHostUpdateTier: " ++ (p.Message ++ post)]) := by
  unfold immutableUpdateTierSwitch
  rw [if_neg hp]
  by_cases hv : p.Typename = "ValidationErrors"
  · rw [if_pos hv]
    refine ⟨_, rfl, by simp, ?_⟩
    intro _
    obtain ⟨post, hpost⟩ := (validationText_facts p.Message p.Errors).2.1
    refine ⟨post, ?_⟩
    rw [List.map_singleton, (summary_of_errorf quote _).2.2.2.2.1, immutableTaskValidationMessage_eq p, hpost]
  · rw [if_neg hv]
    by_cases hr : p.Typename = "Unauthorized" ∨ p.Typename = "OperationUnavailable"
    · rw [if_pos hr]
      refine ⟨_, rfl, by simp, ?_⟩
      intro _
      obtain ⟨post, hpost⟩ := (refusal_message_starts_with_message p (caasPayloadOf "")).2.1
      refine ⟨post, ?_⟩
      rw [List.map_singleton, (summary_of_errorf quote _).2.2.2.2.1, hpost]
    · rw [if_neg hr]
      refine ⟨_, rfl, by simp, ?_⟩
      intro h
      rcases h with h | h | h
      · exact absurd h hv
      · exact absurd (Or.inl h) hr
      · exact absurd (Or.inr h) hr

/-- `ResourceVirtualHostImmutableUpdate`, tier only, when the tier-update mutation fails: the executor's error is returned as it
is, a payload other than `TaskExecutionNode` gives diagnostics as described by
`immutableUpdateTierSwitch_failure`; in both cases the resource data is unchanged and the mutation is the only
request. -/
theorem immutable_update_tier_failure (quote : String → String) (d : ResourceData VirtualHostImmutableAttrs) (client : Client)
    (hs : sizingChanged d = false) (ht : tierChanged d = true) :
    (∀ err : String, client.UpdateVmTier (immutableUpdateTierInput d) = .error err →
      ResourceVirtualHostImmutableUpdate d client = ⟨d, [Diag.fromErr err], [Request.mutationUpdateVmTier (immutableUpdateTierInput d)]⟩) ∧
    (∀ p : TaskPayload, client.UpdateVmTier (immutableUpdateTierInput d) = .ok p → p.Typename ≠ "TaskExecutionNode" →
      ∃ ds : List Diag, ResourceVirtualHostImmutableUpdate d client = ⟨d, ds, [Request.mutationUpdateVmTier (immutableUpdateTierInput d)]⟩ ∧ ds ≠ [] ∧
        (p.Typename = "ValidationErrors" ∨ p.Typename = "Unauthorized" ∨
            p.Typename = "OperationUnavailable" →
          ∃ post : String,
            ds.map (Diag.Summary quote) = ["virtualHostUpdateTier: " ++ (p.Message ++ post)])) := by
  constructor
  · intro err h
    rw [immutable_update_tier_only d client hs ht]
    have hb : immutableUpdateTierBlock d client = (some [Diag.fromErr err], [Request.mutationUpdateVmTier (immutableUpdateTierInput d)]) := by
      unfold immutableUpdateTierBlock
      simp only [h]
    rw [hb]
  · intro p h hp
    obtain ⟨ds, hsw, hne, htext⟩ := immutableUpdateTierSwitch_failure quote p hp
    refine ⟨ds, ?_, hne, htext⟩
    rw [immutable_update_tier_only d client hs ht]
    have hb : immutableUpdateTierBlock d client = (some ds, [Request.mutationUpdateVmTier (immutableUpdateTierInput d)]) := by
      unfold immutableUpdateTierBlock
      simp only [h, hsw]
    rw [hb]


/-- `resourceVirtualHostCaasUpdate`, with a watched change, when the mutation fails: the
executor's error is returned as it is, a payload other than `VirtualHostNode` gives diagnostics
whose text, for `ValidationErrors`, `Unauthorized` and `OperationUnavailable`, is the operation
prefix followed by a text that starts with the payload's message; in both cases the resource data
is unchanged and the mutation is the only request. -/
theorem caas_update_failure (quote : String → String) (d : ResourceData VirtualHostCaasAttrs)
    (client : Client) (hc : (d.HasChange "note" || d.HasChange "tier_id") = true) :
    (∀ err : String, client.UpdateVirtualHostCaas (virtualHostUpdateCaasInput d) = .error err →
      (resourceVirtualHostCaasUpdate d client).d = d ∧
      (resourceVirtualHostCaasUpdate d client).diags = [Diag.fromErr err] ∧
      (resourceVirtualHostCaasUpdate d client).requests =
        [Request.mutationVirtualHostUpdateCaas (virtualHostUpdateCaasInput d)]) ∧
    (∀ p : caasPayload, client.UpdateVirtualHostCaas (virtualHostUpdateCaasInput d) = .ok p →
      p.Typename ≠ "VirtualHostNode" →
      (resourceVirtualHostCaasUpdate d client).d = d ∧
      (resourceVirtualHostCaasUpdate d client).diags ≠ [] ∧
      (resourceVirtualHostCaasUpdate d client).requests =
        [Request.mutationVirtualHostUpdateCaas (virtualHostUpdateCaasInput d)] ∧
      (p.Typename = "ValidationErrors" ∨ p.Typename = "Unauthorized" ∨
          p.Typename = "OperationUnavailable" →
        ∃ post : String,
          (resourceVirtualHostCaasUpdate d client).diags.map (Diag.Summary quote) =
            ["virtualHostUpdateCaas: " ++ (p.Message ++ post)])) := by
  constructor
  · intro err h
    unfold resourceVirtualHostCaasUpdate
    simp [hc, h]
  · intro p h hp
    have hu : resourceVirtualHostCaasUpdate d client =
        ⟨d,
          [if p.Typename = "ValidationErrors" then
            Diag.errorf "virtualHostUpdateCaas: %s" [formatValidationMessage p]
          else if p.Typename = "Unauthorized" ∨ p.Typename = "OperationUnavailable" then
            Diag.errorf "virtualHostUpdateCaas: %s" [caasRefusalMessage p]
          else Diag.errorf "virtualHostUpdateCaas: unexpected payload type %q" [p.Typename]],
          [Request.mutationVirtualHostUpdateCaas (virtualHostUpdateCaasInput d)]⟩ := by
      unfold resourceVirtualHostCaasUpdate
      simp only [hc, h, Bool.not_true, Bool.false_eq_true, if_false, if_neg hp]
      split_ifs <;> rfl
    rw [hu]
    refine ⟨rfl, by simp, rfl, ?_⟩
    intro ht
    by_cases hv : p.Typename = "ValidationErrors"
    · obtain ⟨post, hpost⟩ := (validationText_facts p.Message p.Errors).2.1
      refine ⟨post, ?_⟩
      rw [if_pos hv, List.map_singleton, (summary_of_errorf quote _).2.2.2.2.2.1,
        formatValidationMessage_eq p, hpost]
    · have hr : p.Typename = "Unauthorized" ∨ p.Typename = "OperationUnavailable" := by
        rcases ht with h1 | h1 | h1
        · exact absurd h1 hv
        · exact Or.inl h1
        · exact Or.inr h1
      obtain ⟨post, hpost⟩ :=
        (refusal_message_starts_with_message (taskPayload "") p).2.2
      refine ⟨post, ?_⟩
      rw [if_neg hv, if_pos hr, List.map_singleton, (summary_of_errorf quote _).2.2.2.2.2.1,
        hpost]


/-! ### C12 (amended): how an update ends -/

/-- `ResourceVirtualHostRead` ends as the read does. -/
theorem read_ends_as_read (d : ResourceData VirtualHostAttrs) (client : Client) :
    EndsAsRead d (client.GetVm d.Id) (ResourceVirtualHostRead d client) := by
  unfold EndsAsRead
  refine ⟨?_, ?_, ?_⟩
  · intro h
    rw [read_of_missing d client h]
    exact ⟨rfl, rfl, rfl⟩
  · intro vh h
    have ho := read_of_object_interfaces d client vh h
    exact ⟨ho.2.2, ho.2.1⟩
  · intro err h
    unfold ResourceVirtualHostRead
    rw [h]
    exact ⟨rfl, rfl⟩

/-- `ResourceVirtualHostImmutableRead` ends as the read does. -/
theorem immutable_read_ends_as_read (d : ResourceData VirtualHostImmutableAttrs)
    (client : Client) :
    EndsAsRead d (client.GetVm d.Id) (ResourceVirtualHostImmutableRead d client) := by
  unfold EndsAsRead
  refine ⟨?_, ?_, ?_⟩
  · intro h
    rw [immutable_read_of_missing d client h]
    exact ⟨rfl, rfl, rfl⟩
  · intro vh h
    have ho := immutable_read_of_object_interfaces d client vh h
    exact ⟨ho.2.2, ho.2.1⟩
  · intro err h
    unfold ResourceVirtualHostImmutableRead
    rw [h]
    exact ⟨rfl, rfl⟩

/-- `resourceVirtualHostCaasRead` ends as the read does. -/
theorem caas_read_ends_as_read (d : ResourceData VirtualHostCaasAttrs) (client : Client) :
    EndsAsRead d (client.GetVirtualHostCaas d.Id) (resourceVirtualHostCaasRead d client) := by
  unfold EndsAsRead
  refine ⟨?_, ?_, ?_⟩
  · intro h
    rw [caas_read_of_missing d client h]
    exact ⟨rfl, rfl, rfl⟩
  · intro vh h
    unfold resourceVirtualHostCaasRead
    rw [h]
    exact ⟨rfl, rfl⟩
  · intro err h
    unfold resourceVirtualHostCaasRead
    rw [h]
    exact ⟨rfl, rfl⟩

/-- An outcome with the data and the diagnostics of one that ends as the read does, ends as the
read does. -/
theorem ends_as_read_of_eq {α β : Type} (d : ResourceData α)
    (answer : Except String (Option β)) (r out : Outcome α)
    (hd : out.d = r.d) (hg : out.diags = r.diags) (h : EndsAsRead d answer r) :
    EndsAsRead d answer out := by
  unfold EndsAsRead at h ⊢
  rw [hd, hg]
  exact h

/-- `ResourceVirtualHostImmutableUpdate`, sizing only, when the resize is acknowledged. -/
theorem immutable_update_resize_acknowledged (d : ResourceData VirtualHostImmutableAttrs)
    (client : Client) (p : TaskPayload) (hs : sizingChanged d = true)
    (ht : tierChanged d = false)
    (h : client.ResizeVm (immutableResizeInput d) = .ok p)
    (hp : p.Typename = "TaskExecutionNode") :
    ResourceVirtualHostImmutableUpdate d client =
      ⟨(ResourceVirtualHostImmutableRead d client).d,
        (ResourceVirtualHostImmutableRead d client).diags,
        [Request.mutationResizeVm (immutableResizeInput d), Request.queryGetVM d.Id]⟩ := by
  rw [immutable_update_sizing_only d client hs ht]
  have hb : immutableResizeBlock d client =
      (none, [Request.mutationResizeVm (immutableResizeInput d)]) := by
    unfold immutableResizeBlock immutableResizeSwitch
    simp only [h, hp, if_true]
  rw [hb, immutable_read_requests]
  rfl

/-- `ResourceVirtualHostImmutableUpdate`, tier only, when the tier update is acknowledged. -/
theorem immutable_update_tier_acknowledged (d : ResourceData VirtualHostImmutableAttrs)
    (client : Client) (p : TaskPayload) (hs : sizingChanged d = false)
    (ht : tierChanged d = true)
    (h : client.UpdateVmTier (immutableUpdateTierInput d) = .ok p)
    (hp : p.Typename = "TaskExecutionNode") :
    ResourceVirtualHostImmutableUpdate d client =
      ⟨(ResourceVirtualHostImmutableRead d client).d,
        (ResourceVirtualHostImmutableRead d client).diags,
        [Request.mutationUpdateVmTier (immutableUpdateTierInput d), Request.queryGetVM d.Id]⟩ := by
  rw [immutable_update_tier_only d client hs ht]
  have hb : immutableUpdateTierBlock d client =
      (none, [Request.mutationUpdateVmTier (immutableUpdateTierInput d)]) := by
    unfold immutableUpdateTierBlock immutableUpdateTierSwitch
    simp only [h, hp, if_true]
  rw [hb, immutable_read_requests]
  rfl

/-- `resourceVirtualHostCaasUpdate` when no watched field changed, or when the update mutation
is acknowledged with `VirtualHostNode`: the data and the diagnostics are those of the read. -/
theorem caas_update_reaches_read (d : ResourceData VirtualHostCaasAttrs) (client : Client) :
    ((d.HasChange "note" || d.HasChange "tier_id") = false →
      resourceVirtualHostCaasUpdate d client = resourceVirtualHostCaasRead d client) ∧
    (∀ p : caasPayload, (d.HasChange "note" || d.HasChange "tier_id") = true →
      client.UpdateVirtualHostCaas (virtualHostUpdateCaasInput d) = .ok p →
      p.Typename = "VirtualHostNode" →
      (resourceVirtualHostCaasUpdate d client).d = (resourceVirtualHostCaasRead d client).d ∧
      (resourceVirtualHostCaasUpdate d client).diags =
        (resourceVirtualHostCaasRead d client).diags) := by
  constructor
  · intro hc
    unfold resourceVirtualHostCaasUpdate
    simp [hc]
  · intro p hc h hp
    unfold resourceVirtualHostCaasUpdate
    simp [hc, h, hp]

/-- C12 (amended). For each of the three update functions on its own, for every resource data
and every backend. When the update reaches its final read (no watched field changed, or the one
mutation sent was acknowledged: `TaskExecutionNode` for resize and tier update,
`VirtualHostNode` for the shadow update), it ends as that read does: if the backend reports the
object as missing, the update returns no error and the identifier is cleared, the rest of the
data being as before; if it returns an object, there is no error and the identifier is the one
held before; if the read fails, the executor's error is returned and the data is exactly as
before. A guard rejection (sizing and tier both changed) and a failed mutation (executor error,
or any payload type other than the acknowledgement) return an error and leave the resource
data, identifier included, exactly as before. In every case the identifier after the call is
the identifier held before, or else it is empty, no error was returned and the backend reported
the object as missing. -/
theorem update_keeps_identifier_unless_gone :
    ((∀ (d : ResourceData VirtualHostAttrs) (client : Client),
        sizingChanged d = false → tierChanged d = false →
        EndsAsRead d (client.GetVm d.Id) (ResourceVirtualHostUpdate d client)) ∧
      (∀ (d : ResourceData VirtualHostAttrs) (client : Client) (p : TaskPayload),
        sizingChanged d = true → tierChanged d = false →
        client.ResizeVm (resizeInput d) = .ok p → p.Typename = "TaskExecutionNode" →
        EndsAsRead d (client.GetVm d.Id) (ResourceVirtualHostUpdate d client)) ∧
      (∀ (d : ResourceData VirtualHostAttrs) (client : Client) (p : TaskPayload),
        sizingChanged d = false → tierChanged d = true →
        client.UpdateVmTier (updateTierInput d) = .ok p → p.Typename = "TaskExecutionNode" →
        EndsAsRead d (client.GetVm d.Id) (ResourceVirtualHostUpdate d client)) ∧
      (∀ (d : ResourceData VirtualHostAttrs) (client : Client),
        sizingChanged d = true → tierChanged d = true →
        FailsUnchanged d (ResourceVirtualHostUpdate d client)) ∧
      (∀ (d : ResourceData VirtualHostAttrs) (client : Client) (err : String),
        sizingChanged d = true → tierChanged d = false →
        client.ResizeVm (resizeInput d) = .error err →
        FailsUnchanged d (ResourceVirtualHostUpdate d client)) ∧
      (∀ (d : ResourceData VirtualHostAttrs) (client : Client) (p : TaskPayload),
        sizingChanged d = true → tierChanged d = false →
        client.ResizeVm (resizeInput d) = .ok p → p.Typename ≠ "TaskExecutionNode" →
        FailsUnchanged d (ResourceVirtualHostUpdate d client)) ∧
      (∀ (d : ResourceData VirtualHostAttrs) (client : Client) (err : String),
        sizingChanged d = false → tierChanged d = true →
        client.UpdateVmTier (updateTierInput d) = .error err →
        FailsUnchanged d (ResourceVirtualHostUpdate d client)) ∧
      (∀ (d : ResourceData VirtualHostAttrs) (client : Client) (p : TaskPayload),
        sizingChanged d = false → tierChanged d = true →
        client.UpdateVmTier (updateTierInput d) = .ok p → p.Typename ≠ "TaskExecutionNode" →
        FailsUnchanged d (ResourceVirtualHostUpdate d client)) ∧
      (∀ (d : ResourceData VirtualHostAttrs) (client : Client),
        (ResourceVirtualHostUpdate d client).d.id = d.id ∨
        ((ResourceVirtualHostUpdate d client).d.id = "" ∧
          (ResourceVirtualHostUpdate d client).diags = [] ∧ client.GetVm d.Id = .ok none))) ∧
    ((∀ (d : ResourceData VirtualHostImmutableAttrs) (client : Client),
        sizingChanged d = false → tierChanged d = false →
        EndsAsRead d (client.GetVm d.Id) (ResourceVirtualHostImmutableUpdate d client)) ∧
      (∀ (d : ResourceData VirtualHostImmutableAttrs) (client : Client) (p : TaskPayload),
        sizingChanged d = true → tierChanged d = false →
        client.ResizeVm (immutableResizeInput d) = .ok p → p.Typename = "TaskExecutionNode" →
        EndsAsRead d (client.GetVm d.Id) (ResourceVirtualHostImmutableUpdate d client)) ∧
      (∀ (d : ResourceData VirtualHostImmutableAttrs) (client : Client) (p : TaskPayload),
        sizingChanged d = false → tierChanged d = true →
        client.UpdateVmTier (immutableUpdateTierInput d) = .ok p →
        p.Typename = "TaskExecutionNode" →
        EndsAsRead d (client.GetVm d.Id) (ResourceVirtualHostImmutableUpdate d client)) ∧
      (∀ (d : ResourceData VirtualHostImmutableAttrs) (client : Client),
        sizingChanged d = true → tierChanged d = true →
        FailsUnchanged d (ResourceVirtualHostImmutableUpdate d client)) ∧
      (∀ (d : ResourceData VirtualHostImmutableAttrs) (client : Client) (err : String),
        sizingChanged d = true → tierChanged d = false →
        client.ResizeVm (immutableResizeInput d) = .error err →
        FailsUnchanged d (ResourceVirtualHostImmutableUpdate d client)) ∧
      (∀ (d : ResourceData VirtualHostImmutableAttrs) (client : Client) (p : TaskPayload),
        sizingChanged d = true → tierChanged d = false →
        client.ResizeVm (immutableResizeInput d) = .ok p → p.Typename ≠ "TaskExecutionNode" →
        FailsUnchanged d (ResourceVirtualHostImmutableUpdate d client)) ∧
      (∀ (d : ResourceData VirtualHostImmutableAttrs) (client : Client) (err : String),
        sizingChanged d = false → tierChanged d = true →
        client.UpdateVmTier (immutableUpdateTierInput d) = .error err →
        FailsUnchanged d (ResourceVirtualHostImmutableUpdate d client)) ∧
      (∀ (d : ResourceData VirtualHostImmutableAttrs) (client : Client) (p : TaskPayload),
        sizingChanged d = false → tierChanged d = true →
        client.UpdateVmTier (immutableUpdateTierInput d) = .ok p →
        p.Typename ≠ "TaskExecutionNode" →
        FailsUnchanged d (ResourceVirtualHostImmutableUpdate d client)) ∧
      (∀ (d : ResourceData VirtualHostImmutableAttrs) (client : Client),
        (ResourceVirtualHostImmutableUpdate d client).d.id = d.id ∨
        ((ResourceVirtualHostImmutableUpdate d client).d.id = "" ∧
          (ResourceVirtualHostImmutableUpdate d client).diags = [] ∧
          client.GetVm d.Id = .ok none))) ∧
    ((∀ (d : ResourceData VirtualHostCaasAttrs) (client : Client),
        (d.HasChange "note" || d.HasChange "tier_id") = false →
        EndsAsRead d (client.GetVirtualHostCaas d.Id) (resourceVirtualHostCaasUpdate d client)) ∧
      (∀ (d : ResourceData VirtualHostCaasAttrs) (client : Client) (p : caasPayload),
        (d.HasChange "note" || d.HasChange "tier_id") = true →
        client.UpdateVirtualHostCaas (virtualHostUpdateCaasInput d) = .ok p →
        p.Typename = "VirtualHostNode" →
        EndsAsRead d (client.GetVirtualHostCaas d.Id) (resourceVirtualHostCaasUpdate d client)) ∧
      (∀ (d : ResourceData VirtualHostCaasAttrs) (client : Client) (err : String),
        (d.HasChange "note" || d.HasChange "tier_id") = true →
        client.UpdateVirtualHostCaas (virtualHostUpdateCaasInput d) = .error err →
        FailsUnchanged d (resourceVirtualHostCaasUpdate d client)) ∧
      (∀ (d : ResourceData VirtualHostCaasAttrs) (client : Client) (p : caasPayload),
        (d.HasChange "note" || d.HasChange "tier_id") = true →
        client.UpdateVirtualHostCaas (virtualHostUpdateCaasInput d) = .ok p →
        p.Typename ≠ "VirtualHostNode" →
        FailsUnchanged d (resourceVirtualHostCaasUpdate d client)) ∧
      (∀ (d : ResourceData VirtualHostCaasAttrs) (client : Client),
        (resourceVirtualHostCaasUpdate d client).d.id = d.id ∨
        ((resourceVirtualHostCaasUpdate d client).d.id = "" ∧
          (resourceVirtualHostCaasUpdate d client).diags = [] ∧
          client.GetVirtualHostCaas d.Id = .ok none))) := by
  have fails : ∀ {α : Type} (d : ResourceData α) (ds : List Diag) (sent : List Request),
      ds ≠ [] → FailsUnchanged d ⟨d, ds, sent⟩ := by
    intro α d ds sent hne
    refine ⟨rfl, hne, ?_⟩
    cases ds with
    | nil => exact absurd rfl hne
    | cons a l => rfl
  refine ⟨⟨?_, ?_, ?_, ?_, ?_, ?_, ?_, ?_, ?_⟩, ⟨?_, ?_, ?_, ?_, ?_, ?_, ?_, ?_, ?_⟩,
    ⟨?_, ?_, ?_, ?_, ?_⟩⟩
  · intro d client hs ht
    rw [update_no_change d client hs ht]
    exact read_ends_as_read d client
  · intro d client p hs ht h hp
    rw [update_resize_acknowledged d client p hs ht h hp]
    exact ends_as_read_of_eq d _ _ _ rfl rfl (read_ends_as_read d client)
  · intro d client p hs ht h hp
    rw [update_tier_acknowledged d client p hs ht h hp]
    exact ends_as_read_of_eq d _ _ _ rfl rfl (read_ends_as_read d client)
  · intro d client hs ht
    have hu : ResourceVirtualHostUpdate d client = ⟨d, [updateGuardDiag], []⟩ := by
      unfold sizingChanged at hs
      unfold tierChanged at ht
      unfold ResourceVirtualHostUpdate
      simp only [hs, ht]
      simp
    rw [hu]
    exact fails d _ _ (by simp)
  · intro d client err hs ht h
    rw [(update_resize_failure plainQuote d client hs ht).1 err h]
    exact fails d _ _ (by simp)
  · intro d client p hs ht h hp
    obtain ⟨ds, hu, hne, _⟩ := (update_resize_failure plainQuote d client hs ht).2 p h hp
    rw [hu]
    exact fails d _ _ hne
  · intro d client err hs ht h
    rw [(update_tier_failure plainQuote d client hs ht).1 err h]
    exact fails d _ _ (by simp)
  · intro d client p hs ht h hp
    obtain ⟨ds, hu, hne, _⟩ := (update_tier_failure plainQuote d client hs ht).2 p h hp
    rw [hu]
    exact fails d _ _ hne
  · intro d client
    exact (update_identifier d client).1
  · intro d client hs ht
    rw [immutable_update_no_change d client hs ht]
    exact immutable_read_ends_as_read d client
  · intro d client p hs ht h hp
    rw [immutable_update_resize_acknowledged d client p hs ht h hp]
    exact ends_as_read_of_eq d _ _ _ rfl rfl (immutable_read_ends_as_read d client)
  · intro d client p hs ht h hp
    rw [immutable_update_tier_acknowledged d client p hs ht h hp]
    exact ends_as_read_of_eq d _ _ _ rfl rfl (immutable_read_ends_as_read d client)
  · intro d client hs ht
    rw [immutable_update_guarded d client hs ht]
    exact fails d _ _ (by simp)
  · intro d client err hs ht h
    rw [(immutable_update_resize_failure plainQuote d client hs ht).1 err h]
    exact fails d _ _ (by simp)
  · intro d client p hs ht h hp
    obtain ⟨ds, hu, hne, _⟩ :=
      (immutable_update_resize_failure plainQuote d client hs ht).2 p h hp
    rw [hu]
    exact fails d _ _ hne
  · intro d client err hs ht h
    rw [(immutable_update_tier_failure plainQuote d client hs ht).1 err h]
    exact fails d _ _ (by simp)
  · intro d client p hs ht h hp
    obtain ⟨ds, hu, hne, _⟩ :=
      (immutable_update_tier_failure plainQuote d client hs ht).2 p h hp
    rw [hu]
    exact fails d _ _ hne
  · intro d client
    exact (immutable_update_identifier d client).1
  · intro d client hc
    rw [(caas_update_reaches_read d client).1 hc]
    exact caas_read_ends_as_read d client
  · intro d client p hc h hp
    have hr := (caas_update_reaches_read d client).2 p hc h hp
    exact ends_as_read_of_eq d _ _ _ hr.1 hr.2 (caas_read_ends_as_read d client)
  · intro d client err hc h
    have hf := (caas_update_failure plainQuote d client hc).1 err h
    refine ⟨hf.1, ?_, ?_⟩
    · rw [hf.2.1]
      simp
    · rw [hf.2.1]
      rfl
  · intro d client p hc h hp
    have hf := (caas_update_failure plainQuote d client hc).2 p h hp
    refine ⟨hf.1, hf.2.1, ?_⟩
    cases hg : (resourceVirtualHostCaasUpdate d client).diags with
    | nil => exact absurd hg hf.2.1
    | cons a l => rfl
  · intro d client
    exact (caas_update_identifier d client).1

/-- C12 (amended) on `vh-1` with `cpu_count` changed. The resize is accepted and the read finds
the object missing: no error, identifier cleared, attributes as before. The resize is accepted
and the read fails in transport: the error is returned and the data is as before. The resize is
refused: an error is returned and the data is as before. -/
theorem update_keeps_identifier_unless_gone_witness :
    ((ResourceVirtualHostUpdate resizeData jobThenGoneClient).d = resizeData.SetId "" ∧
      (ResourceVirtualHostUpdate resizeData jobThenGoneClient).d.id = "" ∧
      (ResourceVirtualHostUpdate resizeData jobThenGoneClient).diags = []) ∧
    ((ResourceVirtualHostUpdate resizeData jobThenDownClient).d = resizeData ∧
      (ResourceVirtualHostUpdate resizeData jobThenDownClient).diags =
        [Diag.fromErr "connection refused"]) ∧
    ((ResourceVirtualHostUpdate resizeData unauthorizedClient).d = resizeData ∧
      (ResourceVirtualHostUpdate resizeData unauthorizedClient).diags ≠ [] ∧
      HasError (ResourceVirtualHostUpdate resizeData unauthorizedClient).diags = true) :=
  have h := update_keeps_identifier_unless_gone.1
  ⟨(h.2.1 resizeData jobThenGoneClient (taskPayload "TaskExecutionNode")
      (by decide) (by decide) rfl rfl).1 rfl,
    (h.2.1 resizeData jobThenDownClient (taskPayload "TaskExecutionNode")
      (by decide) (by decide) rfl rfl).2.2 "connection refused" rfl,
    h.2.2.2.2.2.1 resizeData unauthorizedClient unauthorizedPayload
      (by decide) (by decide) rfl (by decide)⟩


/-! ### C13: a failed update -/

/-- A text that has `m` in the middle contains `m`. -/
theorem occursIn_middle (a m b text : String) (h : text = a ++ (m ++ b)) :
    occursIn m text = true := by
  unfold occursIn
  rw [h, String.data_append, String.data_append]
  exact decide_eq_true ⟨a.data, b.data, by simp [List.append_assoc]⟩

/-- Every text contains the empty text. -/
theorem occursIn_empty (text : String) : occursIn "" text = true := by
  unfold occursIn
  exact decide_eq_true List.nil_infix

/-- The `switch` on a resize answer whose type is not `TaskExecutionNode`, for a payload the
document can produce: one diagnostic, whose text contains the payload's message. -/
theorem resizeSwitch_carries_message (p : TaskPayload) (hp : p.Typename ≠ "TaskExecutionNode")
    (hc : p.conformsToDocument) :
    ∃ g : Diag, resizeSwitch p = some [g] ∧
      ∀ quote : String → String, occursIn p.Message (g.Summary quote) = true := by
  unfold resizeSwitch
  rw [if_neg hp]
  by_cases hv : p.Typename = "ValidationErrors"
  · rw [if_pos hv]
    refine ⟨_, rfl, ?_⟩
    intro quote
    obtain ⟨post, hpost⟩ := (validationText_facts p.Message p.Errors).2.1
    apply occursIn_middle "virtualHostResize: " p.Message post
    rw [(summary_of_errorf quote _).2.2.2.1, taskValidationMessage_eq p, hpost]
  · rw [if_neg hv]
    by_cases hr : p.Typename = "Unauthorized" ∨ p.Typename = "OperationUnavailable"
    · rw [if_pos hr]
      refine ⟨_, rfl, ?_⟩
      intro quote
      obtain ⟨post, hpost⟩ := (refusal_message_starts_with_message p (caasPayloadOf "")).1
      apply occursIn_middle "virtualHostResize: " p.Message post
      rw [(summary_of_errorf quote _).2.2.2.1, hpost]
    · rw [if_neg hr]
      refine ⟨_, rfl, ?_⟩
      intro quote
      have hm : p.Message = "" := by
        apply hc.1
        simp only [List.mem_cons, List.mem_singleton, List.not_mem_nil, or_false, not_or]
        exact ⟨hv, fun h => hr (Or.inl h), fun h => hr (Or.inr h)⟩
      rw [hm]
      exact occursIn_empty _

/-- The `switch` on a tier-update answer whose type is not `TaskExecutionNode`, for a payload
the document can produce: one diagnostic, whose text contains the payload's message. -/
theorem updateTierSwitch_carries_message (p : TaskPayload)
    (hp : p.Typename ≠ "TaskExecutionNode") (hc : p.conformsToDocument) :
    ∃ g : Diag, updateTierSwitch p = some [g] ∧
      ∀ quote : String → String, occursIn p.Message (g.Summary quote) = true := by
  unfold updateTierSwitch
  rw [if_neg hp]
  by_cases hv : p.Typename = "ValidationErrors"
  · rw [if_pos hv]
    refine ⟨_, rfl, ?_⟩
    intro quote
    obtain ⟨post, hpost⟩ := (validationText_facts p.Message p.Errors).2.1
    apply occursIn_middle "virtualHostUpdateTier: " p.Message post
    rw [(summary_of_errorf quote _).2.2.2.2.1, taskValidationMessage_eq p, hpost]
  · rw [if_neg hv]
    by_cases hr : p.Typename = "Unauthorized" ∨ p.Typename = "OperationUnavailable"
    · rw [if_pos hr]
      refine ⟨_, rfl, ?_⟩
      intro quote
      obtain ⟨post, hpost⟩ := (refusal_message_starts_with_message p (caasPayloadOf "")).1
      apply occursIn_middle "virtualHostUpdateTier: " p.Message post
      rw [(summary_of_errorf quote _).2.2.2.2.1, hpost]
    · rw [if_neg hr]
      refine ⟨_, rfl, ?_⟩
      intro quote
      have hm : p.Message = "" := by
        apply hc.1
        simp only [List.mem_cons, List.mem_singleton, List.not_mem_nil, or_false, not_or]
        exact ⟨hv, fun h => hr (Or.inl h), fun h => hr (Or.inr h)⟩
      rw [hm]
      exact occursIn_empty _

/-- `resourceVirtualHostCaasUpdate`, with a watched change, on an answer whose type is not
`VirtualHostNode`, for a payload the document can produce: the data is unchanged, the mutation
is the only request and the one diagnostic contains the payload's message. -/
theorem caas_update_carries_message (d : ResourceData VirtualHostCaasAttrs) (client : Client)
    (p : caasPayload) (hch : (d.HasChange "note" || d.HasChange "tier_id") = true)
    (h : client.UpdateVirtualHostCaas (virtualHostUpdateCaasInput d) = .ok p)
    (hp : p.Typename ≠ "VirtualHostNode") (hc : p.conformsToDocument) :
    ∃ g : Diag, resourceVirtualHostCaasUpdate d client =
        ⟨d, [g], [Request.mutationVirtualHostUpdateCaas (virtualHostUpdateCaasInput d)]⟩ ∧
      ∀ quote : String → String, occursIn p.Message (g.Summary quote) = true := by
  by_cases hv : p.Typename = "ValidationErrors"
  · refine ⟨Diag.errorf "virtualHostUpdateCaas: %s" [formatValidationMessage p], ?_, ?_⟩
    · unfold resourceVirtualHostCaasUpdate
      simp only [hch, h, Bool.not_true, Bool.false_eq_true, if_false, if_neg hp, if_pos hv]
    intro quote
    obtain ⟨post, hpost⟩ := (validationText_facts p.Message p.Errors).2.1
    apply occursIn_middle "virtualHostUpdateCaas: " p.Message post
    rw [(summary_of_errorf quote _).2.2.2.2.2.1, formatValidationMessage_eq p, hpost]
  · by_cases hr : p.Typename = "Unauthorized" ∨ p.Typename = "OperationUnavailable"
    · refine ⟨Diag.errorf "virtualHostUpdateCaas: %s" [caasRefusalMessage p], ?_, ?_⟩
      · unfold resourceVirtualHostCaasUpdate
        simp only [hch, h, Bool.not_true, Bool.false_eq_true, if_false, if_neg hp, if_neg hv,
          if_pos hr]
      · intro quote
        obtain ⟨post, hpost⟩ :=
          (refusal_message_starts_with_message (taskPayload "") p).2.2
        apply occursIn_middle "virtualHostUpdateCaas: " p.Message post
        rw [(summary_of_errorf quote _).2.2.2.2.2.1, hpost]
    · refine ⟨Diag.errorf "virtualHostUpdateCaas: unexpected payload type %q" [p.Typename],
        ?_, ?_⟩
      · unfold resourceVirtualHostCaasUpdate
        simp only [hch, h, Bool.not_true, Bool.false_eq_true, if_false, if_neg hp, if_neg hv,
          if_neg hr]
      · intro quote
        have hm : p.Message = "" := by
          apply hc.1
          simp only [List.mem_cons, List.mem_singleton, List.not_mem_nil, or_false, not_or]
          exact ⟨hv, fun h => hr (Or.inl h), fun h => hr (Or.inr h)⟩
        rw [hm]
        exact occursIn_empty _

/-- C13. For each mutation of an update on its own (resize and tier update of the standard and
of the immutable update, the shadow update), for every resource data and every backend: when
the mutation fails, the update returns one error, sends no request after the mutation (no
follow-up read) and leaves the resource data, identifier and every attribute, as before the
call. For an executor error the error text is the executor's error itself; for a payload of any
type other than the acknowledgement (`ValidationErrors`, `Unauthorized`,
`OperationUnavailable` or an unknown type) the error text contains the payload's message. The
payload is one the mutation document can produce: `message` is selected inside the three
failure fragments only, so a payload of another type carries no message. -/
theorem failed_update_leaves_state :
    (∀ (d : ResourceData VirtualHostAttrs) (client : Client),
      sizingChanged d = true → tierChanged d = false →
      (∀ err : String, client.ResizeVm (resizeInput d) = .error err →
        ResourceVirtualHostUpdate d client =
          ⟨d, [Diag.fromErr err], [Request.mutationResizeVm (resizeInput d)]⟩ ∧
        ∀ quote : String → String, (Diag.fromErr err).Summary quote = err) ∧
      (∀ p : TaskPayload, client.ResizeVm (resizeInput d) = .ok p →
        p.Typename ≠ "TaskExecutionNode" → p.conformsToDocument →
        ∃ g : Diag, ResourceVirtualHostUpdate d client =
            ⟨d, [g], [Request.mutationResizeVm (resizeInput d)]⟩ ∧
          ∀ quote : String → String, occursIn p.Message (g.Summary quote) = true)) ∧
    (∀ (d : ResourceData VirtualHostAttrs) (client : Client),
      sizingChanged d = false → tierChanged d = true →
      (∀ err : String, client.UpdateVmTier (updateTierInput d) = .error err →
        ResourceVirtualHostUpdate d client =
          ⟨d, [Diag.fromErr err], [Request.mutationUpdateVmTier (updateTierInput d)]⟩ ∧
        ∀ quote : String → String, (Diag.fromErr err).Summary quote = err) ∧
      (∀ p : TaskPayload, client.UpdateVmTier (updateTierInput d) = .ok p →
        p.Typename ≠ "TaskExecutionNode" → p.conformsToDocument →
        ∃ g : Diag, ResourceVirtualHostUpdate d client =
            ⟨d, [g], [Request.mutationUpdateVmTier (updateTierInput d)]⟩ ∧
          ∀ quote : String → String, occursIn p.Message (g.Summary quote) = true)) ∧
    (∀ (d : ResourceData VirtualHostImmutableAttrs) (client : Client),
      sizingChanged d = true → tierChanged d = false →
      (∀ err : String, client.ResizeVm (immutableResizeInput d) = .error err →
        ResourceVirtualHostImmutableUpdate d client =
          ⟨d, [Diag.fromErr err], [Request.mutationResizeVm (immutableResizeInput d)]⟩ ∧
        ∀ quote : String → String, (Diag.fromErr err).Summary quote = err) ∧
      (∀ p : TaskPayload, client.ResizeVm (immutableResizeInput d) = .ok p →
        p.Typename ≠ "TaskExecutionNode" → p.conformsToDocument →
        ∃ g : Diag, ResourceVirtualHostImmutableUpdate d client =
            ⟨d, [g], [Request.mutationResizeVm (immutableResizeInput d)]⟩ ∧
          ∀ quote : String → String, occursIn p.Message (g.Summary quote) = true)) ∧
    (∀ (d : ResourceData VirtualHostImmutableAttrs) (client : Client),
      sizingChanged d = false → tierChanged d = true →
      (∀ err : String, client.UpdateVmTier (immutableUpdateTierInput d) = .error err →
        ResourceVirtualHostImmutableUpdate d client =
          ⟨d, [Diag.fromErr err],
            [Request.mutationUpdateVmTier (immutableUpdateTierInput d)]⟩ ∧
        ∀ quote : String → String, (Diag.fromErr err).Summary quote = err) ∧
      (∀ p : TaskPayload, client.UpdateVmTier (immutableUpdateTierInput d) = .ok p →
        p.Typename ≠ "TaskExecutionNode" → p.conformsToDocument →
        ∃ g : Diag, ResourceVirtualHostImmutableUpdate d client =
            ⟨d, [g], [Request.mutationUpdateVmTier (immutableUpdateTierInput d)]⟩ ∧
          ∀ quote : String → String, occursIn p.Message (g.Summary quote) = true)) ∧
    (∀ (d : ResourceData VirtualHostCaasAttrs) (client : Client),
      (d.HasChange "note" || d.HasChange "tier_id") = true →
      (∀ err : String,
        client.UpdateVirtualHostCaas (virtualHostUpdateCaasInput d) = .error err →
        resourceVirtualHostCaasUpdate d client =
          ⟨d, [Diag.fromErr err],
            [Request.mutationVirtualHostUpdateCaas (virtualHostUpdateCaasInput d)]⟩ ∧
        ∀ quote : String → String, (Diag.fromErr err).Summary quote = err) ∧
      (∀ p : caasPayload,
        client.UpdateVirtualHostCaas (virtualHostUpdateCaasInput d) = .ok p →
        p.Typename ≠ "VirtualHostNode" → p.conformsToDocument →
        ∃ g : Diag, resourceVirtualHostCaasUpdate d client =
            ⟨d, [g], [Request.mutationVirtualHostUpdateCaas (virtualHostUpdateCaasInput d)]⟩ ∧
          ∀ quote : String → String, occursIn p.Message (g.Summary quote) = true)) := by
  refine ⟨?_, ?_, ?_, ?_, ?_⟩
  · intro d client hs ht
    refine ⟨fun err h => ⟨(update_resize_failure plainQuote d client hs ht).1 err h,
      fun _ => rfl⟩, ?_⟩
    intro p h hp hc
    obtain ⟨g, hsw, htext⟩ := resizeSwitch_carries_message p hp hc
    refine ⟨g, ?_, htext⟩
    rw [update_sizing_only d client hs ht]
    have hb : resizeBlock d client =
        (some [g], [Request.mutationResizeVm (resizeInput d)]) := by
      unfold resizeBlock
      simp only [h, hsw]
    rw [hb]
  · intro d client hs ht
    refine ⟨fun err h => ⟨(update_tier_failure plainQuote d client hs ht).1 err h,
      fun _ => rfl⟩, ?_⟩
    intro p h hp hc
    obtain ⟨g, hsw, htext⟩ := updateTierSwitch_carries_message p hp hc
    refine ⟨g, ?_, htext⟩
    rw [update_tier_only d client hs ht]
    have hb : updateTierBlock d client =
        (some [g], [Request.mutationUpdateVmTier (updateTierInput d)]) := by
      unfold updateTierBlock
      simp only [h, hsw]
    rw [hb]
  · intro d client hs ht
    refine ⟨fun err h => ⟨(immutable_update_resize_failure plainQuote d client hs ht).1 err h,
      fun _ => rfl⟩, ?_⟩
    intro p h hp hc
    obtain ⟨g, hsw, htext⟩ := resizeSwitch_carries_message p hp hc
    have hsw2 : immutableResizeSwitch p = some [g] := hsw
    refine ⟨g, ?_, htext⟩
    rw [immutable_update_sizing_only d client hs ht]
    have hb : immutableResizeBlock d client =
        (some [g], [Request.mutationResizeVm (immutableResizeInput d)]) := by
      unfold immutableResizeBlock
      simp only [h, hsw2]
    rw [hb]
  · intro d client hs ht
    refine ⟨fun err h => ⟨(immutable_update_tier_failure plainQuote d client hs ht).1 err h,
      fun _ => rfl⟩, ?_⟩
    intro p h hp hc
    obtain ⟨g, hsw, htext⟩ := updateTierSwitch_carries_message p hp hc
    have hsw2 : immutableUpdateTierSwitch p = some [g] := hsw
    refine ⟨g, ?_, htext⟩
    rw [immutable_update_tier_only d client hs ht]
    have hb : immutableUpdateTierBlock d client =
        (some [g], [Request.mutationUpdateVmTier (immutableUpdateTierInput d)]) := by
      unfold immutableUpdateTierBlock
      simp only [h, hsw2]
    rw [hb]
  · intro d client hch
    refine ⟨?_, fun p h hp hc => caas_update_carries_message d client p hch h hp hc⟩
    intro err h
    refine ⟨?_, fun _ => rfl⟩
    unfold resourceVirtualHostCaasUpdate
    simp only [hch, h, Bool.not_true, Bool.false_eq_true, if_false]

/-- Witness of C13 on `vh-1` with `cpu_count` changed: the resize refused with `Unauthorized`
and the message `token expired` (the error text contains it), the resize answered with the
unknown type `SomeNewType` (which carries no message), and a tier update that fails in
transport; in each case the data is unchanged and the mutation is the only request. -/
theorem failed_update_leaves_state_witness :
    (sizingChanged resizeData = true ∧ tierChanged resizeData = false ∧
      sizingChanged retierData = false ∧ tierChanged retierData = true ∧
      unauthorizedPayload.conformsToDocument ∧ (taskPayload "SomeNewType").conformsToDocument) ∧
    (∃ g : Diag, ResourceVirtualHostUpdate resizeData unauthorizedClient =
        ⟨resizeData, [g], [Request.mutationResizeVm (resizeInput resizeData)]⟩ ∧
      ∀ quote : String → String, occursIn "token expired" (g.Summary quote) = true) ∧
    (ResourceVirtualHostUpdate resizeData unauthorizedClient).diags.map
        (Diag.Summary plainQuote) = ["virtualHostResize: token expired"] ∧
    (∃ g : Diag, ResourceVirtualHostUpdate resizeData resizeDriftClient =
        ⟨resizeData, [g], [Request.mutationResizeVm (resizeInput resizeData)]⟩ ∧
      ∀ quote : String → String, occursIn "" (g.Summary quote) = true) ∧
    (ResourceVirtualHostUpdate resizeData resizeDriftClient).diags.map
        (Diag.Summary plainQuote) =
      ["virtualHostResize: unexpected payload type \"SomeNewType\""] ∧
    ResourceVirtualHostUpdate retierData downClient =
      ⟨retierData, [Diag.fromErr "connection refused"],
        [Request.mutationUpdateVmTier (updateTierInput retierData)]⟩ :=
  have h := failed_update_leaves_state.1 resizeData unauthorizedClient (by decide) (by decide)
  have hd := failed_update_leaves_state.1 resizeData resizeDriftClient (by decide) (by decide)
  have ht := failed_update_leaves_state.2.1 retierData downClient (by decide) (by decide)
  ⟨⟨by decide, by decide, by decide, by decide, by decide, by decide⟩,
    h.2 unauthorizedPayload rfl (by decide) (by decide), by decide,
    hd.2 (taskPayload "SomeNewType") rfl (by decide) (by decide), by decide,
    (ht.1 "connection refused" rfl).1⟩


/-! ### C14: the success branch without its object -/

/-- `ResourceVirtualHostCreate` on `VirtualHostCreated` without `virtualHost`. -/
theorem create_missing_object (d : ResourceData VirtualHostAttrs) (client : Client)
    (p : VirtualHostCreatePayload) (hi : d.attrs.interfaces ≠ [])
    (h : client.CreateVm (virtualHostCreateInput d) = .ok p)
    (ht : p.Typename = "VirtualHostCreated") (hv : p.VirtualHost = none) :
    ResourceVirtualHostCreate d client =
      ⟨d, [Diag.errorf
          "virtualHostCreate: backend returned VirtualHostCreated without virtualHost" []],
        [Request.mutationCreateVM (virtualHostCreateInput d)]⟩ := by
  have hlen : ¬ d.attrs.interfaces.length = 0 := by
    simpa [List.length_eq_zero] using hi
  unfold ResourceVirtualHostCreate
  rw [if_neg hlen]
  simp only [h, ht, hv, if_true]

/-- `ResourceVirtualHostImmutableCreate` on `VirtualHostCreated` without `virtualHost`. -/
theorem immutable_create_missing_object (d : ResourceData VirtualHostImmutableAttrs)
    (client : Client) (p : VirtualHostCreatePayload)
    (h : client.CreateVmImmutable (virtualHostCreateImmutableInput d) = .ok p)
    (ht : p.Typename = "VirtualHostCreated") (hv : p.VirtualHost = none) :
    ResourceVirtualHostImmutableCreate d client =
      ⟨d, [Diag.errorf
          "virtualHostCreateImmutable: backend returned VirtualHostCreated without virtualHost"
          []],
        [Request.mutationCreateImmutableVM (virtualHostCreateImmutableInput d)]⟩ := by
  unfold ResourceVirtualHostImmutableCreate
  simp only [h, ht, hv, if_true]

/-- `resourceVirtualHostCaasCreate` on `VirtualHostNode` with an empty `id`. -/
theorem caas_create_missing_id (d : ResourceData VirtualHostCaasAttrs) (client : Client)
    (p : caasPayload)
    (h : client.CreateVirtualHostCaas (virtualHostCreateCaasInput d) = .ok p)
    (ht : p.Typename = "VirtualHostNode") (hv : p.ID = "") :
    resourceVirtualHostCaasCreate d client =
      ⟨d, [Diag.errorf "virtualHostCreateCaas: backend returned VirtualHostNode without id" []],
        [Request.mutationVirtualHostCreateCaas (virtualHostCreateCaasInput d)]⟩ := by
  unfold resourceVirtualHostCaasCreate
  simp only [h, ht, hv, if_true]

/-- C14 (counterexample). The text returned by `ResourceVirtualHostCreate` for
`VirtualHostCreated` without `virtualHost` is the text it returns for the `ValidationErrors`
payload whose message is `backend returned VirtualHostCreated without virtualHost`. -/
theorem missing_object_text_is_a_validation_text :
    lookalikePayload.Typename = "ValidationErrors" ∧
    (ResourceVirtualHostCreate ⟨"", testAttrs, []⟩ missingObjectClient).diags.map
        (Diag.Summary plainQuote) =
      ["virtualHostCreate: backend returned VirtualHostCreated without virtualHost"] ∧
    (ResourceVirtualHostCreate ⟨"", testAttrs, []⟩ lookalikeClient).diags.map
        (Diag.Summary plainQuote) =
      ["virtualHostCreate: backend returned VirtualHostCreated without virtualHost"] ∧
    (ResourceVirtualHostCreate ⟨"", testAttrs, []⟩ missingObjectClient).diags.map
        (Diag.Summary plainQuote) =
      (ResourceVirtualHostCreate ⟨"", testAttrs, []⟩ lookalikeClient).diags.map
        (Diag.Summary plainQuote) := by
  refine ⟨rfl, ?_, ?_, ?_⟩ <;> decide


/-! ### The `ValidationErrors` branch of every mutation -/

/-- `ResourceVirtualHostCreate` on a `ValidationErrors` payload. -/
theorem create_validation (d : ResourceData VirtualHostAttrs) (client : Client)
    (p : VirtualHostCreatePayload) (hi : d.attrs.interfaces ≠ [])
    (h : client.CreateVm (virtualHostCreateInput d) = .ok p)
    (ht : p.Typename = "ValidationErrors") :
    ResourceVirtualHostCreate d client =
      ⟨d, [Diag.errorf "virtualHostCreate: %s" [createValidationMessage p]],
        [Request.mutationCreateVM (virtualHostCreateInput d)]⟩ := by
  have hlen : ¬ d.attrs.interfaces.length = 0 := by
    simpa [List.length_eq_zero] using hi
  unfold ResourceVirtualHostCreate
  rw [if_neg hlen]
  simp [h, ht]

/-- `ResourceVirtualHostImmutableCreate` on a `ValidationErrors` payload. -/
theorem immutable_create_validation (d : ResourceData VirtualHostImmutableAttrs)
    (client : Client) (p : VirtualHostCreatePayload)
    (h : client.CreateVmImmutable (virtualHostCreateImmutableInput d) = .ok p)
    (ht : p.Typename = "ValidationErrors") :
    ResourceVirtualHostImmutableCreate d client =
      ⟨d, [Diag.errorf "virtualHostCreateImmutable: %s" [immutableCreateValidationMessage p]],
        [Request.mutationCreateImmutableVM (virtualHostCreateImmutableInput d)]⟩ := by
  unfold ResourceVirtualHostImmutableCreate
  simp [h, ht]

/-- `resourceVirtualHostCaasCreate` on a `ValidationErrors` payload. -/
theorem caas_create_validation (d : ResourceData VirtualHostCaasAttrs) (client : Client)
    (p : caasPayload)
    (h : client.CreateVirtualHostCaas (virtualHostCreateCaasInput d) = .ok p)
    (ht : p.Typename = "ValidationErrors") :
    resourceVirtualHostCaasCreate d client =
      ⟨d, [Diag.errorf "virtualHostCreateCaas: %s" [formatValidationMessage p]],
        [Request.mutationVirtualHostCreateCaas (virtualHostCreateCaasInput d)]⟩ := by
  unfold resourceVirtualHostCaasCreate
  simp [h, ht]

/-- `resourceVirtualHostCaasUpdate` on a `ValidationErrors` payload. -/
theorem caas_update_validation (d : ResourceData VirtualHostCaasAttrs) (client : Client)
    (p : caasPayload) (hc : (d.HasChange "note" || d.HasChange "tier_id") = true)
    (h : client.UpdateVirtualHostCaas (virtualHostUpdateCaasInput d) = .ok p)
    (ht : p.Typename = "ValidationErrors") :
    resourceVirtualHostCaasUpdate d client =
      ⟨d, [Diag.errorf "virtualHostUpdateCaas: %s" [formatValidationMessage p]],
        [Request.mutationVirtualHostUpdateCaas (virtualHostUpdateCaasInput d)]⟩ := by
  unfold resourceVirtualHostCaasUpdate
  simp [hc, h, ht]

/-- `resourceVirtualHostCaasDelete` on a `ValidationErrors` payload. -/
theorem caas_delete_validation (d : ResourceData VirtualHostCaasAttrs) (client : Client)
    (p : caasPayload) (h : client.DeleteVirtualHostCaas d.Id = .ok p)
    (ht : p.Typename = "ValidationErrors") :
    resourceVirtualHostCaasDelete d client =
      ⟨d, [Diag.errorf "virtualHostDeleteCaas: %s" [formatValidationMessage p]],
        [Request.mutationVirtualHostDeleteCaas d.Id]⟩ := by
  unfold resourceVirtualHostCaasDelete
  simp [h, ht]

/-- `ResourceVirtualHostUpdate`, sizing only, on a `ValidationErrors` answer to the resize mutation. -/
theorem update_resize_validation (d : ResourceData VirtualHostAttrs) (client : Client) (p : TaskPayload)
    (hs : sizingChanged d = true) (ht : tierChanged d = false)
    (h : client.ResizeVm (resizeInput d) = .ok p) (hp : p.Typename = "ValidationErrors") :
    ResourceVirtualHostUpdate d client =
      ⟨d, [Diag.errorf "virtualHostResize: %s" [taskValidationMessage p]], [Request.mutationResizeVm (resizeInput d)]⟩ := by
  rw [update_sizing_only d client hs ht]
  have hb : resizeBlock d client =
      (some [Diag.errorf "virtualHostResize: %s" [taskValidationMessage p]], [Request.mutationResizeVm (resizeInput d)]) := by
    unfold resizeBlock resizeSwitch
    simp [h, hp]
  rw [hb]

/-- `ResourceVirtualHostUpdate`, tier only, on a `ValidationErrors` answer to the tier-update mutation. -/
theorem update_tier_validation (d : ResourceData VirtualHostAttrs) (client : Client) (p : TaskPayload)
    (hs : sizingChanged d = false) (ht : tierChanged d = true)
    (h : client.UpdateVmTier (updateTierInput d) = .ok p) (hp : p.Typename = "ValidationErrors") :
    ResourceVirtualHostUpdate d client =
      ⟨d, [Diag.errorf "virtualHostUpdateTier: %s" [taskValidationMessage p]], [Request.mutationUpdateVmTier (updateTierInput d)]⟩ := by
  rw [update_tier_only d client hs ht]
  have hb : updateTierBlock d client =
      (some [Diag.errorf "virtualHostUpdateTier: %s" [taskValidationMessage p]], [Request.mutationUpdateVmTier (updateTierInput d)]) := by
    unfold updateTierBlock updateTierSwitch
    simp [h, hp]
  rw [hb]

/-- `ResourceVirtualHostImmutableUpdate`, sizing only, on a `ValidationErrors` answer to the resize mutation. -/
theorem immutable_update_resize_validation (d : ResourceData VirtualHostImmutableAttrs) (client : Client) (p : TaskPayload)
    (hs : sizingChanged d = true) (ht : tierChanged d = false)
    (h : client.ResizeVm (immutableResizeInput d) = .ok p) (hp : p.Typename = "ValidationErrors") :
    ResourceVirtualHostImmutableUpdate d client =
      ⟨d, [Diag.errorf "virtualHostResize: %s" [immutableTaskValidationMessage p]], [Request.mutationResizeVm (immutableResizeInput d)]⟩ := by
  rw [immutable_update_sizing_only d client hs ht]
  have hb : immutableResizeBlock d client =
      (some [Diag.errorf "virtualHostResize: %s" [immutableTaskValidationMessage p]], [Request.mutationResizeVm (immutableResizeInput d)]) := by
    unfold immutableResizeBlock immutableResizeSwitch
    simp [h, hp]
  rw [hb]

/-- `ResourceVirtualHostImmutableUpdate`, tier only, on a `ValidationErrors` answer to the tier-update mutation. -/
theorem immutable_update_tier_validation (d : ResourceData VirtualHostImmutableAttrs) (client : Client) (p : TaskPayload)
    (hs : sizingChanged d = false) (ht : tierChanged d = true)
    (h : client.UpdateVmTier (immutableUpdateTierInput d) = .ok p) (hp : p.Typename = "ValidationErrors") :
    ResourceVirtualHostImmutableUpdate d client =
      ⟨d, [Diag.errorf "virtualHostUpdateTier: %s" [immutableTaskValidationMessage p]], [Request.mutationUpdateVmTier (immutableUpdateTierInput d)]⟩ := by
  rw [immutable_update_tier_only d client hs ht]
  have hb : immutableUpdateTierBlock d client =
      (some [Diag.errorf "virtualHostUpdateTier: %s" [immutableTaskValidationMessage p]], [Request.mutationUpdateVmTier (immutableUpdateTierInput d)]) := by
    unfold immutableUpdateTierBlock immutableUpdateTierSwitch
    simp [h, hp]
  rw [hb]


/-! ### C14 (amended): the missing-object error against the validation texts -/

/-- The validation text of the create functions equals a text `s` that is neither empty, nor the
placeholder, nor closed by a parenthesis, exactly when there is no field error and the message
is `s`. -/
theorem createValidationText_eq_iff (m : String) (es : List FieldMessages) (s : String)
    (hne : s ≠ "") (hph : s ≠ validationPlaceholder) (hlast : lastChar s ≠ some ')') :
    createValidationText m es = s ↔ m = s ∧ es = [] := by
  unfold createValidationText
  rcases es with _ | ⟨e, es⟩
  · by_cases hm : m = ""
    · simp only [if_true, if_pos hm, and_true]
      constructor
      · intro h
        exact absurd h.symm hph
      · intro h
        exact absurd (hm.symm.trans h).symm hne
    · simp only [if_true, if_neg hm, and_true]
  · have hl : lastChar (m ++ " (" ++ String.join ((e :: es).map createFieldPiece) ++ ")")
        = some ')' := lastChar_append _ ")" ')' rfl
    rw [if_neg (by simp)]
    constructor
    · intro h
      rw [h] at hl
      exact absurd hl hlast
    · intro h
      exact absurd h.2 (by simp)

/-- The validation text of the shadow mutations equals a text `s` that is neither empty, nor the
placeholder, nor closed by a semicolon, exactly when there is no field error and the message is
`s`. -/
theorem validationText_eq_iff (m : String) (es : List FieldMessages) (s : String)
    (hne : s ≠ "") (hph : s ≠ validationPlaceholder) (hlast : lastChar s ≠ some ';') :
    validationText m es = s ↔ m = s ∧ es = [] := by
  unfold validationText
  rcases es with _ | ⟨e, es⟩
  · by_cases hm : m = ""
    · simp only [if_true, if_pos hm, and_true]
      constructor
      · intro h
        exact absurd h.symm hph
      · intro h
        exact absurd (hm.symm.trans h).symm hne
    · simp only [if_true, if_neg hm, and_true]
  · have hl : lastChar (m ++ String.join ((e :: es).map fieldPiece)) = some ';' :=
      lastChar_append _ _ ';' (lastChar_join fieldPiece ';' lastChar_fieldPiece _ (by simp))
    rw [if_neg (by simp)]
    constructor
    · intro h
      rw [h] at hl
      exact absurd hl hlast
    · intro h
      exact absurd h.2 (by simp)

/-- Two one-element lists of texts with the same prefix are equal exactly when the texts after
the prefix are. -/
theorem singleton_prefix_eq_iff (a x y : String) : [a ++ x] = [a ++ y] ↔ x = y := by
  constructor
  · intro h
    exact append_left_cancel a x y (List.singleton_inj.mp h)
  · intro h
    rw [h]

/-- C14 (amended). For each variant on its own, for every resource data and every backend. When
the create payload has `__typename` `VirtualHostCreated` but no `virtualHost` (standard and
immutable variants), or the shadow create payload has `__typename` `VirtualHostNode` with an
empty `id`, create returns the fixed error text that reports the missing object or id, whatever
message and field errors the payload carries, and the resource data, identifier included, is as
before the call. When the create is answered with `ValidationErrors`, the returned text is that
same text exactly when the payload has no field error and its message is the sentence of the
missing-object error itself (`backend returned VirtualHostCreated without virtualHost`, shadow:
`backend returned VirtualHostNode without id`); for every other validation payload, the one
with the empty message that gives the placeholder included, the two texts differ. -/
theorem missing_object_is_fatal (quote : String → String) :
    ((∀ (d : ResourceData VirtualHostAttrs) (client : Client) (p : VirtualHostCreatePayload),
        d.attrs.interfaces ≠ [] → client.CreateVm (virtualHostCreateInput d) = .ok p →
        p.Typename = "VirtualHostCreated" → p.VirtualHost = none →
        (ResourceVirtualHostCreate d client).d = d ∧
        (ResourceVirtualHostCreate d client).diags.map (Diag.Summary quote) =
          ["virtualHostCreate: backend returned VirtualHostCreated without virtualHost"]) ∧
      (∀ (d : ResourceData VirtualHostAttrs) (client : Client) (v : VirtualHostCreatePayload),
        d.attrs.interfaces ≠ [] → client.CreateVm (virtualHostCreateInput d) = .ok v →
        v.Typename = "ValidationErrors" →
        ((ResourceVirtualHostCreate d client).diags.map (Diag.Summary quote) =
            ["virtualHostCreate: backend returned VirtualHostCreated without virtualHost"] ↔
          v.Message = "backend returned VirtualHostCreated without virtualHost" ∧
            v.Errors = []))) ∧
    ((∀ (d : ResourceData VirtualHostImmutableAttrs) (client : Client)
          (p : VirtualHostCreatePayload),
        client.CreateVmImmutable (virtualHostCreateImmutableInput d) = .ok p →
        p.Typename = "VirtualHostCreated" → p.VirtualHost = none →
        (ResourceVirtualHostImmutableCreate d client).d = d ∧
        (ResourceVirtualHostImmutableCreate d client).diags.map (Diag.Summary quote) =
          ["virtualHostCreateImmutable: backend returned VirtualHostCreated without virtualHost"]) ∧
      (∀ (d : ResourceData VirtualHostImmutableAttrs) (client : Client)
          (v : VirtualHostCreatePayload),
        client.CreateVmImmutable (virtualHostCreateImmutableInput d) = .ok v →
        v.Typename = "ValidationErrors" →
        ((ResourceVirtualHostImmutableCreate d client).diags.map (Diag.Summary quote) =
            ["virtualHostCreateImmutable: backend returned VirtualHostCreated without virtualHost"]
          ↔ v.Message = "backend returned VirtualHostCreated without virtualHost" ∧
            v.Errors = []))) ∧
    ((∀ (d : ResourceData VirtualHostCaasAttrs) (client : Client) (p : caasPayload),
        client.CreateVirtualHostCaas (virtualHostCreateCaasInput d) = .ok p →
        p.Typename = "VirtualHostNode" → p.ID = "" →
        (resourceVirtualHostCaasCreate d client).d = d ∧
        (resourceVirtualHostCaasCreate d client).diags.map (Diag.Summary quote) =
          ["virtualHostCreateCaas: backend returned VirtualHostNode without id"]) ∧
      (∀ (d : ResourceData VirtualHostCaasAttrs) (client : Client) (v : caasPayload),
        client.CreateVirtualHostCaas (virtualHostCreateCaasInput d) = .ok v →
        v.Typename = "ValidationErrors" →
        ((resourceVirtualHostCaasCreate d client).diags.map (Diag.Summary quote) =
            ["virtualHostCreateCaas: backend returned VirtualHostNode without id"] ↔
          v.Message = "backend returned VirtualHostNode without id" ∧ v.Errors = []))) := by
  refine ⟨⟨?_, ?_⟩, ⟨?_, ?_⟩, ⟨?_, ?_⟩⟩
  · intro d client p hi h ht hv
    rw [create_missing_object d client p hi h ht hv]
    exact ⟨rfl, rfl⟩
  · intro d client v hi h ht
    rw [create_validation d client v hi h ht, List.map_singleton,
      (summary_of_errorf quote _).1, createValidationMessage_eq]
    have hs : ["virtualHostCreate: backend returned VirtualHostCreated without virtualHost"] =
        ["virtualHostCreate: " ++ "backend returned VirtualHostCreated without virtualHost"] := by
      decide
    rw [hs, singleton_prefix_eq_iff]
    exact createValidationText_eq_iff _ _ _ (by decide) (by decide) (by decide)
  · intro d client p h ht hv
    rw [immutable_create_missing_object d client p h ht hv]
    exact ⟨rfl, rfl⟩
  · intro d client v h ht
    rw [immutable_create_validation d client v h ht, List.map_singleton,
      (summary_of_errorf quote _).2.1, immutableCreateValidationMessage_eq]
    have hs :
        ["virtualHostCreateImmutable: backend returned VirtualHostCreated without virtualHost"] =
        ["virtualHostCreateImmutable: " ++
          "backend returned VirtualHostCreated without virtualHost"] := by
      decide
    rw [hs, singleton_prefix_eq_iff]
    exact createValidationText_eq_iff _ _ _ (by decide) (by decide) (by decide)
  · intro d client p h ht hv
    rw [caas_create_missing_id d client p h ht hv]
    exact ⟨rfl, rfl⟩
  · intro d client v h ht
    rw [caas_create_validation d client v h ht, List.map_singleton,
      (summary_of_errorf quote _).2.2.1, formatValidationMessage_eq]
    have hs : ["virtualHostCreateCaas: backend returned VirtualHostNode without id"] =
        ["virtualHostCreateCaas: " ++ "backend returned VirtualHostNode without id"] := by
      decide
    rw [hs, singleton_prefix_eq_iff]
    exact validationText_eq_iff _ _ _ (by decide) (by decide) (by decide)

/-- Witness of C14 (amended): the standard and the shadow create against a backend that answers
the success type without its object or id; and the standard create answered with
`ValidationErrors`: the message `invalid input` with two field errors gives another text, the
message that is the sentence itself gives the same text. -/
theorem missing_object_is_fatal_witness :
    (testAttrs.interfaces ≠ [] ∧
      missingObjectClient.CreateVm (virtualHostCreateInput ⟨"", testAttrs, []⟩) =
        .ok (createPayload "VirtualHostCreated" none) ∧
      (caasPayloadOf "VirtualHostNode").ID = "") ∧
    ((ResourceVirtualHostCreate ⟨"", testAttrs, []⟩ missingObjectClient).d =
        ⟨"", testAttrs, []⟩ ∧
      (ResourceVirtualHostCreate ⟨"", testAttrs, []⟩ missingObjectClient).diags.map
          (Diag.Summary plainQuote) =
        ["virtualHostCreate: backend returned VirtualHostCreated without virtualHost"]) ∧
    ((resourceVirtualHostCaasCreate ⟨"", testCaasAttrs, []⟩ missingObjectClient).d =
        ⟨"", testCaasAttrs, []⟩ ∧
      (resourceVirtualHostCaasCreate ⟨"", testCaasAttrs, []⟩ missingObjectClient).diags.map
          (Diag.Summary plainQuote) =
        ["virtualHostCreateCaas: backend returned VirtualHostNode without id"]) ∧
    (ResourceVirtualHostCreate ⟨"", testAttrs, []⟩ validationClient).diags.map
        (Diag.Summary plainQuote) ≠
      ["virtualHostCreate: backend returned VirtualHostCreated without virtualHost"] ∧
    (ResourceVirtualHostCreate ⟨"", testAttrs, []⟩ lookalikeClient).diags.map
        (Diag.Summary plainQuote) =
      ["virtualHostCreate: backend returned VirtualHostCreated without virtualHost"] :=
  have h := missing_object_is_fatal plainQuote
  ⟨⟨by decide, rfl, rfl⟩,
    h.1.1 ⟨"", testAttrs, []⟩ missingObjectClient (createPayload "VirtualHostCreated" none)
      (by decide) rfl rfl rfl,
    h.2.2.1 ⟨"", testCaasAttrs, []⟩ missingObjectClient (caasPayloadOf "VirtualHostNode")
      rfl rfl rfl,
    fun heq => absurd
      ((h.1.2 ⟨"", testAttrs, []⟩ validationClient
        { Typename := "ValidationErrors", VirtualHost := none, Message := "invalid input",
          Errors := testFieldErrors, Reasons := [] } (by decide) rfl rfl).mp heq).1
      (by decide),
    (h.1.2 ⟨"", testAttrs, []⟩ lookalikeClient lookalikePayload (by decide) rfl rfl).mpr
      ⟨rfl, rfl⟩⟩


/-! ### C15: the validation-failure message -/

/-- C15 (counterexample). A `ValidationErrors` payload without field errors whose top-level
message is `validation failed without message`: the message is not empty, yet the text after the
operation prefix equals the placeholder. -/
theorem placeholder_text_with_nonempty_message :
    placeholderEchoPayload.Typename = "ValidationErrors" ∧
    placeholderEchoPayload.Message ≠ "" ∧
    placeholderEchoPayload.Errors = [] ∧
    createValidationMessage placeholderEchoPayload = "validation failed without message" ∧
    (ResourceVirtualHostCreate ⟨"", testAttrs, []⟩ placeholderEchoClient).diags.map
        (Diag.Summary plainQuote) =
      ["virtualHostCreate: validation failed without message"] := by
  refine ⟨rfl, by decide, rfl, by decide, by decide⟩


/-- C15 (amended). For each mutation on its own (the three creates, resize and tier update of
the standard and of the immutable update, shadow update and delete), for every resource data,
every backend and every payload with `__typename` `ValidationErrors` returned to that mutation
(nothing is assumed about the answers to other mutations): the returned error text is the
operation prefix followed by the validation text of the payload's message `m` and field errors
`es`. That text is never empty; without field errors it is `m`, or the placeholder when `m` is
empty; with field errors it is `m` followed, for each field error in order, by the field name
and its list of messages (between parentheses and each closed by `; ` in the creates, each
preceded by a blank and closed by `;` elsewhere); and it equals the placeholder exactly when
there is no field error and `m` is empty or is itself the placeholder text. -/
theorem validation_failure_text (quote : String → String) :
    ((∀ (d : ResourceData VirtualHostAttrs) (client : Client) (p : VirtualHostCreatePayload),
        d.attrs.interfaces ≠ [] →
        client.CreateVm (virtualHostCreateInput d) = .ok p → p.Typename = "ValidationErrors" →
        (ResourceVirtualHostCreate d client).diags.map (Diag.Summary quote) =
          ["virtualHostCreate: " ++ createValidationText p.Message p.Errors]) ∧
      (∀ (di : ResourceData VirtualHostImmutableAttrs) (client : Client)
          (p : VirtualHostCreatePayload),
        client.CreateVmImmutable (virtualHostCreateImmutableInput di) = .ok p →
        p.Typename = "ValidationErrors" →
        (ResourceVirtualHostImmutableCreate di client).diags.map (Diag.Summary quote) =
          ["virtualHostCreateImmutable: " ++ createValidationText p.Message p.Errors]) ∧
      (∀ (dc : ResourceData VirtualHostCaasAttrs) (client : Client) (p : caasPayload),
        client.CreateVirtualHostCaas (virtualHostCreateCaasInput dc) = .ok p →
        p.Typename = "ValidationErrors" →
        (resourceVirtualHostCaasCreate dc client).diags.map (Diag.Summary quote) =
          ["virtualHostCreateCaas: " ++ validationText p.Message p.Errors]) ∧
      (∀ (d : ResourceData VirtualHostAttrs) (client : Client) (p : TaskPayload),
        sizingChanged d = true → tierChanged d = false →
        client.ResizeVm (resizeInput d) = .ok p → p.Typename = "ValidationErrors" →
        (ResourceVirtualHostUpdate d client).diags.map (Diag.Summary quote) =
          ["virtualHostResize: " ++ validationText p.Message p.Errors]) ∧
      (∀ (d : ResourceData VirtualHostAttrs) (client : Client) (p : TaskPayload),
        sizingChanged d = false → tierChanged d = true →
        client.UpdateVmTier (updateTierInput d) = .ok p → p.Typename = "ValidationErrors" →
        (ResourceVirtualHostUpdate d client).diags.map (Diag.Summary quote) =
          ["virtualHostUpdateTier: " ++ validationText p.Message p.Errors]) ∧
      (∀ (di : ResourceData VirtualHostImmutableAttrs) (client : Client) (p : TaskPayload),
        sizingChanged di = true → tierChanged di = false →
        client.ResizeVm (immutableResizeInput di) = .ok p → p.Typename = "ValidationErrors" →
        (ResourceVirtualHostImmutableUpdate di client).diags.map (Diag.Summary quote) =
          ["virtualHostResize: " ++ validationText p.Message p.Errors]) ∧
      (∀ (di : ResourceData VirtualHostImmutableAttrs) (client : Client) (p : TaskPayload),
        sizingChanged di = false → tierChanged di = true →
        client.UpdateVmTier (immutableUpdateTierInput di) = .ok p →
        p.Typename = "ValidationErrors" →
        (ResourceVirtualHostImmutableUpdate di client).diags.map (Diag.Summary quote) =
          ["virtualHostUpdateTier: " ++ validationText p.Message p.Errors]) ∧
      (∀ (dc : ResourceData VirtualHostCaasAttrs) (client : Client) (p : caasPayload),
        (dc.HasChange "note" || dc.HasChange "tier_id") = true →
        client.UpdateVirtualHostCaas (virtualHostUpdateCaasInput dc) = .ok p →
        p.Typename = "ValidationErrors" →
        (resourceVirtualHostCaasUpdate dc client).diags.map (Diag.Summary quote) =
          ["virtualHostUpdateCaas: " ++ validationText p.Message p.Errors]) ∧
      (∀ (dc : ResourceData VirtualHostCaasAttrs) (client : Client) (p : caasPayload),
        client.DeleteVirtualHostCaas dc.Id = .ok p → p.Typename = "ValidationErrors" →
        (resourceVirtualHostCaasDelete dc client).diags.map (Diag.Summary quote) =
          ["virtualHostDeleteCaas: " ++ validationText p.Message p.Errors])) ∧
    (∀ (m : String) (es : List FieldMessages),
      createValidationText m es ≠ "" ∧
      (es = [] → m ≠ "" → createValidationText m es = m) ∧
      (es ≠ [] → createValidationText m es =
        m ++ " (" ++ String.join
          (es.map (fun e => e.Field ++ ": " ++ fmtStrings e.Messages ++ "; ")) ++ ")") ∧
      (createValidationText m es = "validation failed without message" ↔
        es = [] ∧ (m = "" ∨ m = "validation failed without message"))) ∧
    (∀ (m : String) (es : List FieldMessages),
      validationText m es ≠ "" ∧
      (es = [] → m ≠ "" → validationText m es = m) ∧
      (es ≠ [] → validationText m es =
        m ++ String.join
          (es.map (fun e => " " ++ e.Field ++ ": " ++ fmtStrings e.Messages ++ ";"))) ∧
      (validationText m es = "validation failed without message" ↔
        es = [] ∧ (m = "" ∨ m = "validation failed without message"))) := by
  refine ⟨?_, ?_, ?_⟩
  · refine ⟨?_, ?_, ?_, ?_, ?_, ?_, ?_, ?_, ?_⟩
    · intro d client p hi h ht
      rw [create_validation d client p hi h ht,
        List.map_singleton, (summary_of_errorf quote _).1, createValidationMessage_eq]
    · intro di client p h ht
      rw [immutable_create_validation di client p h ht,
        List.map_singleton, (summary_of_errorf quote _).2.1, immutableCreateValidationMessage_eq]
    · intro dc client p h ht
      rw [caas_create_validation dc client p h ht,
        List.map_singleton, (summary_of_errorf quote _).2.2.1, formatValidationMessage_eq]
    · intro d client p hs ht h hp
      rw [update_resize_validation d client p hs ht h hp,
        List.map_singleton, (summary_of_errorf quote _).2.2.2.1, taskValidationMessage_eq]
    · intro d client p hs ht h hp
      rw [update_tier_validation d client p hs ht h hp,
        List.map_singleton, (summary_of_errorf quote _).2.2.2.2.1, taskValidationMessage_eq]
    · intro di client p hs ht h hp
      rw [immutable_update_resize_validation di client p hs ht h hp,
        List.map_singleton, (summary_of_errorf quote _).2.2.2.1, immutableTaskValidationMessage_eq]
    · intro di client p hs ht h hp
      rw [immutable_update_tier_validation di client p hs ht h hp,
        List.map_singleton, (summary_of_errorf quote _).2.2.2.2.1, immutableTaskValidationMessage_eq]
    · intro dc client p hc h ht
      rw [caas_update_validation dc client p hc h ht,
        List.map_singleton, (summary_of_errorf quote _).2.2.2.2.2.1, formatValidationMessage_eq]
    · intro dc client p h ht
      rw [caas_delete_validation dc client p h ht,
        List.map_singleton, (summary_of_errorf quote _).2.2.2.2.2.2, formatValidationMessage_eq]
  · intro m es
    have hf := createValidationText_facts m es
    refine ⟨hf.1, ?_, ?_, hf.2.2⟩
    · intro he hm
      unfold createValidationText
      rw [if_pos he, if_neg hm]
    · intro he
      unfold createValidationText
      rw [if_neg he]
      rfl
  · intro m es
    have hf := validationText_facts m es
    refine ⟨hf.1, ?_, ?_, hf.2.2⟩
    · intro he hm
      unfold validationText
      rw [if_pos he, if_neg hm]
    · intro he
      unfold validationText
      rw [if_neg he]
      rfl

/-- Witness of C15 (amended): `ValidationErrors` with the message `invalid input` and two field
errors, returned to the standard create, to the resize of a standard update by a backend that
answers no other call, and to the shadow delete. -/
theorem validation_failure_text_witness :
    (testAttrs.interfaces ≠ [] ∧ sizingChanged resizeData = true ∧
      tierChanged resizeData = false) ∧
    ((ResourceVirtualHostCreate ⟨"", testAttrs, []⟩ validationClient).diags.map
        (Diag.Summary plainQuote) =
      ["virtualHostCreate: " ++ createValidationText "invalid input" testFieldErrors]) ∧
    createValidationText "invalid input" testFieldErrors =
      "invalid input (hostname: [too long bad chars]; cpuCount: [must be positive]; )" ∧
    ((ResourceVirtualHostUpdate resizeData resizeValidationClient).diags.map
        (Diag.Summary plainQuote) =
      ["virtualHostResize: " ++ validationText "invalid input" testFieldErrors]) ∧
    validationText "invalid input" testFieldErrors =
      "invalid input hostname: [too long bad chars]; cpuCount: [must be positive];" ∧
    ((resourceVirtualHostCaasDelete ⟨"vh-1", testCaasAttrs, []⟩ validationClient).diags.map
        (Diag.Summary plainQuote) =
      ["virtualHostDeleteCaas: " ++ validationText "invalid input" testFieldErrors]) :=
  have h := (validation_failure_text plainQuote).1
  ⟨⟨by decide, by decide, by decide⟩,
    h.1 ⟨"", testAttrs, []⟩ validationClient
      { Typename := "ValidationErrors", VirtualHost := none, Message := "invalid input",
        Errors := testFieldErrors, Reasons := [] } (by decide) rfl rfl,
    by decide,
    h.2.2.2.1 resizeData resizeValidationClient
      { Typename := "ValidationErrors", Message := "invalid input", Errors := testFieldErrors,
        Reasons := [] } (by decide) (by decide) rfl rfl,
    by decide,
    h.2.2.2.2.2.2.2.2 ⟨"vh-1", testCaasAttrs, []⟩ validationClient
      { caasPayloadOf "ValidationErrors" with
        Message := "invalid input", Errors := testFieldErrors } rfl rfl⟩


/-! ### C16: reason codes of `OperationUnavailable` -/

/-- C16 (evaluation at the failing input). The create mutation is answered with
`OperationUnavailable`, the message `maintenance` and the reason codes `QUOTA_EXCEEDED` and
`MAINTENANCE`: the error text of `ResourceVirtualHostCreate` and of
`ResourceVirtualHostImmutableCreate` is the prefix and the message only, and no reason code
occurs in it; the same answer given to resize, tier update and the shadow create, update and
delete is reported with the reason codes in parentheses. -/
theorem create_drops_reason_codes :
    (ResourceVirtualHostCreate ⟨"", testAttrs, []⟩ unavailableClient).diags.map
        (Diag.Summary plainQuote) = ["virtualHostCreate: maintenance"] ∧
    occursIn "QUOTA_EXCEEDED" "virtualHostCreate: maintenance" = false ∧
    occursIn "MAINTENANCE" "virtualHostCreate: maintenance" = false ∧
    (ResourceVirtualHostImmutableCreate ⟨"", testImmutableAttrs, []⟩ unavailableClient).diags.map
        (Diag.Summary plainQuote) = ["virtualHostCreateImmutable: maintenance"] ∧
    (ResourceVirtualHostUpdate resizeData unavailableClient).diags.map
        (Diag.Summary plainQuote) =
      ["virtualHostResize: maintenance (reasons=[QUOTA_EXCEEDED MAINTENANCE])"] ∧
    (ResourceVirtualHostUpdate retierData unavailableClient).diags.map
        (Diag.Summary plainQuote) =
      ["virtualHostUpdateTier: maintenance (reasons=[QUOTA_EXCEEDED MAINTENANCE])"] ∧
    (resourceVirtualHostCaasCreate ⟨"", testCaasAttrs, []⟩ unavailableClient).diags.map
        (Diag.Summary plainQuote) =
      ["virtualHostCreateCaas: maintenance (reasons=[QUOTA_EXCEEDED MAINTENANCE])"] ∧
    (resourceVirtualHostCaasUpdate caasNoteData unavailableClient).diags.map
        (Diag.Summary plainQuote) =
      ["virtualHostUpdateCaas: maintenance (reasons=[QUOTA_EXCEEDED MAINTENANCE])"] ∧
    (resourceVirtualHostCaasDelete ⟨"vh-1", testCaasAttrs, []⟩ unavailableClient).diags.map
        (Diag.Summary plainQuote) =
      ["virtualHostDeleteCaas: maintenance (reasons=[QUOTA_EXCEEDED MAINTENANCE])"] := by
  refine ⟨?_, ?_, ?_, ?_, ?_, ?_, ?_, ?_, ?_⟩ <;> decide


/-! ### C17: the executor surfaces the first error only -/

/-- C17. When the response envelope decodes and its `errors` list is `first :: rest`,
`Client.Do` returns the error `graphql error: ` followed by the message of `first`, whatever
`rest` and the `data` field are, and the destination keeps the content it had (`json.Unmarshal`
is not reached). -/
theorem do_surfaces_first_error {δ : Type} (w : Wire δ) (into : Option δ)
    (reqBody req body : String) (resp : gqlResponse) (first : gqlError) (rest : List gqlError)
    (hm : w.Marshal = .ok reqBody) (hn : w.NewRequest reqBody = .ok req)
    (hh : w.HttpDo req = .ok body) (hd : w.Decode body = .ok resp)
    (he : resp.Errors = first :: rest) :
    (Client.Do w into).err = some ("graphql error: " ++ first.Message) ∧
    (Client.Do w into).into = into ∧
    (∀ (data : String) (others : List gqlError) (w2 : Wire δ),
      w2.Marshal = .ok reqBody → w2.NewRequest reqBody = .ok req → w2.HttpDo req = .ok body →
      w2.Decode body = .ok { Data := data, Errors := first :: others } →
      Client.Do w2 into = Client.Do w into) := by
  have hdo : ∀ (v : Wire δ) (r : gqlResponse) (tl : List gqlError),
      v.Marshal = .ok reqBody → v.NewRequest reqBody = .ok req → v.HttpDo req = .ok body →
      v.Decode body = .ok r → r.Errors = first :: tl →
      Client.Do v into = ⟨some ("graphql error: " ++ first.Message), into⟩ := by
    intro v r tl h1 h2 h3 h4 h5
    unfold Client.Do
    simp only [h1, h2, h3, h4, h5]
  rw [hdo w resp rest hm hn hh hd he]
  refine ⟨rfl, rfl, ?_⟩
  intro data others w2 h1 h2 h3 h4
  exact hdo w2 _ others h1 h2 h3 h4 rfl

/-- Witness of C17: two errors and a non-empty `data`; the error is built from the first
message and the destination keeps `old`. -/
theorem do_surfaces_first_error_witness :
    (twoErrorsWire.Decode "response" = .ok twoErrorsResponse ∧
      twoErrorsResponse.Errors =
        { Message := "permission denied" } :: [{ Message := "second error" }]) ∧
    (Client.Do twoErrorsWire (some "old")).err = some "graphql error: permission denied" ∧
    (Client.Do twoErrorsWire (some "old")).into = some "old" :=
  have h := do_surfaces_first_error twoErrorsWire (some "old") "request" "request" "response"
    twoErrorsResponse { Message := "permission denied" } [{ Message := "second error" }]
    rfl rfl rfl rfl rfl
  ⟨⟨rfl, rfl⟩, h.1, h.2.1⟩


/-! ### C18: an empty change set is a read -/

/-- C18. When none of `cpu_count`, `cores_per_socket`, `memory_size_gb` and `tier_id` changed,
whatever else changed, `ResourceVirtualHostUpdate` is `ResourceVirtualHostRead` on the same data
and backend (same resource data, diagnostics and requests), it sends the one `queryGetVM` request
and no mutation; likewise `ResourceVirtualHostImmutableUpdate` and
`ResourceVirtualHostImmutableRead`. -/
theorem empty_change_set_is_read
    (d : ResourceData VirtualHostAttrs) (di : ResourceData VirtualHostImmutableAttrs)
    (client : Client)
    (hd : d.HasChange "cpu_count" = false ∧ d.HasChange "cores_per_socket" = false ∧
      d.HasChange "memory_size_gb" = false ∧ d.HasChange "tier_id" = false)
    (hdi : di.HasChange "cpu_count" = false ∧ di.HasChange "cores_per_socket" = false ∧
      di.HasChange "memory_size_gb" = false ∧ di.HasChange "tier_id" = false) :
    (ResourceVirtualHostUpdate d client = ResourceVirtualHostRead d client ∧
      (ResourceVirtualHostUpdate d client).requests = [Request.queryGetVM d.Id]) ∧
    (ResourceVirtualHostImmutableUpdate di client = ResourceVirtualHostImmutableRead di client ∧
      (ResourceVirtualHostImmutableUpdate di client).requests = [Request.queryGetVM di.Id]) := by
  have hs : sizingChanged d = false := by
    unfold sizingChanged
    rw [hd.1, hd.2.1, hd.2.2.1]
    rfl
  have hsi : sizingChanged di = false := by
    unfold sizingChanged
    rw [hdi.1, hdi.2.1, hdi.2.2.1]
    rfl
  rw [update_no_change d client hs hd.2.2.2, immutable_update_no_change di client hsi hdi.2.2.2]
  exact ⟨⟨rfl, read_requests d client⟩, ⟨rfl, immutable_read_requests di client⟩⟩

/-- Witness of C18: hostname, note, domain, policy, interfaces and region changed, no watched
field did. -/
theorem empty_change_set_is_read_witness :
    (otherFieldsData.HasChange "hostname" = true ∧
      otherFieldsData.HasChange "cpu_count" = false ∧
      otherFieldsData.HasChange "tier_id" = false) ∧
    (ResourceVirtualHostUpdate otherFieldsData (nodeClient testNode) =
        ResourceVirtualHostRead otherFieldsData (nodeClient testNode) ∧
      (ResourceVirtualHostUpdate otherFieldsData (nodeClient testNode)).requests =
        [Request.queryGetVM "vh-1"]) ∧
    (ResourceVirtualHostImmutableUpdate otherFieldsImmutableData (nodeClient testNode) =
        ResourceVirtualHostImmutableRead otherFieldsImmutableData (nodeClient testNode) ∧
      (ResourceVirtualHostImmutableUpdate otherFieldsImmutableData
        (nodeClient testNode)).requests = [Request.queryGetVM "vh-immutable-1"]) :=
  ⟨⟨by decide, by decide, by decide⟩,
    empty_change_set_is_read otherFieldsData otherFieldsImmutableData (nodeClient testNode)
      ⟨by decide, by decide, by decide, by decide⟩
      ⟨by decide, by decide, by decide, by decide⟩⟩


/-! ### C19: the inputs of the update mutations -/

/-- C19. When only sizing fields changed, the first request of `ResourceVirtualHostUpdate` is
the resize mutation, and its input has `virtualHost` equal to the identifier, `allowRestart`
equal to the local `allow_resize_restart`, and `cpuCount`, `coresPerSocket`, `memorySizeGB`
present exactly when `cpu_count`, `cores_per_socket`, `memory_size_gb` changed, each with the
desired value (the input has no other key). When only `tier_id` changed, the first request is
the tier-update mutation whose input is exactly `virtualHost`, the identifier, and `tier`, the
desired `tier_id`. -/
theorem update_inputs_are_minimal (client : Client)
    (d e : ResourceData VirtualHostAttrs)
    (hd : sizingChanged d = true ∧ tierChanged d = false)
    (he : sizingChanged e = false ∧ tierChanged e = true) :
    (∃ i : VirtualHostResizeInput,
      (ResourceVirtualHostUpdate d client).requests.head? = some (Request.mutationResizeVm i) ∧
      i.virtualHost = d.Id ∧
      i.allowRestart = d.attrs.allow_resize_restart ∧
      (i.cpuCount.isSome = d.HasChange "cpu_count" ∧
        (d.HasChange "cpu_count" = true → i.cpuCount = some d.attrs.cpu_count)) ∧
      (i.coresPerSocket.isSome = d.HasChange "cores_per_socket" ∧
        (d.HasChange "cores_per_socket" = true →
          i.coresPerSocket = some d.attrs.cores_per_socket)) ∧
      (i.memorySizeGB.isSome = d.HasChange "memory_size_gb" ∧
        (d.HasChange "memory_size_gb" = true →
          i.memorySizeGB = some d.attrs.memory_size_gb))) ∧
    (ResourceVirtualHostUpdate e client).requests.head? =
      some (Request.mutationUpdateVmTier { virtualHost := e.Id, tier := e.attrs.tier_id }) := by
  constructor
  · refine ⟨resizeInput d, ?_, rfl, rfl, ?_, ?_, ?_⟩
    · rw [update_sizing_only d client hd.1 hd.2]
      have hr := resizeBlock_requests d client
      rcases hb : resizeBlock d client with ⟨_ | ds, sent⟩ <;> simp [hb] at hr ⊢ <;> simp [hr]
    · unfold resizeInput
      rcases d.HasChange "cpu_count" <;> simp
    · unfold resizeInput
      rcases d.HasChange "cores_per_socket" <;> simp
    · unfold resizeInput
      rcases d.HasChange "memory_size_gb" <;> simp
  · rw [update_tier_only e client he.1 he.2]
    have hr := updateTierBlock_requests e client
    have hin : updateTierInput e = { virtualHost := e.Id, tier := e.attrs.tier_id } := rfl
    rw [hin] at hr
    rcases hb : updateTierBlock e client with ⟨_ | ds, sent⟩ <;> simp [hb] at hr ⊢ <;> simp [hr]

/-- Witness of C19: only `cpu_count` changed (to 2), then only `tier_id` changed. -/
theorem update_inputs_are_minimal_witness :
    (sizingChanged resizeData = true ∧ tierChanged resizeData = false ∧
      sizingChanged retierData = false ∧ tierChanged retierData = true) ∧
    (ResourceVirtualHostUpdate resizeData downClient).requests.head? =
      some (Request.mutationResizeVm
        { virtualHost := "vh-1", allowRestart := true, cpuCount := some 2,
          coresPerSocket := none, memorySizeGB := none }) ∧
    (ResourceVirtualHostUpdate retierData downClient).requests.head? =
      some (Request.mutationUpdateVmTier { virtualHost := "vh-1", tier := "tier-1" }) :=
  have h := update_inputs_are_minimal downClient resizeData retierData
    ⟨by decide, by decide⟩ ⟨by decide, by decide⟩
  ⟨⟨by decide, by decide, by decide, by decide⟩, by decide, h.2⟩

/-! ### C20: the standard create requires an interface -/

/-- C20. When the declared interfaces list is empty, `ResourceVirtualHostCreate` returns the
error `at least 1 interfaces block is required`, sends no request and leaves the resource data
as it was, so that an empty identifier stays empty. -/
theorem create_requires_interface (quote : String → String)
    (d : ResourceData VirtualHostAttrs) (client : Client)
    (hi : d.attrs.interfaces = []) :
    (ResourceVirtualHostCreate d client).diags.map (Diag.Summary quote) =
      ["at least 1 interfaces block is required"] ∧
    (ResourceVirtualHostCreate d client).requests = [] ∧
    (ResourceVirtualHostCreate d client).d = d ∧
    (d.Id = "" → (ResourceVirtualHostCreate d client).d.Id = "") := by
  have hc : ResourceVirtualHostCreate d client =
      ⟨d, [Diag.errorf "at least 1 interfaces block is required" []], []⟩ := by
    unfold ResourceVirtualHostCreate
    rw [hi]
    rfl
  rw [hc]
  exact ⟨rfl, rfl, rfl, fun h => h⟩

/-- Witness of C20: the configuration of the tests with the interfaces removed, against a
backend that would accept the create. -/
theorem create_requires_interface_witness :
    testAttrsNoInterfaces.interfaces = [] ∧
    (ResourceVirtualHostCreate ⟨"", testAttrsNoInterfaces, []⟩ echoClient).diags.map
        (Diag.Summary plainQuote) = ["at least 1 interfaces block is required"] ∧
    (ResourceVirtualHostCreate ⟨"", testAttrsNoInterfaces, []⟩ echoClient).requests = [] ∧
    (ResourceVirtualHostCreate ⟨"", testAttrsNoInterfaces, []⟩ echoClient).d.Id = "" :=
  have h := create_requires_interface plainQuote ⟨"", testAttrsNoInterfaces, []⟩ echoClient rfl
  ⟨rfl, h.1, h.2.1, h.2.2.2 rfl⟩


/-! ### C21: interface translation on create -/

/-- C21. When an interface is declared, the one request of `ResourceVirtualHostCreate` is the
create mutation, and its `interfaceList` has one input object per declared interface, in
declaration order: `network` is the declared `network_id`, `autoAssignIp` the declared flag,
`ipList` is the single-element list of the declared `ip` when that is non-empty, and is absent
when the `ip` is empty or not set. -/
theorem create_translates_interfaces (d : ResourceData VirtualHostAttrs) (client : Client)
    (hi : d.attrs.interfaces ≠ []) :
    (ResourceVirtualHostCreate d client).requests =
      [Request.mutationCreateVM (virtualHostCreateInput d)] ∧
    (virtualHostCreateInput d).interfaceList.length = d.attrs.interfaces.length ∧
    ∀ (i : Nat) (m : Interface), d.attrs.interfaces[i]? = some m →
      ∃ o : TemplateInterfaceInput, (virtualHostCreateInput d).interfaceList[i]? = some o ∧
        o.network = m.network_id ∧
        o.autoAssignIp = m.auto_assign_ip ∧
        (∀ ip : String, m.ip = some ip → ip ≠ "" → o.ipList = some [ip]) ∧
        (m.ip = none ∨ m.ip = some "" → o.ipList = none) := by
  refine ⟨create_requests d client hi, ?_, ?_⟩
  · unfold virtualHostCreateInput
    exact List.length_map _ _
  · intro i m hm
    refine ⟨templateInterfaceInput m, ?_, rfl, rfl, ?_, ?_⟩
    · unfold virtualHostCreateInput
      rw [List.getElem?_map, hm]
      rfl
    · intro ip hip hne
      unfold templateInterfaceInput
      rw [hip]
      simp [hne]
    · intro h
      unfold templateInterfaceInput
      rcases h with h | h
      · rw [h]
      · rw [h]
        simp

/-- Witness of C21: three declared interfaces, the second with the address `192.0.2.20`. -/
theorem create_translates_interfaces_witness :
    threeInterfacesAttrs.interfaces ≠ [] ∧
    (ResourceVirtualHostCreate ⟨"", threeInterfacesAttrs, []⟩ downClient).requests =
      [Request.mutationCreateVM (virtualHostCreateInput ⟨"", threeInterfacesAttrs, []⟩)] ∧
    (virtualHostCreateInput ⟨"", threeInterfacesAttrs, []⟩).interfaceList =
      [{ network := "net-1", autoAssignIp := some true, ipList := none },
       { network := "net-2", autoAssignIp := some false, ipList := some ["192.0.2.20"] },
       { network := "net-3", autoAssignIp := some true, ipList := none }] :=
  ⟨by decide,
    (create_translates_interfaces ⟨"", threeInterfacesAttrs, []⟩ downClient (by decide)).1,
    by decide⟩


/-! ### C22: create adopts the returned object -/

/-- A successful `ResourceVirtualHostCreate` had a `VirtualHostCreated` payload with an object,
and stored that object. -/
theorem create_success (d : ResourceData VirtualHostAttrs) (client : Client)
    (h : (ResourceVirtualHostCreate d client).diags = []) :
    ∃ (p : VirtualHostCreatePayload) (vm : VirtualHost),
      client.CreateVm (virtualHostCreateInput d) = .ok p ∧
      p.Typename = "VirtualHostCreated" ∧ p.VirtualHost = some vm ∧
      (ResourceVirtualHostCreate d client).d.id = vm.ID ∧
      (ResourceVirtualHostCreate d client).d.attrs =
        { d.attrs with
          uuid := vm.UUID
          hostname := vm.Hostname
          cpu_count := vm.CpuCount
          cores_per_socket := vm.CoresPerSocket
          memory_size_gb := vm.MemorySizeMB.tdiv 1024
          status := vm.State
          project_id := vm.Project
          customer_id := vm.Customer
          domain_id := vm.Domain
          tier_id := vm.Tier
          template_id := vm.Template
          region := vm.Region } := by
  unfold ResourceVirtualHostCreate at h ⊢
  dsimp only at h ⊢
  by_cases hlen : d.attrs.interfaces.length = 0
  · rw [if_pos hlen] at h
    exact absurd h (by simp)
  · rw [if_neg hlen] at h ⊢
    rcases hc : client.CreateVm (virtualHostCreateInput d) with err | p
    · rw [hc] at h
      exact absurd h (by simp)
    · rw [hc] at h
      by_cases ht : p.Typename = "VirtualHostCreated"
      · rcases hv : p.VirtualHost with _ | vm
        · simp [ht, hv] at h
        · refine ⟨p, vm, rfl, ht, hv, ?_, ?_⟩ <;> simp [ht, hv, ResourceData.SetId]
      · exfalso
        simp only [if_neg ht] at h
        split_ifs at h


/-- A successful `ResourceVirtualHostImmutableCreate` had a `VirtualHostCreated` payload with an
object, and stored that object. -/
theorem immutable_create_success (d : ResourceData VirtualHostImmutableAttrs) (client : Client)
    (h : (ResourceVirtualHostImmutableCreate d client).diags = []) :
    ∃ (p : VirtualHostCreatePayload) (vm : VirtualHost),
      client.CreateVmImmutable (virtualHostCreateImmutableInput d) = .ok p ∧
      p.Typename = "VirtualHostCreated" ∧ p.VirtualHost = some vm ∧
      (ResourceVirtualHostImmutableCreate d client).d.id = vm.ID ∧
      (ResourceVirtualHostImmutableCreate d client).d.attrs.uuid = vm.UUID ∧
      (ResourceVirtualHostImmutableCreate d client).d.attrs.hostname = vm.Hostname ∧
      (ResourceVirtualHostImmutableCreate d client).d.attrs.status = vm.State ∧
      (ResourceVirtualHostImmutableCreate d client).d.attrs.cpu_count = vm.CpuCount ∧
      (ResourceVirtualHostImmutableCreate d client).d.attrs.cores_per_socket =
        vm.CoresPerSocket ∧
      (ResourceVirtualHostImmutableCreate d client).d.attrs.memory_size_gb =
        vm.MemorySizeMB.tdiv 1024 ∧
      (ResourceVirtualHostImmutableCreate d client).d.attrs.tier_id = vm.Tier ∧
      (ResourceVirtualHostImmutableCreate d client).d.attrs.template_id = vm.Template ∧
      (ResourceVirtualHostImmutableCreate d client).d.attrs.project_id = vm.Project ∧
      (ResourceVirtualHostImmutableCreate d client).d.attrs.customer_id = vm.Customer ∧
      (ResourceVirtualHostImmutableCreate d client).d.attrs.region = vm.Region := by
  unfold ResourceVirtualHostImmutableCreate at h ⊢
  dsimp only at h ⊢
  rcases hc : client.CreateVmImmutable (virtualHostCreateImmutableInput d) with err | p
  · rw [hc] at h
    exact absurd h (by simp)
  · rw [hc] at h
    by_cases ht : p.Typename = "VirtualHostCreated"
    · rcases hv : p.VirtualHost with _ | vm
      · simp [ht, hv] at h
      · refine ⟨p, vm, rfl, ht, hv, ?_⟩
        simp [ht, hv, ResourceData.SetId]
    · exfalso
      simp only [if_neg ht] at h
      split_ifs at h

/-- A successful `resourceVirtualHostCaasCreate` had a `VirtualHostNode` payload with a
non-empty id, and stored its fields. -/
theorem caas_create_success (d : ResourceData VirtualHostCaasAttrs) (client : Client)
    (h : (resourceVirtualHostCaasCreate d client).diags = []) :
    ∃ p : caasPayload,
      client.CreateVirtualHostCaas (virtualHostCreateCaasInput d) = .ok p ∧
      p.Typename = "VirtualHostNode" ∧ p.ID ≠ "" ∧
      (resourceVirtualHostCaasCreate d client).d.id = p.ID ∧
      (resourceVirtualHostCaasCreate d client).d.attrs =
        { d.attrs with
          uuid := p.UUID
          hostname := p.Hostname
          note := p.Note
          status := p.State
          region := p.Region
          tier_id := p.Tier
          project_id := p.Project
          customer_id := p.Customer
          vcenter_id := p.Vcenter } := by
  unfold resourceVirtualHostCaasCreate at h ⊢
  dsimp only at h ⊢
  rcases hc : client.CreateVirtualHostCaas (virtualHostCreateCaasInput d) with err | p
  · rw [hc] at h
    exact absurd h (by simp)
  · rw [hc] at h
    by_cases ht : p.Typename = "VirtualHostNode"
    · by_cases hv : p.ID = ""
      · simp [ht, hv] at h
      · refine ⟨p, rfl, ht, hv, ?_, ?_⟩ <;> simp [ht, hv, ResourceData.SetId]
    · exfalso
      simp only [if_neg ht] at h
      split_ifs at h


/-- C22. For each variant on its own, for every resource data and every backend: whenever the
create returns no error, the backend answered the success payload with its object, the
identifier is the `id` of that object, and the state fields `uuid`, `hostname`, `status`,
`cpu_count`, `cores_per_socket`, `tier_id`, `project_id`, `customer_id`, `region` and
`template_id` (and `domain_id` in the standard variant) are the returned values, with
`memory_size_gb` the returned `memorySizeMB` divided by 1024: standard and immutable variant.
For the shadow variant, whose schema has no sizing fields, the identifier is the returned `id`
and `uuid`, `hostname`, `note`, `status`, `region`, `tier_id`, `project_id`, `customer_id` and
`vcenter_id` are the returned values. Nothing is assumed about the creates of the other
variants. -/
theorem create_adopts_returned_object :
    (∀ (d : ResourceData VirtualHostAttrs) (client : Client),
      (ResourceVirtualHostCreate d client).diags = [] →
      ∃ (p : VirtualHostCreatePayload) (vm : VirtualHost),
        client.CreateVm (virtualHostCreateInput d) = .ok p ∧ p.VirtualHost = some vm ∧
        (ResourceVirtualHostCreate d client).d.Id = vm.ID ∧
        (ResourceVirtualHostCreate d client).d.attrs.uuid = vm.UUID ∧
        (ResourceVirtualHostCreate d client).d.attrs.hostname = vm.Hostname ∧
        (ResourceVirtualHostCreate d client).d.attrs.status = vm.State ∧
        (ResourceVirtualHostCreate d client).d.attrs.cpu_count = vm.CpuCount ∧
        (ResourceVirtualHostCreate d client).d.attrs.cores_per_socket = vm.CoresPerSocket ∧
        (ResourceVirtualHostCreate d client).d.attrs.memory_size_gb =
          vm.MemorySizeMB.tdiv 1024 ∧
        (ResourceVirtualHostCreate d client).d.attrs.tier_id = vm.Tier ∧
        (ResourceVirtualHostCreate d client).d.attrs.project_id = vm.Project ∧
        (ResourceVirtualHostCreate d client).d.attrs.customer_id = vm.Customer ∧
        (ResourceVirtualHostCreate d client).d.attrs.region = vm.Region ∧
        (ResourceVirtualHostCreate d client).d.attrs.template_id = vm.Template ∧
        (ResourceVirtualHostCreate d client).d.attrs.domain_id = vm.Domain) ∧
    (∀ (di : ResourceData VirtualHostImmutableAttrs) (client : Client),
      (ResourceVirtualHostImmutableCreate di client).diags = [] →
      ∃ (p : VirtualHostCreatePayload) (vm : VirtualHost),
        client.CreateVmImmutable (virtualHostCreateImmutableInput di) = .ok p ∧
        p.VirtualHost = some vm ∧
        (ResourceVirtualHostImmutableCreate di client).d.Id = vm.ID ∧
        (ResourceVirtualHostImmutableCreate di client).d.attrs.uuid = vm.UUID ∧
        (ResourceVirtualHostImmutableCreate di client).d.attrs.hostname = vm.Hostname ∧
        (ResourceVirtualHostImmutableCreate di client).d.attrs.status = vm.State ∧
        (ResourceVirtualHostImmutableCreate di client).d.attrs.cpu_count = vm.CpuCount ∧
        (ResourceVirtualHostImmutableCreate di client).d.attrs.cores_per_socket =
          vm.CoresPerSocket ∧
        (ResourceVirtualHostImmutableCreate di client).d.attrs.memory_size_gb =
          vm.MemorySizeMB.tdiv 1024 ∧
        (ResourceVirtualHostImmutableCreate di client).d.attrs.tier_id = vm.Tier ∧
        (ResourceVirtualHostImmutableCreate di client).d.attrs.project_id = vm.Project ∧
        (ResourceVirtualHostImmutableCreate di client).d.attrs.customer_id = vm.Customer ∧
        (ResourceVirtualHostImmutableCreate di client).d.attrs.region = vm.Region ∧
        (ResourceVirtualHostImmutableCreate di client).d.attrs.template_id = vm.Template) ∧
    (∀ (dc : ResourceData VirtualHostCaasAttrs) (client : Client),
      (resourceVirtualHostCaasCreate dc client).diags = [] →
      ∃ p : caasPayload,
        client.CreateVirtualHostCaas (virtualHostCreateCaasInput dc) = .ok p ∧
        (resourceVirtualHostCaasCreate dc client).d.Id = p.ID ∧
        (resourceVirtualHostCaasCreate dc client).d.attrs.uuid = p.UUID ∧
        (resourceVirtualHostCaasCreate dc client).d.attrs.hostname = p.Hostname ∧
        (resourceVirtualHostCaasCreate dc client).d.attrs.status = p.State ∧
        (resourceVirtualHostCaasCreate dc client).d.attrs.tier_id = p.Tier ∧
        (resourceVirtualHostCaasCreate dc client).d.attrs.project_id = p.Project ∧
        (resourceVirtualHostCaasCreate dc client).d.attrs.customer_id = p.Customer ∧
        (resourceVirtualHostCaasCreate dc client).d.attrs.region = p.Region ∧
        (resourceVirtualHostCaasCreate dc client).d.attrs.vcenter_id = p.Vcenter ∧
        (resourceVirtualHostCaasCreate dc client).d.attrs.note = p.Note) := by
  refine ⟨?_, ?_, ?_⟩
  · intro d client h
    obtain ⟨p, vm, h1, _, h3, h4, h5⟩ := create_success d client h
    refine ⟨p, vm, h1, h3, h4, ?_⟩
    rw [h5]
    exact ⟨rfl, rfl, rfl, rfl, rfl, rfl, rfl, rfl, rfl, rfl, rfl, rfl⟩
  · intro di client hi
    obtain ⟨p, vm, h1, _, h3, h4, h5, h6, h7, h8, h9, h10, h11, h12, h13, h14, h15⟩ :=
      immutable_create_success di client hi
    exact ⟨p, vm, h1, h3, h4, h5, h6, h7, h8, h9, h10, h11, h13, h14, h15, h12⟩
  · intro dc client hc
    obtain ⟨p, h1, _, _, h4, h5⟩ := caas_create_success dc client hc
    refine ⟨p, h1, h4, ?_⟩
    rw [h5]
    exact ⟨rfl, rfl, rfl, rfl, rfl, rfl, rfl, rfl, rfl⟩

/-- Witness of C22: the standard and the shadow create test, each against a backend that
answers that one mutation only; the identifier is `vh-1`, the status `ACTIVE`, the customer
`customer-1`. -/
theorem create_adopts_returned_object_witness :
    ((ResourceVirtualHostCreate ⟨"", testAttrs, []⟩ standardCreatedClient).diags = [] ∧
      (resourceVirtualHostCaasCreate ⟨"", testCaasAttrs, []⟩ caasCreatedClient).diags = []) ∧
    (∃ (p : VirtualHostCreatePayload) (vm : VirtualHost),
      standardCreatedClient.CreateVm (virtualHostCreateInput ⟨"", testAttrs, []⟩) = .ok p ∧
      p.VirtualHost = some vm ∧
      (ResourceVirtualHostCreate ⟨"", testAttrs, []⟩ standardCreatedClient).d.Id = vm.ID ∧
      (ResourceVirtualHostCreate ⟨"", testAttrs, []⟩ standardCreatedClient).d.attrs.status
        = vm.State) ∧
    (∃ p : caasPayload,
      caasCreatedClient.CreateVirtualHostCaas (virtualHostCreateCaasInput ⟨"", testCaasAttrs, []⟩)
        = .ok p ∧
      (resourceVirtualHostCaasCreate ⟨"", testCaasAttrs, []⟩ caasCreatedClient).d.Id = p.ID ∧
      (resourceVirtualHostCaasCreate ⟨"", testCaasAttrs, []⟩
        caasCreatedClient).d.attrs.customer_id = p.Customer) ∧
    ((ResourceVirtualHostCreate ⟨"", testAttrs, []⟩ standardCreatedClient).d.Id = "vh-1" ∧
      (ResourceVirtualHostCreate ⟨"", testAttrs, []⟩ standardCreatedClient).d.attrs.status
        = "ACTIVE" ∧
      (ResourceVirtualHostCreate ⟨"", testAttrs, []⟩
        standardCreatedClient).d.attrs.memory_size_gb = 8 ∧
      (resourceVirtualHostCaasCreate ⟨"", testCaasAttrs, []⟩ caasCreatedClient).d.Id = "vh-1" ∧
      (resourceVirtualHostCaasCreate ⟨"", testCaasAttrs, []⟩
        caasCreatedClient).d.attrs.customer_id = "customer-1") :=
  have hs := create_adopts_returned_object.1 ⟨"", testAttrs, []⟩ standardCreatedClient rfl
  have hc := create_adopts_returned_object.2.2 ⟨"", testCaasAttrs, []⟩ caasCreatedClient rfl
  ⟨⟨rfl, rfl⟩,
    (match hs with
      | ⟨p, vm, h1, h2, h3, _, _, h6, _⟩ => ⟨p, vm, h1, h2, h3, h6⟩),
    (match hc with
      | ⟨p, h1, h2, _, _, _, _, _, h8, _⟩ => ⟨p, h1, h2, h8⟩),
    ⟨rfl, rfl, rfl, rfl, rfl⟩⟩


/-! ### C23: what a read refreshes -/

/-- C23 (counterexample). The local state holds the policy `policy-old` and the backend returns
an object whose `dataProtectionPolicy` is null: after `ResourceVirtualHostRead` the other
scalars are the reported ones, but `data_protection_policy` still is `policy-old`. -/
theorem read_keeps_policy_when_backend_reports_none :
    nullPolicyNode.DataProtectionPolicy = none ∧
    (ResourceVirtualHostRead ⟨"vh-1", oldPolicyAttrs, []⟩ (nodeClient nullPolicyNode)).diags
      = [] ∧
    (ResourceVirtualHostRead ⟨"vh-1", oldPolicyAttrs, []⟩
      (nodeClient nullPolicyNode)).d.attrs.hostname = "app-2" ∧
    (ResourceVirtualHostRead ⟨"vh-1", oldPolicyAttrs, []⟩
      (nodeClient nullPolicyNode)).d.attrs.data_protection_policy = "policy-old" := by
  refine ⟨rfl, rfl, rfl, rfl⟩

/-- What `ResourceVirtualHostRead` leaves when the backend returns an object. -/
theorem read_of_object (d : ResourceData VirtualHostAttrs) (client : Client)
    (vh : VirtualHostNode) (h : client.GetVm d.Id = .ok (some vh)) :
    ResourceVirtualHostRead d client =
      ⟨{ d with attrs := { d.attrs with
          uuid := vh.UUID
          hostname := vh.Hostname
          status := vh.State
          cpu_count := vh.CpuCount
          cores_per_socket := vh.CoresPerSocket
          memory_size_gb := vh.MemorySizeMB.tdiv 1024
          note := vh.Note
          data_protection_policy :=
            match vh.DataProtectionPolicy with
            | some id => id
            | none => d.attrs.data_protection_policy
          tier_id := vh.Tier
          domain_id := vh.Domain
          template_id := vh.Template
          project_id := vh.Project
          customer_id := vh.Customer
          region := vh.Region
          interfaces :=
            if d.attrs.interfaces.length = 0 then
              vh.NetworkInterfaceList.map interfaceOfNetworkInterface
            else d.attrs.interfaces } },
        [], [Request.queryGetVM d.Id]⟩ := by
  unfold ResourceVirtualHostRead
  rw [h]
  by_cases hl : d.attrs.interfaces.length = 0 <;> simp [hl]

/-- C23 (amended). When the backend returns an object, after `ResourceVirtualHostRead` the
fields `uuid`, `hostname`, `status`, `cpu_count`, `cores_per_socket`, `note`, `tier_id`,
`domain_id`, `template_id`, `project_id`, `customer_id` and `region` are the reported values and
`memory_size_gb` is the reported `memorySizeMB` divided by 1024, whatever was held before;
`data_protection_policy` is the id of the reported policy when the backend reports one, and keeps
the value held before when the reported policy is null. -/
theorem read_refreshes_scalars (d : ResourceData VirtualHostAttrs) (client : Client)
    (vh : VirtualHostNode) (h : client.GetVm d.Id = .ok (some vh)) :
    (ResourceVirtualHostRead d client).diags = [] ∧
    (ResourceVirtualHostRead d client).d.attrs.uuid = vh.UUID ∧
    (ResourceVirtualHostRead d client).d.attrs.hostname = vh.Hostname ∧
    (ResourceVirtualHostRead d client).d.attrs.status = vh.State ∧
    (ResourceVirtualHostRead d client).d.attrs.cpu_count = vh.CpuCount ∧
    (ResourceVirtualHostRead d client).d.attrs.cores_per_socket = vh.CoresPerSocket ∧
    (ResourceVirtualHostRead d client).d.attrs.memory_size_gb = vh.MemorySizeMB.tdiv 1024 ∧
    (ResourceVirtualHostRead d client).d.attrs.note = vh.Note ∧
    (ResourceVirtualHostRead d client).d.attrs.tier_id = vh.Tier ∧
    (ResourceVirtualHostRead d client).d.attrs.domain_id = vh.Domain ∧
    (ResourceVirtualHostRead d client).d.attrs.template_id = vh.Template ∧
    (ResourceVirtualHostRead d client).d.attrs.project_id = vh.Project ∧
    (ResourceVirtualHostRead d client).d.attrs.customer_id = vh.Customer ∧
    (ResourceVirtualHostRead d client).d.attrs.region = vh.Region ∧
    (∀ id : String, vh.DataProtectionPolicy = some id →
      (ResourceVirtualHostRead d client).d.attrs.data_protection_policy = id) ∧
    (vh.DataProtectionPolicy = none →
      (ResourceVirtualHostRead d client).d.attrs.data_protection_policy =
        d.attrs.data_protection_policy) := by
  rw [read_of_object d client vh h]
  refine ⟨rfl, rfl, rfl, rfl, rfl, rfl, rfl, rfl, rfl, rfl, rfl, rfl, rfl, rfl, ?_, ?_⟩
  · intro id hid
    simp only [hid]
  · intro hn
    simp only [hn]

/-- Witness of C23 (amended): the read of the tests (policy `policy-1` reported), on local data
holding `policy-old`. -/
theorem read_refreshes_scalars_witness :
    (nodeClient testNode).GetVm "vh-1" = .ok (some testNode) ∧
    (ResourceVirtualHostRead ⟨"vh-1", oldPolicyAttrs, []⟩ (nodeClient testNode)).diags = [] ∧
    (ResourceVirtualHostRead ⟨"vh-1", oldPolicyAttrs, []⟩
      (nodeClient testNode)).d.attrs.uuid = "uuid-1" ∧
    (ResourceVirtualHostRead ⟨"vh-1", oldPolicyAttrs, []⟩
      (nodeClient testNode)).d.attrs.data_protection_policy = "policy-1" :=
  have h := read_refreshes_scalars ⟨"vh-1", oldPolicyAttrs, []⟩ (nodeClient testNode) testNode rfl
  ⟨rfl, h.1, h.2.1, h.2.2.2.2.2.2.2.2.2.2.2.2.2.2.1 "policy-1" rfl⟩


/-! ### C24: `allow_resize_restart` is local -/

/-- For every call of `ResourceVirtualHostRead` and `ResourceVirtualHostImmutableRead` and every
answer of the executor (an object with any content, a null object, an error),
`allow_resize_restart` after the call is the value `d.Get` returned before the call; in the test
of the repository the local `false` stays `false`. -/
theorem read_keeps_allow_resize_restart
    (d : ResourceData VirtualHostAttrs) (di : ResourceData VirtualHostImmutableAttrs)
    (client : Client) :
    (ResourceVirtualHostRead d client).d.attrs.allow_resize_restart =
      d.attrs.allow_resize_restart ∧
    (ResourceVirtualHostImmutableRead di client).d.attrs.allow_resize_restart =
      di.attrs.allow_resize_restart ∧
    (testAttrsNoInterfaces.allow_resize_restart = false ∧
      (ResourceVirtualHostRead ⟨"vh-1", testAttrsNoInterfaces, []⟩
        (nodeClient testNode)).d.attrs.allow_resize_restart = false) := by
  refine ⟨?_, ?_, rfl, rfl⟩
  · rcases hg : client.GetVm d.Id with err | (_ | vh)
    · unfold ResourceVirtualHostRead
      simp only [hg]
    · rw [read_of_missing d client hg]
      rfl
    · rw [read_of_object d client vh hg]
  · rcases hg : client.GetVm di.Id with err | (_ | vh)
    · unfold ResourceVirtualHostImmutableRead
      simp only [hg]
    · rw [immutable_read_of_missing di client hg]
      rfl
    · unfold ResourceVirtualHostImmutableRead
      rw [hg]
      by_cases hl : di.attrs.interfaces.length = 0 <;> simp [hl]

/-- C24 (evaluation of the code). Both read functions write back to `allow_resize_restart` what
`d.Get` returns, for every resource data and every answer of the executor, and no field of the
answer enters. On resource data built from state alone in which the attribute was never set (as
after `terraform import`), `d.Get` returns `false`, so after a read that finds the object the
field is `false` and not the schema default `true`: the fallback to the default that the
comment above the assignment describes does not take place. -/
theorem read_after_import_misses_default :
    (∀ (d : ResourceData VirtualHostAttrs) (client : Client),
      (ResourceVirtualHostRead d client).d.attrs.allow_resize_restart =
        d.attrs.allow_resize_restart) ∧
    (∀ (di : ResourceData VirtualHostImmutableAttrs) (client : Client),
      (ResourceVirtualHostImmutableRead di client).d.attrs.allow_resize_restart =
        di.attrs.allow_resize_restart) ∧
    (allowResizeRestartDefault = true ∧ GetBool none = false ∧
      importedData.attrs.allow_resize_restart = GetBool none) ∧
    ((ResourceVirtualHostRead importedData (nodeClient testNode)).diags = [] ∧
      (ResourceVirtualHostRead importedData (nodeClient testNode)).d.attrs.hostname
        = "app-1" ∧
      (ResourceVirtualHostRead importedData (nodeClient testNode)).d.attrs.allow_resize_restart
        = false ∧
      (ResourceVirtualHostRead importedData (nodeClient testNode)).d.attrs.allow_resize_restart
        ≠ allowResizeRestartDefault) ∧
    ((ResourceVirtualHostImmutableRead importedImmutableData (nodeClient testNode)).diags
        = [] ∧
      (ResourceVirtualHostImmutableRead importedImmutableData
        (nodeClient testNode)).d.attrs.allow_resize_restart = false ∧
      (ResourceVirtualHostImmutableRead importedImmutableData
        (nodeClient testNode)).d.attrs.allow_resize_restart ≠ allowResizeRestartDefault) := by
  refine ⟨?_, ?_, ⟨rfl, rfl, rfl⟩, ⟨rfl, rfl, rfl, by decide⟩, ⟨rfl, rfl, by decide⟩⟩
  · intro d client
    exact (read_keeps_allow_resize_restart d ⟨"", testImmutableAttrs, []⟩ client).1
  · intro di client
    exact (read_keeps_allow_resize_restart ⟨"", testAttrs, []⟩ di client).2.1


/-! ### C25: only create assigns the identifier -/

/-- The identifier `ResourceVirtualHostDelete` leaves. -/
theorem delete_identifier {α : Type} (d : ResourceData α) (client : Client) :
    (ResourceVirtualHostDelete d client).d.id = d.id ∨
    (ResourceVirtualHostDelete d client).d.id = "" := by
  unfold ResourceVirtualHostDelete
  rcases client.DeleteVm d.Id with err | t
  · exact Or.inl rfl
  · exact Or.inr rfl

/-- The outcomes of `resourceVirtualHostCaasDelete`: the identifier cleared without error after
a `VirtualHostNode` answer, or an error with the data unchanged. -/
theorem caas_delete_cases (d : ResourceData VirtualHostCaasAttrs) (client : Client) :
    ((∃ p : caasPayload, client.DeleteVirtualHostCaas d.Id = .ok p ∧
        p.Typename = "VirtualHostNode") ∧
      (resourceVirtualHostCaasDelete d client).d = d.SetId "" ∧
      (resourceVirtualHostCaasDelete d client).diags = []) ∨
    ((¬ ∃ p : caasPayload, client.DeleteVirtualHostCaas d.Id = .ok p ∧
        p.Typename = "VirtualHostNode") ∧
      (resourceVirtualHostCaasDelete d client).d = d ∧
      (resourceVirtualHostCaasDelete d client).diags ≠ []) := by
  unfold resourceVirtualHostCaasDelete
  dsimp only
  rcases hc : client.DeleteVirtualHostCaas d.Id with err | p
  · exact Or.inr ⟨by simp, rfl, by simp⟩
  · by_cases ht : p.Typename = "VirtualHostNode"
    · refine Or.inl ⟨⟨p, rfl, ht⟩, ?_, ?_⟩ <;> simp [ht]
    · refine Or.inr ⟨by simp [ht], ?_, ?_⟩
      · simp only [if_neg ht]
        split_ifs <;> rfl
      · simp only [if_neg ht]
        split_ifs <;> simp

/-- C25. After every call of a read, update or delete function of the three variants, whatever
the backend answers, the identifier is the identifier held before the call or the empty string;
and a read whose backend returns an object leaves the identifier as it was, whatever `id` that
object carries. -/
theorem identifier_assigned_only_by_create
    (d : ResourceData VirtualHostAttrs) (di : ResourceData VirtualHostImmutableAttrs)
    (dc : ResourceData VirtualHostCaasAttrs) (client : Client) :
    (((ResourceVirtualHostRead d client).d.id = d.id ∨
        (ResourceVirtualHostRead d client).d.id = "") ∧
      ((ResourceVirtualHostUpdate d client).d.id = d.id ∨
        (ResourceVirtualHostUpdate d client).d.id = "") ∧
      ((ResourceVirtualHostDelete d client).d.id = d.id ∨
        (ResourceVirtualHostDelete d client).d.id = "")) ∧
    (((ResourceVirtualHostImmutableRead di client).d.id = di.id ∨
        (ResourceVirtualHostImmutableRead di client).d.id = "") ∧
      ((ResourceVirtualHostImmutableUpdate di client).d.id = di.id ∨
        (ResourceVirtualHostImmutableUpdate di client).d.id = "") ∧
      ((ResourceVirtualHostDelete di client).d.id = di.id ∨
        (ResourceVirtualHostDelete di client).d.id = "")) ∧
    (((resourceVirtualHostCaasRead dc client).d.id = dc.id ∨
        (resourceVirtualHostCaasRead dc client).d.id = "") ∧
      ((resourceVirtualHostCaasUpdate dc client).d.id = dc.id ∨
        (resourceVirtualHostCaasUpdate dc client).d.id = "") ∧
      ((resourceVirtualHostCaasDelete dc client).d.id = dc.id ∨
        (resourceVirtualHostCaasDelete dc client).d.id = "")) ∧
    ((∀ vh : VirtualHostNode, client.GetVm d.Id = .ok (some vh) →
        (ResourceVirtualHostRead d client).d.id = d.id) ∧
      (∀ vh : VirtualHostNode, client.GetVm di.Id = .ok (some vh) →
        (ResourceVirtualHostImmutableRead di client).d.id = di.id) ∧
      (∀ vh : CaasVirtualHost, client.GetVirtualHostCaas dc.Id = .ok (some vh) →
        (resourceVirtualHostCaasRead dc client).d.id = dc.id)) ∧
    (otherIdNode.ID = "vh-999" ∧
      (ResourceVirtualHostRead ⟨"vh-1", testAttrs, []⟩ (nodeClient otherIdNode)).d.id
        = "vh-1") := by
  have weaken : ∀ {a b : String} {P : Prop}, (a = b ∨ (a = "" ∧ P)) → (a = b ∨ a = "") := by
    intro a b P h
    rcases h with h | h
    · exact Or.inl h
    · exact Or.inr h.1
  refine ⟨⟨weaken (read_identifier d client).1, weaken (update_identifier d client).1,
      delete_identifier d client⟩,
    ⟨weaken (immutable_read_identifier di client).1,
      weaken (immutable_update_identifier di client).1, delete_identifier di client⟩,
    ⟨weaken (caas_read_identifier dc client).1, weaken (caas_update_identifier dc client).1, ?_⟩,
    ⟨?_, ?_, ?_⟩, rfl, rfl⟩
  · rcases caas_delete_cases dc client with ⟨_, hd, _⟩ | ⟨_, hd, _⟩
    · rw [hd]
      exact Or.inr rfl
    · rw [hd]
      exact Or.inl rfl
  · intro vh hv
    exact (read_of_object_interfaces d client vh hv).2.2
  · intro vh hv
    exact (immutable_read_of_object_interfaces di client vh hv).2.2
  · intro vh hv
    unfold resourceVirtualHostCaasRead
    rw [hv]


/-! ### C27: the shadow variant's delete discriminates its outcome -/

/-- C27. `resourceVirtualHostCaasDelete` leaves an empty identifier and no diagnostic if and only
if the executor succeeds with a payload whose type is `VirtualHostNode`, and then only the
identifier changed; in every other outcome (an executor error, `ValidationErrors`,
`Unauthorized`, `OperationUnavailable` or any other type) it returns exactly one error
diagnostic and the identifier and the state are those held before the call. One mutation is
sent in every case. -/
theorem caas_delete_discriminates (d : ResourceData VirtualHostCaasAttrs) (client : Client) :
    ((((resourceVirtualHostCaasDelete d client).d.id = "" ∧
        (resourceVirtualHostCaasDelete d client).diags = []) ↔
      ∃ p : caasPayload, client.DeleteVirtualHostCaas d.Id = .ok p ∧
        p.Typename = "VirtualHostNode") ∧
    ((∃ p : caasPayload, client.DeleteVirtualHostCaas d.Id = .ok p ∧
        p.Typename = "VirtualHostNode") →
      (resourceVirtualHostCaasDelete d client).d = d.SetId "" ∧
      (resourceVirtualHostCaasDelete d client).d.attrs = d.attrs) ∧
    ((¬ ∃ p : caasPayload, client.DeleteVirtualHostCaas d.Id = .ok p ∧
        p.Typename = "VirtualHostNode") →
      (resourceVirtualHostCaasDelete d client).d = d ∧
      HasError (resourceVirtualHostCaasDelete d client).diags = true ∧
      (resourceVirtualHostCaasDelete d client).diags.length = 1) ∧
    (∀ err : String, client.DeleteVirtualHostCaas d.Id = .error err →
      (resourceVirtualHostCaasDelete d client).diags = [Diag.fromErr err]) ∧
    (∀ p : caasPayload, client.DeleteVirtualHostCaas d.Id = .ok p →
      p.Typename = "ValidationErrors" →
      (resourceVirtualHostCaasDelete d client).diags =
        [Diag.errorf "virtualHostDeleteCaas: %s" [formatValidationMessage p]]) ∧
    (∀ p : caasPayload, client.DeleteVirtualHostCaas d.Id = .ok p →
      p.Typename = "Unauthorized" ∨ p.Typename = "OperationUnavailable" →
      (resourceVirtualHostCaasDelete d client).diags =
        [Diag.errorf "virtualHostDeleteCaas: %s" [caasRefusalMessage p]]) ∧
    (∀ p : caasPayload, client.DeleteVirtualHostCaas d.Id = .ok p →
      p.Typename ∉ caasTypenames →
      (resourceVirtualHostCaasDelete d client).diags =
        [Diag.errorf "virtualHostDeleteCaas: unexpected payload type %q" [p.Typename]]) ∧
    (resourceVirtualHostCaasDelete d client).requests =
      [Request.mutationVirtualHostDeleteCaas d.Id]) := by
  refine ⟨?_, ?_, ?_, ?_, ?_, ?_, ?_, ?_⟩
  · rcases caas_delete_cases d client with ⟨hp, hd, hg⟩ | ⟨hp, hd, hg⟩
    · exact ⟨fun _ => hp, fun _ => ⟨by rw [hd]; rfl, hg⟩⟩
    · exact ⟨fun h => absurd h.2 hg, fun h => absurd h hp⟩
  · intro hp
    rcases caas_delete_cases d client with ⟨_, hd, _⟩ | ⟨hn, _, _⟩
    · exact ⟨hd, by rw [hd]; rfl⟩
    · exact absurd hp hn
  · intro hn
    rcases caas_delete_cases d client with ⟨hp, _, _⟩ | ⟨_, hd, _⟩
    · exact absurd hp hn
    · refine ⟨hd, ?_, ?_⟩
      · unfold resourceVirtualHostCaasDelete
        dsimp only
        rcases hc : client.DeleteVirtualHostCaas d.Id with err | p
        · rfl
        · have ht : p.Typename ≠ "VirtualHostNode" := fun ht => hn ⟨p, hc, ht⟩
          simp only [if_neg ht]
          split_ifs <;> rfl
      · unfold resourceVirtualHostCaasDelete
        dsimp only
        rcases hc : client.DeleteVirtualHostCaas d.Id with err | p
        · rfl
        · have ht : p.Typename ≠ "VirtualHostNode" := fun ht => hn ⟨p, hc, ht⟩
          simp only [if_neg ht]
          split_ifs <;> rfl
  · intro err hc
    unfold resourceVirtualHostCaasDelete
    rw [hc]
  · intro p hc ht
    unfold resourceVirtualHostCaasDelete
    rw [hc]
    simp [ht]
  · intro p hc ht
    unfold resourceVirtualHostCaasDelete
    rw [hc]
    rcases ht with ht | ht <;> simp [ht]
  · intro p hc ht
    unfold resourceVirtualHostCaasDelete
    rw [hc]
    simp [caasTypenames] at ht
    simp [ht]
  · unfold resourceVirtualHostCaasDelete
    dsimp only
    rcases client.DeleteVirtualHostCaas d.Id with err | p
    · rfl
    · dsimp only
      split_ifs <;> rfl


/-- C27 on the shadow resource `vh-1`: a `VirtualHostNode` answer clears the identifier without
error and keeps the attributes; an answer of the unknown type `SomeNewType` returns one error and
leaves the data, identifier included, as it was. -/
theorem caas_delete_discriminates_witness :
    ((resourceVirtualHostCaasDelete caasNoteData caasDeletedClient).d.id = "" ∧
      (resourceVirtualHostCaasDelete caasNoteData caasDeletedClient).diags = [] ∧
      (resourceVirtualHostCaasDelete caasNoteData caasDeletedClient).d.attrs = testCaasAttrs) ∧
    ((resourceVirtualHostCaasDelete caasNoteData driftClient).d = caasNoteData ∧
      (resourceVirtualHostCaasDelete caasNoteData driftClient).d.id = "vh-1" ∧
      HasError (resourceVirtualHostCaasDelete caasNoteData driftClient).diags = true ∧
      (resourceVirtualHostCaasDelete caasNoteData driftClient).diags.map
          (Diag.Summary plainQuote) =
        ["virtualHostDeleteCaas: unexpected payload type \"SomeNewType\""]) :=
  have hs := caas_delete_discriminates caasNoteData caasDeletedClient
  have hf := caas_delete_discriminates caasNoteData driftClient
  have hyes : ∃ p : caasPayload,
      caasDeletedClient.DeleteVirtualHostCaas caasNoteData.Id = .ok p ∧
        p.Typename = "VirtualHostNode" := ⟨caasPayloadOf "VirtualHostNode", rfl, rfl⟩
  have hno : ¬ ∃ p : caasPayload,
      driftClient.DeleteVirtualHostCaas caasNoteData.Id = .ok p ∧
        p.Typename = "VirtualHostNode" := by
    rintro ⟨p, hp, ht⟩
    cases hp
    exact absurd ht (by decide)
  ⟨⟨(hs.1.2 hyes).1, (hs.1.2 hyes).2, (hs.2.1 hyes).2⟩,
    ⟨(hf.2.2.1 hno).1, rfl, (hf.2.2.1 hno).2.1, by decide⟩⟩

/-! ### C28: the memory read back is the floor of MB / 1024 -/

/-- Go's `/ 1024` on a non-negative `int` is the floor: the quotient `g` satisfies
`g * 1024 <= m < (g + 1) * 1024`, and it is the only integer that does. -/
theorem tdiv_1024_floor (m : Int) (hm : 0 ≤ m) :
    IsFloorGb m (m.tdiv 1024) ∧ ∀ g : Int, IsFloorGb m g → g = m.tdiv 1024 := by
  rw [Int.tdiv_eq_ediv hm (by decide)]
  unfold IsFloorGb
  refine ⟨⟨by omega, by omega⟩, ?_⟩
  intro g hg
  omega

/-- The memory `ResourceVirtualHostImmutableRead` stores when the backend returns an object. -/
theorem immutable_read_of_object_memory (d : ResourceData VirtualHostImmutableAttrs)
    (client : Client) (vh : VirtualHostNode) (h : client.GetVm d.Id = .ok (some vh)) :
    (ResourceVirtualHostImmutableRead d client).d.attrs.memory_size_gb =
      vh.MemorySizeMB.tdiv 1024 := by
  unfold ResourceVirtualHostImmutableRead
  rw [h]
  by_cases hl : d.attrs.interfaces.length = 0 <;> simp [hl]

/-- The memory `ResourceVirtualHostImmutableCreate` stores when the backend returns a created
object. -/
theorem immutable_create_of_created_memory (d : ResourceData VirtualHostImmutableAttrs)
    (client : Client) (p : VirtualHostCreatePayload) (vm : VirtualHost)
    (h : client.CreateVmImmutable (virtualHostCreateImmutableInput d) = .ok p)
    (ht : p.Typename = "VirtualHostCreated") (hv : p.VirtualHost = some vm) :
    (ResourceVirtualHostImmutableCreate d client).diags = [] ∧
    (ResourceVirtualHostImmutableCreate d client).d.attrs.memory_size_gb =
      vm.MemorySizeMB.tdiv 1024 := by
  unfold ResourceVirtualHostImmutableCreate
  simp [h, ht, hv, ResourceData.SetId]

/-- C28. For every non-negative backend value `m` of `memorySizeMB`: the `memory_size_gb` stored
by a successful create and by a read that finds the object, in the standard and in the immutable
variant, is the integer `g` with `g * 1024 <= m < (g + 1) * 1024`, and no other integer
satisfies these bounds; when `m < 1024` the stored value is 0. -/
theorem memory_read_is_floor_division (m : Int) (hm : 0 ≤ m) :
    (∀ (d : ResourceData VirtualHostAttrs) (client : Client) (p : VirtualHostCreatePayload)
        (vm : VirtualHost), d.attrs.interfaces ≠ [] →
      client.CreateVm (virtualHostCreateInput d) = .ok p →
      p.Typename = "VirtualHostCreated" → p.VirtualHost = some vm → vm.MemorySizeMB = m →
      (ResourceVirtualHostCreate d client).diags = [] ∧
      IsFloorGb m (ResourceVirtualHostCreate d client).d.attrs.memory_size_gb ∧
      (m < 1024 → (ResourceVirtualHostCreate d client).d.attrs.memory_size_gb = 0)) ∧
    (∀ (d : ResourceData VirtualHostAttrs) (client : Client) (vh : VirtualHostNode),
      client.GetVm d.Id = .ok (some vh) → vh.MemorySizeMB = m →
      IsFloorGb m (ResourceVirtualHostRead d client).d.attrs.memory_size_gb ∧
      (m < 1024 → (ResourceVirtualHostRead d client).d.attrs.memory_size_gb = 0)) ∧
    (∀ (d : ResourceData VirtualHostImmutableAttrs) (client : Client)
        (p : VirtualHostCreatePayload) (vm : VirtualHost),
      client.CreateVmImmutable (virtualHostCreateImmutableInput d) = .ok p →
      p.Typename = "VirtualHostCreated" → p.VirtualHost = some vm → vm.MemorySizeMB = m →
      (ResourceVirtualHostImmutableCreate d client).diags = [] ∧
      IsFloorGb m (ResourceVirtualHostImmutableCreate d client).d.attrs.memory_size_gb ∧
      (m < 1024 → (ResourceVirtualHostImmutableCreate d client).d.attrs.memory_size_gb = 0)) ∧
    (∀ (d : ResourceData VirtualHostImmutableAttrs) (client : Client) (vh : VirtualHostNode),
      client.GetVm d.Id = .ok (some vh) → vh.MemorySizeMB = m →
      IsFloorGb m (ResourceVirtualHostImmutableRead d client).d.attrs.memory_size_gb ∧
      (m < 1024 → (ResourceVirtualHostImmutableRead d client).d.attrs.memory_size_gb = 0)) ∧
    (∀ g g' : Int, IsFloorGb m g → IsFloorGb m g' → g = g') := by
  have hf := tdiv_1024_floor m hm
  have hz : m < 1024 → m.tdiv 1024 = 0 := by
    intro hlt
    rw [Int.tdiv_eq_ediv hm (by decide)]
    omega
  refine ⟨?_, ?_, ?_, ?_, ?_⟩
  · intro d client p vm hi h ht hv hmem
    have hc := create_of_created d client p vm hi h ht hv
    rw [hc.2.2, hmem]
    exact ⟨hc.1, hf.1, hz⟩
  · intro d client vh h hmem
    rw [read_of_object_memory d client vh h, hmem]
    exact ⟨hf.1, hz⟩
  · intro d client p vm h ht hv hmem
    have hc := immutable_create_of_created_memory d client p vm h ht hv
    rw [hc.2, hmem]
    exact ⟨hc.1, hf.1, hz⟩
  · intro d client vh h hmem
    rw [immutable_read_of_object_memory d client vh h, hmem]
    exact ⟨hf.1, hz⟩
  · intro g g' hg hg'
    rw [hf.2 g hg, hf.2 g' hg']

/-- C28 at a concrete input: a backend that reports 1500 MB, which is not a multiple of 1024;
create and read of both variants store 1, and `1 * 1024 <= 1500 < 2 * 1024`. -/
theorem memory_read_is_floor_division_witness :
    ((0 : Int) ≤ 1500 ∧ oddMemoryNode.MemorySizeMB = 1500) ∧
    (ResourceVirtualHostCreate ⟨"", testAttrs, []⟩ oddMemoryClient).d.attrs.memory_size_gb = 1 ∧
    (ResourceVirtualHostRead ⟨"vh-1", testAttrs, []⟩ oddMemoryClient).d.attrs.memory_size_gb
      = 1 ∧
    (ResourceVirtualHostImmutableCreate ⟨"", testImmutableAttrs, []⟩
      oddMemoryClient).d.attrs.memory_size_gb = 1 ∧
    (ResourceVirtualHostImmutableRead ⟨"vh-1", testImmutableAttrs, []⟩
      oddMemoryClient).d.attrs.memory_size_gb = 1 ∧
    IsFloorGb 1500 (ResourceVirtualHostRead ⟨"vh-1", testAttrs, []⟩
      oddMemoryClient).d.attrs.memory_size_gb ∧
    IsFloorGb 1500 (ResourceVirtualHostCreate ⟨"", testAttrs, []⟩
      oddMemoryClient).d.attrs.memory_size_gb :=
  have h := memory_read_is_floor_division 1500 (by decide)
  ⟨⟨by decide, rfl⟩, rfl, rfl, rfl, rfl,
    (h.2.1 ⟨"vh-1", testAttrs, []⟩ oddMemoryClient oddMemoryNode rfl rfl).1,
    (h.1 ⟨"", testAttrs, []⟩ oddMemoryClient
      (createPayload "VirtualHostCreated" (some { testVirtualHost with MemorySizeMB := 1500 }))
      { testVirtualHost with MemorySizeMB := 1500 } (by decide) rfl rfl rfl rfl).2.1⟩


/-! ### C30: the standard and the immutable update are one reconciliation -/

/-- The two `switch` statements on a resize answer are the same function. -/
theorem immutableResizeSwitch_eq : immutableResizeSwitch = resizeSwitch := rfl

/-- The two `switch` statements on a tier-update answer are the same function. -/
theorem immutableUpdateTierSwitch_eq : immutableUpdateTierSwitch = updateTierSwitch := rfl

/-- Diagnostics returned by a resize block are never empty. -/
theorem resizeBlock_diags_nonempty (d : ResourceData VirtualHostAttrs) (client : Client)
    (ds : List Diag) (h : (resizeBlock d client).1 = some ds) : ds ≠ [] := by
  unfold resizeBlock at h
  dsimp only at h
  rcases hc : client.ResizeVm (resizeInput d) with err | p
  · rw [hc] at h
    simp at h
    rw [← h]
    simp
  · rw [hc] at h
    dsimp only at h
    unfold resizeSwitch at h
    split_ifs at h <;> simp at h <;> rw [← h] <;> simp

/-- Diagnostics returned by a tier block are never empty. -/
theorem updateTierBlock_diags_nonempty (d : ResourceData VirtualHostAttrs) (client : Client)
    (ds : List Diag) (h : (updateTierBlock d client).1 = some ds) : ds ≠ [] := by
  unfold updateTierBlock at h
  dsimp only at h
  rcases hc : client.UpdateVmTier (updateTierInput d) with err | p
  · rw [hc] at h
    simp at h
    rw [← h]
    simp
  · rw [hc] at h
    dsimp only at h
    unfold updateTierSwitch at h
    split_ifs at h <;> simp at h <;> rw [← h] <;> simp

/-- The two read functions return the same diagnostics for the same identifier. -/
theorem read_diags_agree (d : ResourceData VirtualHostAttrs)
    (di : ResourceData VirtualHostImmutableAttrs) (client : Client) (hid : d.id = di.id) :
    (ResourceVirtualHostRead d client).diags =
      (ResourceVirtualHostImmutableRead di client).diags := by
  have hId : di.Id = d.Id := hid.symm
  unfold ResourceVirtualHostRead ResourceVirtualHostImmutableRead
  rw [hId]
  rcases client.GetVm d.Id with err | _ | vh <;> rfl


set_option maxRecDepth 100000 in
/-- The two guard texts are the resource name followed by the same sentence. -/
theorem guard_texts (quote : String → String) :
    updateGuardDiag.Summary quote = "ocp_virtual_host" ++ guardMessageRest ∧
    immutableUpdateGuardDiag.Summary quote =
      "ocp_virtual_host_immutable" ++ guardMessageRest := by
  have h : ∀ cs : List Char, sprintfChars quote cs [] = cs := by
    intro cs
    induction cs with
    | nil => rfl
    | cons c rest ih =>
      unfold sprintfChars
      split <;> simp_all
  constructor
  · apply String.ext
    show sprintfChars quote _ [] = _
    rw [h]
    decide
  · apply String.ext
    show sprintfChars quote _ [] = _
    rw [h]
    decide

/-- C30. For standard and immutable resource data that agree on the identifier, the changed
keys and the fields an update reads (`cpu_count`, `cores_per_socket`, `memory_size_gb`,
`tier_id`, `allow_resize_restart`), and the same backend: the two update functions compute the
same flags and the same mutation inputs and send the same requests; when sizing and tier both
changed both return their guard error and send nothing, and the two guard texts are the resource
name followed by the same sentence; otherwise they return the same diagnostics, and either both
stop after the mutation with the same non-empty diagnostics and unchanged data, or both hand
over to their own read function after the same mutation requests. -/
theorem update_variants_agree
    (d : ResourceData VirtualHostAttrs) (di : ResourceData VirtualHostImmutableAttrs)
    (client : Client)
    (hid : d.id = di.id) (hch : d.changed = di.changed)
    (hcpu : d.attrs.cpu_count = di.attrs.cpu_count)
    (hcores : d.attrs.cores_per_socket = di.attrs.cores_per_socket)
    (hmem : d.attrs.memory_size_gb = di.attrs.memory_size_gb)
    (htier : d.attrs.tier_id = di.attrs.tier_id)
    (hallow : d.attrs.allow_resize_restart = di.attrs.allow_resize_restart) :
    (sizingChanged d = sizingChanged di ∧ tierChanged d = tierChanged di) ∧
    (resizeInput d = immutableResizeInput di ∧
      updateTierInput d = immutableUpdateTierInput di) ∧
    (ResourceVirtualHostUpdate d client).requests =
      (ResourceVirtualHostImmutableUpdate di client).requests ∧
    ((sizingChanged d = true ∧ tierChanged d = true ∧
        ResourceVirtualHostUpdate d client = ⟨d, [updateGuardDiag], []⟩ ∧
        ResourceVirtualHostImmutableUpdate di client = ⟨di, [immutableUpdateGuardDiag], []⟩) ∨
      (¬ (sizingChanged d = true ∧ tierChanged d = true) ∧
        (ResourceVirtualHostUpdate d client).diags =
          (ResourceVirtualHostImmutableUpdate di client).diags ∧
        ((∃ (ds : List Diag) (sent : List Request), ds ≠ [] ∧
            ResourceVirtualHostUpdate d client = ⟨d, ds, sent⟩ ∧
            ResourceVirtualHostImmutableUpdate di client = ⟨di, ds, sent⟩) ∨
          (∃ sent : List Request,
            ResourceVirtualHostUpdate d client =
              ⟨(ResourceVirtualHostRead d client).d, (ResourceVirtualHostRead d client).diags,
                sent ++ (ResourceVirtualHostRead d client).requests⟩ ∧
            ResourceVirtualHostImmutableUpdate di client =
              ⟨(ResourceVirtualHostImmutableRead di client).d,
                (ResourceVirtualHostImmutableRead di client).diags,
                sent ++ (ResourceVirtualHostImmutableRead di client).requests⟩)))) ∧
    (∀ quote : String → String,
      updateGuardDiag.Summary quote = "ocp_virtual_host" ++ guardMessageRest ∧
      immutableUpdateGuardDiag.Summary quote =
        "ocp_virtual_host_immutable" ++ guardMessageRest) := by
  have hId : di.Id = d.Id := hid.symm
  have hs : sizingChanged di = sizingChanged d := by
    simp [sizingChanged, ResourceData.HasChange, hch]
  have ht : tierChanged di = tierChanged d := by
    simp [tierChanged, ResourceData.HasChange, hch]
  have hri : immutableResizeInput di = resizeInput d := by
    unfold immutableResizeInput resizeInput
    simp [ResourceData.HasChange, hId, hch, hcpu, hcores, hmem, hallow]
  have hti : immutableUpdateTierInput di = updateTierInput d := by
    unfold immutableUpdateTierInput updateTierInput
    simp [hId, htier]
  have hrb : immutableResizeBlock di client = resizeBlock d client := by
    unfold immutableResizeBlock resizeBlock
    rw [hri, immutableResizeSwitch_eq]
  have htb : immutableUpdateTierBlock di client = updateTierBlock d client := by
    unfold immutableUpdateTierBlock updateTierBlock
    rw [hti, immutableUpdateTierSwitch_eq]
  have hrd := read_diags_agree d di client hid
  have hrq : (ResourceVirtualHostImmutableRead di client).requests =
      (ResourceVirtualHostRead d client).requests := by
    rw [read_requests, immutable_read_requests, hId]
  refine ⟨⟨hs.symm, ht.symm⟩, ⟨hri.symm, hti.symm⟩, ?_, ?_, ?_⟩
  · rcases hsv : sizingChanged d <;> rcases htv : tierChanged d
    · rw [update_no_change d client hsv htv,
        immutable_update_no_change di client (hs.trans hsv) (ht.trans htv), hrq]
    · rw [update_tier_only d client hsv htv,
        immutable_update_tier_only di client (hs.trans hsv) (ht.trans htv), htb]
      rcases updateTierBlock d client with ⟨_ | ds, sent⟩
      · simp only [hrq]
      · rfl
    · rw [update_sizing_only d client hsv htv,
        immutable_update_sizing_only di client (hs.trans hsv) (ht.trans htv), hrb]
      rcases resizeBlock d client with ⟨_ | ds, sent⟩
      · simp only [hrq]
      · rfl
    · have hg : ResourceVirtualHostUpdate d client = ⟨d, [updateGuardDiag], []⟩ := by
        unfold sizingChanged at hsv
        unfold tierChanged at htv
        unfold ResourceVirtualHostUpdate
        simp only [hsv, htv]
        simp
      rw [hg, immutable_update_guarded di client (hs.trans hsv) (ht.trans htv)]
  · rcases hsv : sizingChanged d <;> rcases htv : tierChanged d
    · refine Or.inr ⟨by simp, ?_, Or.inr ⟨[], ?_, ?_⟩⟩
      · rw [update_no_change d client hsv htv,
          immutable_update_no_change di client (hs.trans hsv) (ht.trans htv), hrd]
      · rw [update_no_change d client hsv htv]
        rfl
      · rw [immutable_update_no_change di client (hs.trans hsv) (ht.trans htv)]
        rfl
    · refine Or.inr ⟨by simp, ?_⟩
      rw [update_tier_only d client hsv htv,
        immutable_update_tier_only di client (hs.trans hsv) (ht.trans htv), htb]
      rcases hb : updateTierBlock d client with ⟨_ | ds, sent⟩
      · exact ⟨hrd, Or.inr ⟨sent, rfl, rfl⟩⟩
      · refine ⟨rfl, Or.inl ⟨ds, sent, ?_, rfl, rfl⟩⟩
        exact updateTierBlock_diags_nonempty d client ds (by rw [hb])
    · refine Or.inr ⟨by simp, ?_⟩
      rw [update_sizing_only d client hsv htv,
        immutable_update_sizing_only di client (hs.trans hsv) (ht.trans htv), hrb]
      rcases hb : resizeBlock d client with ⟨_ | ds, sent⟩
      · exact ⟨hrd, Or.inr ⟨sent, rfl, rfl⟩⟩
      · refine ⟨rfl, Or.inl ⟨ds, sent, ?_, rfl, rfl⟩⟩
        exact resizeBlock_diags_nonempty d client ds (by rw [hb])
    · refine Or.inl ⟨rfl, rfl, ?_, immutable_update_guarded di client (hs.trans hsv) (ht.trans htv)⟩
      unfold sizingChanged at hsv
      unfold tierChanged at htv
      unfold ResourceVirtualHostUpdate
      simp only [hsv, htv]
      simp
  · exact guard_texts


/-- C30 at a concrete input: only `cpu_count` changed on `vh-1`, with 2 CPUs, 1 core per
socket, 8 GB and tier `tier-1` declared in both variants; against a backend that accepts the
resize both send the same requests with the same input, and against a backend that answers
`ValidationErrors` both return the same diagnostics. -/
theorem update_variants_agree_witness :
    (resizeData.id = immutableTwinData.id ∧ resizeData.changed = immutableTwinData.changed ∧
      resizeData.attrs.cpu_count = immutableTwinData.attrs.cpu_count ∧
      resizeData.attrs.cores_per_socket = immutableTwinData.attrs.cores_per_socket ∧
      resizeData.attrs.memory_size_gb = immutableTwinData.attrs.memory_size_gb ∧
      resizeData.attrs.tier_id = immutableTwinData.attrs.tier_id ∧
      resizeData.attrs.allow_resize_restart = immutableTwinData.attrs.allow_resize_restart) ∧
    resizeInput resizeData = immutableResizeInput immutableTwinData ∧
    (ResourceVirtualHostUpdate resizeData (jobClient testNode)).requests =
      (ResourceVirtualHostImmutableUpdate immutableTwinData (jobClient testNode)).requests ∧
    (ResourceVirtualHostUpdate resizeData (jobClient testNode)).requests =
      [Request.mutationResizeVm (resizeInput resizeData), Request.queryGetVM "vh-1"] ∧
    (ResourceVirtualHostUpdate resizeData validationClient).requests =
      (ResourceVirtualHostImmutableUpdate immutableTwinData validationClient).requests ∧
    (ResourceVirtualHostUpdate resizeData validationClient).diags =
      (ResourceVirtualHostImmutableUpdate immutableTwinData validationClient).diags ∧
    (ResourceVirtualHostUpdate resizeData validationClient).diags ≠ [] :=
  have h := update_variants_agree resizeData immutableTwinData (jobClient testNode)
    rfl rfl rfl rfl rfl rfl rfl
  have hv := update_variants_agree resizeData immutableTwinData validationClient
    rfl rfl rfl rfl rfl rfl rfl
  ⟨⟨rfl, rfl, rfl, rfl, rfl, rfl, rfl⟩, h.2.1.1, h.2.2.1, rfl, hv.2.2.1, rfl, by decide⟩


/-! ### C26: the lookups are exactly-one-match-or-error -/

/-- A text that starts with `part` contains `part`. -/
theorem occursIn_of_prefix (part text : String) (rest : List Char)
    (h : text.data = part.data ++ rest) : occursIn part text = true := by
  unfold occursIn
  rw [h]
  exact decide_eq_true (List.prefix_append _ _).isInfix

/-- The vCenter lookup is exactly-one-match-or-error. -/
theorem vcenter_exactly_one (d : ResourceData VcenterAttrs) (client : LookupClient) :
    ExactlyOneOrError (fun a => a.id) "no vcenter found" "multiple vcenters found" d
      (client.queryVcenterByNameAndCustomer d.attrs.name d.attrs.customer_id)
      (dataSourceVcenterRead d client) := by
  unfold ExactlyOneOrError dataSourceVcenterRead
  dsimp only
  refine ⟨?_, ?_, ?_, ?_⟩
  · intro err h
    simp [h]
  · intro h
    rw [h]
    exact ⟨rfl, _, rfl, fun quote => occursIn_of_prefix _ _ _ rfl⟩
  · intro edges h hl
    have h0 : ¬ edges.length = 0 := by omega
    have h1 : edges.length > 1 := by omega
    rw [h]
    dsimp only
    rw [dif_neg h0, if_pos h1]
    exact ⟨rfl, _, rfl, fun quote => occursIn_of_prefix _ _ _ rfl⟩
  · intro e h
    simp [h, ResourceData.SetId]


/-- The customer lookup is exactly-one-match-or-error. -/
theorem customer_exactly_one (d : ResourceData CustomerAttrs) (client : LookupClient) :
    ExactlyOneOrError (fun a => a.id) "no customer found" "multiple customers found" d
      (client.queryCustomerByName d.attrs.name)
      (dataSourceCustomerRead d client) := by
  unfold ExactlyOneOrError dataSourceCustomerRead
  dsimp only
  refine ⟨?_, ?_, ?_, ?_⟩
  · intro err h
    simp [h]
  · intro h
    rw [h]
    exact ⟨rfl, _, rfl, fun quote => occursIn_of_prefix _ _ _ rfl⟩
  · intro edges h hl
    have h0 : ¬ edges.length = 0 := by omega
    have h1 : edges.length > 1 := by omega
    rw [h]
    dsimp only
    rw [dif_neg h0, if_pos h1]
    exact ⟨rfl, _, rfl, fun quote => occursIn_of_prefix _ _ _ rfl⟩
  · intro e h
    simp [h, ResourceData.SetId]

/-- The project lookup is exactly-one-match-or-error. -/
theorem project_exactly_one (d : ResourceData ProjectAttrs) (client : LookupClient) :
    ExactlyOneOrError (fun a => a.id) "no project found" "multiple projects found" d
      (client.queryProjectByNameAndCustomer d.attrs.name d.attrs.customer_id)
      (dataSourceProjectRead d client) := by
  unfold ExactlyOneOrError dataSourceProjectRead
  dsimp only
  refine ⟨?_, ?_, ?_, ?_⟩
  · intro err h
    simp [h]
  · intro h
    rw [h]
    exact ⟨rfl, _, rfl, fun quote => occursIn_of_prefix _ _ _ rfl⟩
  · intro edges h hl
    have h0 : ¬ edges.length = 0 := by omega
    have h1 : edges.length > 1 := by omega
    rw [h]
    dsimp only
    rw [dif_neg h0, if_pos h1]
    exact ⟨rfl, _, rfl, fun quote => occursIn_of_prefix _ _ _ rfl⟩
  · intro e h
    simp [h, ResourceData.SetId]

/-- The domain lookup is exactly-one-match-or-error. -/
theorem domain_exactly_one (d : ResourceData DomainAttrs) (client : LookupClient) :
    ExactlyOneOrError (fun a => a.id) "no domain found" "multiple domains found" d
      (client.queryDomainByFilters d.attrs.customer_id d.attrs.name)
      (dataSourceDomainRead d client) := by
  unfold ExactlyOneOrError dataSourceDomainRead
  dsimp only
  refine ⟨?_, ?_, ?_, ?_⟩
  · intro err h
    simp [h]
  · intro h
    rw [h]
    exact ⟨rfl, _, rfl, fun quote => occursIn_of_prefix _ _ _ rfl⟩
  · intro edges h hl
    have h0 : ¬ edges.length = 0 := by omega
    have h1 : edges.length > 1 := by omega
    rw [h]
    dsimp only
    rw [dif_neg h0, if_pos h1]
    exact ⟨rfl, _, rfl, fun quote => occursIn_of_prefix _ _ _ rfl⟩
  · intro e h
    simp [h, ResourceData.SetId]

/-- The network lookup is exactly-one-match-or-error. -/
theorem network_exactly_one (d : ResourceData NetworkAttrs) (client : LookupClient) :
    ExactlyOneOrError (fun a => a.id) "no network found" "multiple networks found" d
      (client.queryNetworkByName d.attrs.name d.attrs.customer_id)
      (dataSourceNetworkRead d client) := by
  unfold ExactlyOneOrError dataSourceNetworkRead
  dsimp only
  refine ⟨?_, ?_, ?_, ?_⟩
  · intro err h
    simp [h]
  · intro h
    rw [h]
    exact ⟨rfl, _, rfl, fun quote => occursIn_of_prefix _ _ _ rfl⟩
  · intro edges h hl
    have h0 : ¬ edges.length = 0 := by omega
    have h1 : edges.length > 1 := by omega
    rw [h]
    dsimp only
    rw [dif_neg h0, if_pos h1]
    exact ⟨rfl, _, rfl, fun quote => occursIn_of_prefix _ _ _ rfl⟩
  · intro e h
    simp [h, ResourceData.SetId]

/-- The tier lookup is exactly-one-match-or-error. -/
theorem tier_exactly_one (ToUpper : String → String)
    (d : ResourceData TierAttrs) (client : LookupClient) :
    ExactlyOneOrError (fun a => a.id) "no tier found" "multiple tiers found" d
      (client.queryTierByName d.attrs.name (solutionTypeOf ToUpper d.attrs.solution_type))
      (dataSourceTierRead ToUpper d client) := by
  unfold ExactlyOneOrError dataSourceTierRead
  dsimp only
  refine ⟨?_, ?_, ?_, ?_⟩
  · intro err h
    simp [h]
  · intro h
    rw [h]
    exact ⟨rfl, _, rfl, fun quote => occursIn_of_prefix _ _ _ rfl⟩
  · intro edges h hl
    have h0 : ¬ edges.length = 0 := by omega
    have h1 : edges.length > 1 := by omega
    rw [h]
    dsimp only
    rw [dif_neg h0, if_pos h1]
    exact ⟨rfl, _, rfl, fun quote => occursIn_of_prefix _ _ _ rfl⟩
  · intro e h
    simp [h, ResourceData.SetId]

/-- The template lookup is exactly-one-match-or-error. -/
theorem template_exactly_one (ToUpper : String → String)
    (d : ResourceData TemplateAttrs) (client : LookupClient) :
    ExactlyOneOrError (fun a => a.id) "no template found" "multiple templates found" d
      (client.queryTemplateByName d.attrs.name d.attrs.customer_id
        (solutionTypeOf ToUpper d.attrs.solution_type) (ToUpper d.attrs.region))
      (dataSourceTemplateRead ToUpper d client) := by
  unfold ExactlyOneOrError dataSourceTemplateRead
  dsimp only
  refine ⟨?_, ?_, ?_, ?_⟩
  · intro err h
    simp [h]
  · intro h
    rw [h]
    exact ⟨rfl, _, rfl, fun quote => occursIn_of_prefix _ _ _ rfl⟩
  · intro edges h hl
    have h0 : ¬ edges.length = 0 := by omega
    have h1 : edges.length > 1 := by omega
    rw [h]
    dsimp only
    rw [dif_neg h0, if_pos h1]
    exact ⟨rfl, _, rfl, fun quote => occursIn_of_prefix _ _ _ rfl⟩
  · intro e h
    simp [h, ResourceData.SetId]

/-- The data-protection-policy lookup is exactly-one-match-or-error. -/
theorem policy_exactly_one (ToUpper : String → String)
    (d : ResourceData DataProtectionPolicyAttrs) (client : LookupClient) :
    ExactlyOneOrError (fun a => a.id) "no data protection policy found" "multiple data protection policies found" d
      (client.queryDataProtectionPolicyByFilters d.attrs.customer_id d.attrs.project_id
        (solutionTypeOf ToUpper d.attrs.solution_type) d.attrs.note)
      (dataProtectionPolicyRead ToUpper d client) := by
  unfold ExactlyOneOrError dataProtectionPolicyRead
  dsimp only
  refine ⟨?_, ?_, ?_, ?_⟩
  · intro err h
    simp [h]
  · intro h
    rw [h]
    exact ⟨rfl, _, rfl, fun quote => occursIn_of_prefix _ _ _ rfl⟩
  · intro edges h hl
    have h0 : ¬ edges.length = 0 := by omega
    have h1 : edges.length > 1 := by omega
    rw [h]
    dsimp only
    rw [dif_neg h0, if_pos h1]
    exact ⟨rfl, _, rfl, fun quote => occursIn_of_prefix _ _ _ rfl⟩
  · intro e h
    simp [h, ResourceData.SetId]


/-- C26. Each of the eight lookups (vCenter, customer, project, domain, network, tier, template,
data-protection-policy) is exactly-one-match-or-error for every resource data and every backend
answer: an executor error is returned as it is and the data is unchanged; an empty edge list
gives one error whose text contains `no ... found` and the data, identifier included, is
unchanged; a list of two or more edges gives one error whose text contains
`multiple ... found` and the data is unchanged; a list of exactly one edge gives no error and
sets the resource id and the `id` attribute to that node's id. -/
theorem lookups_exactly_one_or_error (ToUpper : String → String) (client : LookupClient) :
    (∀ d : ResourceData VcenterAttrs,
      ExactlyOneOrError (fun a => a.id) "no vcenter found" "multiple vcenters found" d
        (client.queryVcenterByNameAndCustomer d.attrs.name d.attrs.customer_id)
        (dataSourceVcenterRead d client)) ∧
    (∀ d : ResourceData CustomerAttrs,
      ExactlyOneOrError (fun a => a.id) "no customer found" "multiple customers found" d
        (client.queryCustomerByName d.attrs.name)
        (dataSourceCustomerRead d client)) ∧
    (∀ d : ResourceData ProjectAttrs,
      ExactlyOneOrError (fun a => a.id) "no project found" "multiple projects found" d
        (client.queryProjectByNameAndCustomer d.attrs.name d.attrs.customer_id)
        (dataSourceProjectRead d client)) ∧
    (∀ d : ResourceData DomainAttrs,
      ExactlyOneOrError (fun a => a.id) "no domain found" "multiple domains found" d
        (client.queryDomainByFilters d.attrs.customer_id d.attrs.name)
        (dataSourceDomainRead d client)) ∧
    (∀ d : ResourceData NetworkAttrs,
      ExactlyOneOrError (fun a => a.id) "no network found" "multiple networks found" d
        (client.queryNetworkByName d.attrs.name d.attrs.customer_id)
        (dataSourceNetworkRead d client)) ∧
    (∀ d : ResourceData TierAttrs,
      ExactlyOneOrError (fun a => a.id) "no tier found" "multiple tiers found" d
        (client.queryTierByName d.attrs.name (solutionTypeOf ToUpper d.attrs.solution_type))
        (dataSourceTierRead ToUpper d client)) ∧
    (∀ d : ResourceData TemplateAttrs,
      ExactlyOneOrError (fun a => a.id) "no template found" "multiple templates found" d
        (client.queryTemplateByName d.attrs.name d.attrs.customer_id
          (solutionTypeOf ToUpper d.attrs.solution_type) (ToUpper d.attrs.region))
        (dataSourceTemplateRead ToUpper d client)) ∧
    (∀ d : ResourceData DataProtectionPolicyAttrs,
      ExactlyOneOrError (fun a => a.id) "no data protection policy found"
        "multiple data protection policies found" d
        (client.queryDataProtectionPolicyByFilters d.attrs.customer_id d.attrs.project_id
          (solutionTypeOf ToUpper d.attrs.solution_type) d.attrs.note)
        (dataProtectionPolicyRead ToUpper d client)) :=
  ⟨fun d => vcenter_exactly_one d client, fun d => customer_exactly_one d client,
    fun d => project_exactly_one d client, fun d => domain_exactly_one d client,
    fun d => network_exactly_one d client, fun d => tier_exactly_one ToUpper d client,
    fun d => template_exactly_one ToUpper d client,
    fun d => policy_exactly_one ToUpper d client⟩

/-- C26 on the three cases of `TestDataSourceVcenterRead` (customer `cust-1`, name
`vcenter-01`): no edge gives the error `no vcenter found ...` and no id; the one edge `vc-1`
gives no error and sets the resource id and the `id` attribute to `vc-1`; the two edges `vc-1`,
`vc-2` give the error `multiple vcenters found ...` and no id. -/
theorem lookups_exactly_one_or_error_witness :
    ((dataSourceVcenterRead testVcenterData (vcenterClient [])).d = testVcenterData ∧
      (∃ g : Diag, (dataSourceVcenterRead testVcenterData (vcenterClient [])).diags = [g] ∧
        ∀ quote : String → String, occursIn "no vcenter found" (g.Summary quote) = true) ∧
      (dataSourceVcenterRead testVcenterData (vcenterClient [])).diags.map
          (Diag.Summary plainQuote) =
        ["no vcenter found with name \"vcenter-01\" for customer \"cust-1\""]) ∧
    ((dataSourceVcenterRead testVcenterData
        (vcenterClient [⟨"vc-1", "vcenter-01"⟩])).diags = [] ∧
      (dataSourceVcenterRead testVcenterData
        (vcenterClient [⟨"vc-1", "vcenter-01"⟩])).d.id = "vc-1" ∧
      (dataSourceVcenterRead testVcenterData
        (vcenterClient [⟨"vc-1", "vcenter-01"⟩])).d.attrs.id = "vc-1") ∧
    ((dataSourceVcenterRead testVcenterData
        (vcenterClient [⟨"vc-1", ""⟩, ⟨"vc-2", ""⟩])).d = testVcenterData ∧
      (∃ g : Diag, (dataSourceVcenterRead testVcenterData
          (vcenterClient [⟨"vc-1", ""⟩, ⟨"vc-2", ""⟩])).diags = [g] ∧
        ∀ quote : String → String, occursIn "multiple vcenters found" (g.Summary quote) = true) ∧
      (dataSourceVcenterRead testVcenterData
          (vcenterClient [⟨"vc-1", ""⟩, ⟨"vc-2", ""⟩])).diags.map (Diag.Summary plainQuote) =
        ["multiple vcenters found with name \"vcenter-01\" for given customer, please refine"]) :=
  have h0 := (lookups_exactly_one_or_error String.toUpper (vcenterClient [])).1 testVcenterData
  have h1 := (lookups_exactly_one_or_error String.toUpper
    (vcenterClient [⟨"vc-1", "vcenter-01"⟩])).1 testVcenterData
  have h2 := (lookups_exactly_one_or_error String.toUpper
    (vcenterClient [⟨"vc-1", ""⟩, ⟨"vc-2", ""⟩])).1 testVcenterData
  ⟨⟨(h0.2.1 rfl).1, (h0.2.1 rfl).2, by decide⟩,
    h1.2.2.2 ⟨"vc-1", "vcenter-01"⟩ rfl,
    ⟨(h2.2.2.1 _ rfl (by decide)).1, (h2.2.2.1 _ rfl (by decide)).2, by decide⟩⟩


/-! ### C29: what `Provider` registers -/

/-- C29 (evaluation of the code). The provider returned by `Provider` registers one resource
type, `ocp_virtual_host`, and seven data sources: no entry of `ResourcesMap` has the key
`ocp_virtual_host_caas` or `ocp_virtual_host_immutable` or the value `ResourceVirtualHostCaas`
or `ResourceVirtualHostImmutable`, and no entry of `DataSourcesMap` has the key `ocp_vcenter` or
the value `DataSourceVcenter`; the standard resource and the seven other lookups are
registered. -/
theorem provider_registers_one_resource_and_seven_data_sources :
    Provider.ResourcesMap.map Prod.fst = ["ocp_virtual_host"] ∧
    Provider.ResourcesMap.lookup "ocp_virtual_host" = some SchemaResource.ResourceVirtualHost ∧
    Provider.ResourcesMap.lookup "ocp_virtual_host_caas" = none ∧
    Provider.ResourcesMap.lookup "ocp_virtual_host_immutable" = none ∧
    registeredIn Provider.ResourcesMap SchemaResource.ResourceVirtualHostCaas = false ∧
    registeredIn Provider.ResourcesMap SchemaResource.ResourceVirtualHostImmutable = false ∧
    Provider.DataSourcesMap.length = 7 ∧
    Provider.DataSourcesMap.map Prod.fst =
      ["ocp_customer", "ocp_data_protection_policy", "ocp_domain", "ocp_network", "ocp_project",
        "ocp_template", "ocp_tier"] ∧
    Provider.DataSourcesMap.lookup "ocp_vcenter" = none ∧
    registeredIn Provider.DataSourcesMap SchemaResource.DataSourceVcenter = false ∧
    registeredIn Provider.ResourcesMap SchemaResource.DataSourceVcenter = false ∧
    (∀ r ∈ [SchemaResource.DataSourceCustomer, SchemaResource.DataSourceDataProtectionPolicy,
        SchemaResource.DataSourceDomain, SchemaResource.DataSourceNetwork,
        SchemaResource.DataSourceProject, SchemaResource.DataSourceTemplate,
        SchemaResource.DataSourceTier],
      registeredIn Provider.DataSourcesMap r = true) := by
  refine ⟨rfl, rfl, rfl, rfl, rfl, rfl, rfl, rfl, rfl, rfl, rfl, by decide⟩

end Ocp
